import Mathlib

/-!
# Dual-output orchestration: `DualOutputHandler`

A shallow embedding of `frontend/dual-output/DualOutputHandler.cpp`.

* Raw pointers are `Option Nat` (`none` is `nullptr`).
* The two `BasicOutputHandler` objects are external collaborators: each is a
  record holding its address and the replies it gives to the calls the
  coordinator makes on it.
* A method that dereferences `houtput` / `voutput` returns `none` when the
  pointer it dereferences is null.
* `QMetaObject::invokeMethod(main, ...)` and `main->SysTrayNotify(...)` are
  recorded, in program order, in the list of `Notification`s a callback returns.
* Calls made on the handlers are recorded, in program order, as `HandlerCall`s.
-/

namespace DualOutput

/-- Raw pointer value: `none` is `nullptr`, `some a` is the address `a`. -/
abbrev Ptr := Option Nat

/-- Modelled from the spec: the enumeration `StreamingType` is declared in
`BasicOutputHandler.hpp`, which is not among the sources. Section 3 of the
specification gives its values: the horizontal (Primary) surface, the vertical
(Secondary) surface and the sentinel `StreamingTypeMax`. -/
inductive StreamingType where
  | Horizontal
  | Vertical
  | StreamingTypeMax
  deriving DecidableEq, Repr

open StreamingType

/-- A two-slot array indexed by `Horizontal` and `Vertical`
(`T name[StreamingTypeMax]` in the class). -/
structure PerType (α : Type) where
  horizontal : α
  vertical : α
  deriving DecidableEq, Repr

/-- Array read `a[t]`. The source indexes only with `Horizontal` or `Vertical`;
the sentinel is outside the array and is given the vertical slot here. -/
def PerType.get {α : Type} (a : PerType α) : StreamingType → α
  | Horizontal => a.horizontal
  | Vertical => a.vertical
  | StreamingTypeMax => a.vertical

/-- Array write `a[t] = v`. The source writes only at `Horizontal` or `Vertical`;
a write at the sentinel is outside the array and leaves both slots as they are. -/
def PerType.set {α : Type} (a : PerType α) (t : StreamingType) (v : α) : PerType α :=
  match t with
  | Horizontal => { a with horizontal := v }
  | Vertical => { a with vertical := v }
  | StreamingTypeMax => a

/-- Modelled from the spec: the member declarations of the per-surface state
table are in `DualOutputHandler.hpp`, which is not among the sources. The
fields are those assigned by `resetState`, with the types section 3 of the
specification gives them (`startStreaming` is `startRequested`,
`streamingStartInvoked` is `aggregateStartReported`). -/
structure StateTable where
  startStreaming : PerType Bool
  streamDelayStarting : PerType Bool
  streamDelayStopping : PerType Bool
  streamingStartInvoked : Bool
  streamingStart : PerType Bool
  streamStopping : PerType Bool
  streamingStop : PerType Bool
  streamDelayStartingSec : PerType Int
  streamDelayStoppingSec : PerType Int
  streamingStopErrorCode : PerType Int
  streamingStopLastError : PerType String
  deriving DecidableEq, Repr

/-- Modelled from the spec: `BasicOutputHandler` is declared in
`BasicOutputHandler.hpp`, which is not among the sources. Section 4.1 of the
specification lists its operations. The record holds the object address and
the reply the object gives to each call the coordinator makes on it. -/
structure BasicOutputHandler where
  addr : Nat
  StartStreaming : Ptr → Bool
  StartRecording : Bool
  StartReplayBuffer : Bool
  StartVirtualCam : Bool
  StreamingActive : Bool
  RecordingActive : Bool
  ReplayBufferActive : Bool
  VirtualCamActive : Bool
  Active : Bool
  streamingActive : Bool
  replayBufferActive : Bool
  virtualCamActive : Bool

/-- The class `DualOutputHandler`: the two owned handlers, the consumer
pointer `main`, and the state table. -/
structure DualOutputHandler extends StateTable where
  houtput : Option BasicOutputHandler
  voutput : Option BasicOutputHandler
  main : Ptr

/-- A call the coordinator makes on one of its handlers: `target` is
`Horizontal` for `houtput` and `Vertical` for `voutput`; `returned` is the
reply of a call that has one. -/
inductive HandlerCall where
  | StartStreaming (target : StreamingType) (service : Ptr) (returned : Bool)
  | StopStreaming (target : StreamingType) (force : Bool)
  | StartRecording (target : StreamingType) (returned : Bool)
  | StartReplayBuffer (target : StreamingType) (returned : Bool)
  | StartVirtualCam (target : StreamingType) (returned : Bool)
  | StopRecording (target : StreamingType) (force : Bool)
  | StopReplayBuffer (target : StreamingType) (force : Bool)
  | StopVirtualCam (target : StreamingType)
  | StreamingActive (target : StreamingType) (returned : Bool)
  | RecordingActive (target : StreamingType) (returned : Bool)
  | ReplayBufferActive (target : StreamingType) (returned : Bool)
  | VirtualCamActive (target : StreamingType) (returned : Bool)
  | Active (target : StreamingType) (returned : Bool)
  | Update (target : StreamingType)
  | UpdateVirtualCamOutputSource (target : StreamingType)
  deriving DecidableEq, Repr

/-- What the coordinator sends to `main`: the slots it invokes through
`QMetaObject::invokeMethod` and the tray warning
`SysTrayNotify(QTStr("Stream.Error"), QSystemTrayIcon::Warning)`. -/
inductive Notification where
  | StreamDelayStarting (hsec vsec : Int)
  | StreamDelayStopping (hsec vsec : Int)
  | StreamingStart
  | StreamStopping
  | StreamingStop (hcode : Int) (herror : String) (vcode : Int) (verror : String)
  | SysTrayNotify
  | RecordingStart
  | RecordStopping
  | RecordingStop (code : Int) (last_error : String)
  | RecordingFileChanged (lastRecordingPath : String)
  | ReplayBufferStart
  | ReplayBufferSaved
  | ReplayBufferStopping
  | ReplayBufferStop (code : Int)
  | OnVirtualCamStart
  | OnVirtualCamStop (code : Int)
  deriving DecidableEq, Repr

namespace DualOutputHandler

/-- The value of `houtput.get()`. -/
def houtputPtr (d : DualOutputHandler) : Ptr :=
  d.houtput.map BasicOutputHandler.addr

/-- The value of `voutput.get()`. -/
def voutputPtr (d : DualOutputHandler) : Ptr :=
  d.voutput.map BasicOutputHandler.addr

/-- The expression
`houtput.get() == handler ? StreamingType::Horizontal : StreamingType::Vertical`
that opens each streaming callback. -/
def typeOf (d : DualOutputHandler) (handler : Ptr) : StreamingType :=
  if d.houtputPtr = handler then Horizontal else Vertical

/-- The method `DualOutputHandler::resetState`. -/
def resetState (d : DualOutputHandler) : DualOutputHandler :=
  { d with
    startStreaming := ⟨false, false⟩
    streamDelayStarting := ⟨false, false⟩
    streamDelayStopping := ⟨false, false⟩
    streamingStartInvoked := false
    streamingStart := ⟨false, false⟩
    streamStopping := ⟨false, false⟩
    streamingStop := ⟨false, false⟩
    streamDelayStartingSec := ⟨0, 0⟩
    streamDelayStoppingSec := ⟨0, 0⟩
    streamingStopErrorCode := ⟨0, 0⟩
    streamingStopLastError := ⟨"", ""⟩ }

/-- The method `DualOutputHandler::StartStreaming(service, vservice)`. The
result is `none` when the branch taken dereferences a null handler; otherwise
it is the new object, the handler calls made (in order) and the returned
boolean. -/
def StartStreaming (d : DualOutputHandler) (service vservice : Ptr) :
    Option (DualOutputHandler × List HandlerCall × Bool) :=
  let d := resetState d
  if service = none then
    match d.voutput with
    | none => none
    | some v =>
      let rv := v.StartStreaming vservice
      let d := { d with startStreaming := d.startStreaming.set Vertical rv }
      some (d, [HandlerCall.StartStreaming Vertical vservice rv],
        d.startStreaming.get Horizontal || d.startStreaming.get Vertical)
  else if vservice = none then
    match d.houtput with
    | none => none
    | some h =>
      let rh := h.StartStreaming service
      let d := { d with startStreaming := d.startStreaming.set Horizontal rh }
      some (d, [HandlerCall.StartStreaming Horizontal service rh],
        d.startStreaming.get Horizontal || d.startStreaming.get Vertical)
  else
    match d.voutput with
    | none => none
    | some v =>
      let rv := v.StartStreaming vservice
      let d := { d with startStreaming := d.startStreaming.set Vertical rv }
      match d.houtput with
      | none => none
      | some h =>
        let rh := h.StartStreaming service
        let d := { d with startStreaming := d.startStreaming.set Horizontal rh }
        some (d, [HandlerCall.StartStreaming Vertical vservice rv,
                  HandlerCall.StartStreaming Horizontal service rh],
          d.startStreaming.get Horizontal || d.startStreaming.get Vertical)

/-- The slot `DualOutputHandler::StreamDelayStarting(handler, sec)`. -/
def StreamDelayStarting (d : DualOutputHandler) (handler : Ptr) (sec : Int) :
    DualOutputHandler × List Notification :=
  let type := d.typeOf handler
  let d := { d with streamDelayStarting := d.streamDelayStarting.set type true }
  let d := { d with streamDelayStartingSec := d.streamDelayStartingSec.set type sec }
  if (!d.startStreaming.get Horizontal || d.streamDelayStarting.get Horizontal) &&
     (!d.startStreaming.get Vertical || d.streamDelayStarting.get Vertical) then
    (d, [Notification.StreamDelayStarting (d.streamDelayStartingSec.get Horizontal)
          (d.streamDelayStartingSec.get Vertical)])
  else
    (d, [])

/-- The slot `DualOutputHandler::StreamDelayStopping(handler, sec)`. -/
def StreamDelayStopping (d : DualOutputHandler) (handler : Ptr) (sec : Int) :
    DualOutputHandler × List Notification :=
  let type := d.typeOf handler
  let d := { d with streamDelayStopping := d.streamDelayStopping.set type true }
  let d := { d with streamDelayStoppingSec := d.streamDelayStoppingSec.set type sec }
  if (!d.startStreaming.get Horizontal || d.streamDelayStopping.get Horizontal) &&
     (!d.startStreaming.get Vertical || d.streamDelayStopping.get Vertical) then
    (d, [Notification.StreamDelayStopping (d.streamDelayStoppingSec.get Horizontal)
          (d.streamDelayStoppingSec.get Vertical)])
  else
    (d, [])

/-- The slot `DualOutputHandler::StreamingStart(handler)`. -/
def StreamingStart (d : DualOutputHandler) (handler : Ptr) :
    DualOutputHandler × List Notification :=
  let type := d.typeOf handler
  let d := { d with streamingStart := d.streamingStart.set type true }
  if (!d.streamingStartInvoked) &&
     (!d.startStreaming.get Horizontal || d.streamingStart.get Horizontal ||
       d.streamingStop.get Horizontal) &&
     (!d.startStreaming.get Vertical || d.streamingStart.get Vertical ||
       d.streamingStop.get Vertical) then
    let d := { d with streamingStartInvoked := true }
    if d.streamingStop.get Horizontal then
      let d := { d with streamingStopErrorCode := d.streamingStopErrorCode.set Horizontal 0 }
      let d := { d with streamingStopLastError := d.streamingStopLastError.set Horizontal "" }
      (d, [Notification.SysTrayNotify, Notification.StreamingStart])
    else if d.streamingStop.get Vertical then
      let d := { d with streamingStopErrorCode := d.streamingStopErrorCode.set Vertical 0 }
      let d := { d with streamingStopLastError := d.streamingStopLastError.set Vertical "" }
      (d, [Notification.SysTrayNotify, Notification.StreamingStart])
    else
      (d, [Notification.StreamingStart])
  else
    (d, [])

/-- The slot `DualOutputHandler::StreamStopping(handler)`. -/
def StreamStopping (d : DualOutputHandler) (handler : Ptr) :
    DualOutputHandler × List Notification :=
  let type := d.typeOf handler
  let d := { d with streamStopping := d.streamStopping.set type true }
  if (!d.startStreaming.get Horizontal || d.streamStopping.get Horizontal) &&
     (!d.startStreaming.get Vertical || d.streamStopping.get Vertical) then
    (d, [Notification.StreamStopping])
  else
    (d, [])

/-- The slot `DualOutputHandler::StreamingStop(handler, errorcode, last_error)`:
the three assignments, then the first `if` (the late report of the aggregate
start), then the second `if` (the aggregate stop), which reads the object as
the first `if` left it. -/
def StreamingStop (d : DualOutputHandler) (handler : Ptr) (errorcode : Int)
    (last_error : String) : DualOutputHandler × List Notification :=
  let type := d.typeOf handler
  let d := { d with streamingStop := d.streamingStop.set type true }
  let d := { d with streamingStopErrorCode := d.streamingStopErrorCode.set type errorcode }
  let d := { d with streamingStopLastError := d.streamingStopLastError.set type last_error }
  let r : DualOutputHandler × List Notification :=
    if (!d.streamingStartInvoked) &&
       (d.streamingStart.get Horizontal || d.streamingStart.get Vertical) &&
       (!d.startStreaming.get Horizontal || d.streamingStart.get Horizontal ||
         d.streamingStop.get Horizontal) &&
       (!d.startStreaming.get Vertical || d.streamingStart.get Vertical ||
         d.streamingStop.get Vertical) then
      let d := { d with streamingStartInvoked := true }
      let d := { d with streamingStopErrorCode := d.streamingStopErrorCode.set type 0 }
      let d := { d with streamingStopLastError := d.streamingStopLastError.set type "" }
      (d, [Notification.SysTrayNotify, Notification.StreamingStart])
    else
      (d, [])
  let d := r.1
  if (!d.startStreaming.get Horizontal || d.streamingStop.get Horizontal) &&
     (!d.startStreaming.get Vertical || d.streamingStop.get Vertical) then
    (d, r.2 ++ [Notification.StreamingStop
      (d.streamingStopErrorCode.get Horizontal) (d.streamingStopLastError.get Horizontal)
      (d.streamingStopErrorCode.get Vertical) (d.streamingStopLastError.get Vertical)])
  else
    (d, r.2)

end DualOutputHandler

/-- One of the five per-surface streaming callbacks, with its arguments. -/
inductive Callback where
  | StreamDelayStarting (handler : Ptr) (sec : Int)
  | StreamDelayStopping (handler : Ptr) (sec : Int)
  | StreamingStart (handler : Ptr)
  | StreamStopping (handler : Ptr)
  | StreamingStop (handler : Ptr) (errorcode : Int) (last_error : String)
  deriving DecidableEq, Repr

/-- Deliver one callback to the coordinator. -/
def deliver (d : DualOutputHandler) : Callback → DualOutputHandler × List Notification
  | Callback.StreamDelayStarting handler sec => d.StreamDelayStarting handler sec
  | Callback.StreamDelayStopping handler sec => d.StreamDelayStopping handler sec
  | Callback.StreamingStart handler => d.StreamingStart handler
  | Callback.StreamStopping handler => d.StreamStopping handler
  | Callback.StreamingStop handler errorcode last_error =>
      d.StreamingStop handler errorcode last_error

/-- Deliver a sequence of callbacks one after the other (the control thread
processes them one at a time); the notifications are collected in order. -/
def deliverAll (d : DualOutputHandler) : List Callback → DualOutputHandler × List Notification
  | [] => (d, [])
  | c :: cs =>
    let r := deliver d c
    let rs := deliverAll r.1 cs
    (rs.1, r.2 ++ rs.2)

/-- The state table as `resetState` leaves it, with `startStreaming` holding
the replies `h` and `v`: the table at the beginning of a cycle. -/
def freshTable (h v : Bool) : StateTable :=
  { startStreaming := ⟨h, v⟩
    streamDelayStarting := ⟨false, false⟩
    streamDelayStopping := ⟨false, false⟩
    streamingStartInvoked := false
    streamingStart := ⟨false, false⟩
    streamStopping := ⟨false, false⟩
    streamingStop := ⟨false, false⟩
    streamDelayStartingSec := ⟨0, 0⟩
    streamDelayStoppingSec := ⟨0, 0⟩
    streamingStopErrorCode := ⟨0, 0⟩
    streamingStopLastError := ⟨"", ""⟩ }

/-- How many more times the aggregate start can be reported: once while
`streamingStartInvoked` is clear, never after. -/
def startBudget (d : DualOutputHandler) : Nat :=
  if d.streamingStartInvoked then 0 else 1

/-- The target and reply of each `StartStreaming` call in a list of handler
calls, in order. -/
def startReplies : List HandlerCall → List (StreamingType × Bool)
  | [] => []
  | HandlerCall.StartStreaming target _ returned :: cs => (target, returned) :: startReplies cs
  | _ :: cs => startReplies cs

/-- True for the `started` callback kind. -/
def Callback.isStarted : Callback → Bool
  | Callback.StreamingStart _ => true
  | _ => false

/-- The state table produced by writing the replies, in order, into the
`startStreaming` slots of a table that was just reset. -/
def tableAfter (replies : List (StreamingType × Bool)) : StateTable :=
  replies.foldl (fun t p => { t with startStreaming := t.startStreaming.set p.1 p.2 })
    (freshTable false false)

/-- The surface other than `t`. -/
def otherType : StreamingType → StreamingType
  | Horizontal => Vertical
  | Vertical => Horizontal
  | StreamingTypeMax => StreamingTypeMax

/-- A handler at address `a` that answers every `StartStreaming` call with `r`. -/
def sampleHandler (a : Nat) (r : Bool) : BasicOutputHandler :=
  { addr := a
    StartStreaming := fun _ => r
    StartRecording := true
    StartReplayBuffer := true
    StartVirtualCam := true
    StreamingActive := false
    RecordingActive := false
    ReplayBufferActive := false
    VirtualCamActive := false
    Active := false
    streamingActive := false
    replayBufferActive := false
    virtualCamActive := false }

/-- A state table left behind by an earlier cycle: every flag set, every
counter, code and message non-zero. -/
def staleTable : StateTable :=
  { startStreaming := ⟨true, true⟩
    streamDelayStarting := ⟨true, true⟩
    streamDelayStopping := ⟨true, true⟩
    streamingStartInvoked := true
    streamingStart := ⟨true, true⟩
    streamStopping := ⟨true, true⟩
    streamingStop := ⟨true, true⟩
    streamDelayStartingSec := ⟨3, 5⟩
    streamDelayStoppingSec := ⟨7, 11⟩
    streamingStopErrorCode := ⟨-1, -2⟩
    streamingStopLastError := ⟨"old-h", "old-v"⟩ }

/-- A coordinator with both handlers (addresses 1 and 2, answering
`StartStreaming` with `rh` and `rv`) and the given state table. -/
def sampleObject (t : StateTable) (rh rv : Bool) : DualOutputHandler :=
  { t with
    houtput := some (sampleHandler 1 rh)
    voutput := some (sampleHandler 2 rv)
    main := some 9 }

/-- A coordinator in single-output mode: only the horizontal handler exists. -/
def sampleSingle (t : StateTable) (rh : Bool) : DualOutputHandler :=
  { t with
    houtput := some (sampleHandler 1 rh)
    voutput := none
    main := some 9 }

/-- The result of `StartStreaming` on `sampleObject` with both configurations
present and both handlers accepting: the beginning of a dual cycle. -/
def sampleBoth : DualOutputHandler × List HandlerCall × Bool :=
  (sampleObject (freshTable true true) true true,
    [HandlerCall.StartStreaming Vertical (some 20) true,
     HandlerCall.StartStreaming Horizontal (some 10) true], true)

/-- The result of `StartStreaming` on `sampleObject` with only the horizontal
configuration present and the horizontal handler accepting: the beginning of a
cycle in which only the horizontal surface was requested. -/
def sampleOnlyH : DualOutputHandler × List HandlerCall × Bool :=
  (sampleObject (freshTable true false) true true,
    [HandlerCall.StartStreaming Horizontal (some 10) true], true)

/-- Modelled from the spec: the factories `CreateAdvancedOutputHandler` and
`CreateSimpleOutputHandler` are declared outside the sources (section 6 of the
specification: `CreateOutputHandler(profileKind, coordinator,
isSecondarySurface)`). Each takes the consumer pointer and the vertical flag
and returns a handler pointer, possibly null; the coordinator argument `this`
is left out. -/
structure HandlerFactory where
  CreateAdvancedOutputHandler : Ptr → Bool → Option BasicOutputHandler
  CreateSimpleOutputHandler : Ptr → Bool → Option BasicOutputHandler

/-- A call the coordinator makes on a factory, with its arguments. -/
inductive FactoryCall where
  | CreateAdvancedOutputHandler (main : Ptr) (vertical : Bool)
  | CreateSimpleOutputHandler (main : Ptr) (vertical : Bool)
  deriving DecidableEq, Repr

namespace DualOutputHandler

/-- The conversion `DualOutputHandler::operator bool() const`. The argument
`dualOutputOn` is the value `is_dual_output_on()` returns, a function declared
outside the sources. -/
def operatorBool (d : DualOutputHandler) (dualOutputOn : Bool) : Bool :=
  if d.houtput.isNone then
    false
  else if !dualOutputOn then
    true
  else if d.voutput.isNone then
    false
  else
    true

/-- The comparison `DualOutputHandler::operator==(std::nullptr_t) const`. -/
def eqNullptr (d : DualOutputHandler) (dualOutputOn : Bool) : Bool :=
  !d.operatorBool dualOutputOn

/-- The method `DualOutputHandler::reset(OBSBasic *main_)`. -/
def reset (d : DualOutputHandler) (main_ : Ptr) : DualOutputHandler :=
  let d := { d with main := main_ }
  let d := { d with houtput := none }
  { d with voutput := none }

/-- The method `DualOutputHandler::reset(bool advOut, OBSBasic *main)`. The
result is the new object and the factory calls made, in order. -/
def resetAdvOut (d : DualOutputHandler) (dualOutputOn : Bool) (factory : HandlerFactory)
    (advOut : Bool) (main : Ptr) : DualOutputHandler × List FactoryCall :=
  let d := d.reset main
  let d := { d with houtput :=
    if advOut then factory.CreateAdvancedOutputHandler main false
    else factory.CreateSimpleOutputHandler main false }
  let c₁ := if advOut then FactoryCall.CreateAdvancedOutputHandler main false
    else FactoryCall.CreateSimpleOutputHandler main false
  if dualOutputOn then
    let d := { d with voutput :=
      if advOut then factory.CreateAdvancedOutputHandler main true
      else factory.CreateSimpleOutputHandler main true }
    let c₂ := if advOut then FactoryCall.CreateAdvancedOutputHandler main true
      else FactoryCall.CreateSimpleOutputHandler main true
    (d, [c₁, c₂])
  else
    (d, [c₁])

/-- The method `DualOutputHandler::StartRecording`. -/
def StartRecording (d : DualOutputHandler) :
    Option (DualOutputHandler × List HandlerCall × Bool) :=
  match d.houtput with
  | none => none
  | some h => some (d, [HandlerCall.StartRecording Horizontal h.StartRecording],
      h.StartRecording)

/-- The method `DualOutputHandler::StartReplayBuffer`. -/
def StartReplayBuffer (d : DualOutputHandler) :
    Option (DualOutputHandler × List HandlerCall × Bool) :=
  match d.houtput with
  | none => none
  | some h => some (d, [HandlerCall.StartReplayBuffer Horizontal h.StartReplayBuffer],
      h.StartReplayBuffer)

/-- The method `DualOutputHandler::StartVirtualCam`. -/
def StartVirtualCam (d : DualOutputHandler) :
    Option (DualOutputHandler × List HandlerCall × Bool) :=
  match d.houtput with
  | none => none
  | some h => some (d, [HandlerCall.StartVirtualCam Horizontal h.StartVirtualCam],
      h.StartVirtualCam)

/-- The method `DualOutputHandler::StopStreaming(force, streamType)`. The
result is `none` when a null handler is dereferenced; otherwise it is the
object and the handler calls made, in order. -/
def StopStreaming (d : DualOutputHandler) (dualOutputOn : Bool) (force : Bool)
    (streamType : StreamingType) : Option (DualOutputHandler × List HandlerCall) :=
  let first : Option (List HandlerCall) :=
    if Horizontal = streamType ∨ StreamingTypeMax = streamType then
      match d.houtput with
      | none => none
      | some _ => some [HandlerCall.StopStreaming Horizontal force]
    else
      some []
  match first with
  | none => none
  | some calls =>
    if dualOutputOn then
      if Vertical = streamType ∨ StreamingTypeMax = streamType then
        match d.voutput with
        | none => none
        | some _ => some (d, calls ++ [HandlerCall.StopStreaming Vertical force])
      else
        some (d, calls)
    else
      some (d, calls)

/-- The method `DualOutputHandler::StopRecording(force)`. -/
def StopRecording (d : DualOutputHandler) (force : Bool) :
    Option (DualOutputHandler × List HandlerCall) :=
  match d.houtput with
  | none => none
  | some _ => some (d, [HandlerCall.StopRecording Horizontal force])

/-- The method `DualOutputHandler::StopReplayBuffer(force)`. -/
def StopReplayBuffer (d : DualOutputHandler) (force : Bool) :
    Option (DualOutputHandler × List HandlerCall) :=
  match d.houtput with
  | none => none
  | some _ => some (d, [HandlerCall.StopReplayBuffer Horizontal force])

/-- The method `DualOutputHandler::StopVirtualCam`. -/
def StopVirtualCam (d : DualOutputHandler) :
    Option (DualOutputHandler × List HandlerCall) :=
  match d.houtput with
  | none => none
  | some _ => some (d, [HandlerCall.StopVirtualCam Horizontal])

/-- The method `DualOutputHandler::StreamingActive() const`:
`houtput->StreamingActive() || (voutput && voutput->StreamingActive())`, with
the short-circuit evaluation of the two operators. -/
def StreamingActive (d : DualOutputHandler) :
    Option (DualOutputHandler × List HandlerCall × Bool) :=
  match d.houtput with
  | none => none
  | some h =>
    if h.StreamingActive then
      some (d, [HandlerCall.StreamingActive Horizontal true], true)
    else
      match d.voutput with
      | none => some (d, [HandlerCall.StreamingActive Horizontal false], false)
      | some v => some (d, [HandlerCall.StreamingActive Horizontal false,
          HandlerCall.StreamingActive Vertical v.StreamingActive], v.StreamingActive)

/-- The method `DualOutputHandler::RecordingActive() const`. -/
def RecordingActive (d : DualOutputHandler) :
    Option (DualOutputHandler × List HandlerCall × Bool) :=
  match d.houtput with
  | none => none
  | some h => some (d, [HandlerCall.RecordingActive Horizontal h.RecordingActive],
      h.RecordingActive)

/-- The method `DualOutputHandler::ReplayBufferActive() const`. -/
def ReplayBufferActive (d : DualOutputHandler) :
    Option (DualOutputHandler × List HandlerCall × Bool) :=
  match d.houtput with
  | none => none
  | some h => some (d, [HandlerCall.ReplayBufferActive Horizontal h.ReplayBufferActive],
      h.ReplayBufferActive)

/-- The method `DualOutputHandler::VirtualCamActive() const`. -/
def VirtualCamActive (d : DualOutputHandler) :
    Option (DualOutputHandler × List HandlerCall × Bool) :=
  match d.houtput with
  | none => none
  | some h => some (d, [HandlerCall.VirtualCamActive Horizontal h.VirtualCamActive],
      h.VirtualCamActive)

/-- The method `DualOutputHandler::Update`. -/
def Update (d : DualOutputHandler) : Option (DualOutputHandler × List HandlerCall) :=
  match d.houtput with
  | none => none
  | some _ => some (d, [HandlerCall.Update Horizontal])

/-- The method `DualOutputHandler::UpdateVirtualCamOutputSource`. -/
def UpdateVirtualCamOutputSource (d : DualOutputHandler) :
    Option (DualOutputHandler × List HandlerCall) :=
  match d.houtput with
  | none => none
  | some _ => some (d, [HandlerCall.UpdateVirtualCamOutputSource Horizontal])

/-- The method `DualOutputHandler::Active() const`:
`houtput->Active() || (voutput && voutput->Active())`. -/
def Active (d : DualOutputHandler) :
    Option (DualOutputHandler × List HandlerCall × Bool) :=
  match d.houtput with
  | none => none
  | some h =>
    if h.Active then
      some (d, [HandlerCall.Active Horizontal true], true)
    else
      match d.voutput with
      | none => some (d, [HandlerCall.Active Horizontal false], false)
      | some v => some (d, [HandlerCall.Active Horizontal false,
          HandlerCall.Active Vertical v.Active], v.Active)

/-- The method `DualOutputHandler::streamingActive() const`, which reads the
member `streamingActive` of the handlers:
`houtput->streamingActive || (voutput && voutput->streamingActive)`. -/
def streamingActive (d : DualOutputHandler) :
    Option (DualOutputHandler × List HandlerCall × Bool) :=
  match d.houtput with
  | none => none
  | some h =>
    if h.streamingActive then
      some (d, [], true)
    else
      match d.voutput with
      | none => some (d, [], false)
      | some v => some (d, [], v.streamingActive)

/-- The method `DualOutputHandler::streamingActive(StreamingType) const`. In
the `default` branch the asserted expression is the disjunction of `false`
and a string literal, which is true, so the assertion passes and the method
returns false. -/
def streamingActiveOf (d : DualOutputHandler) (streamType : StreamingType) :
    Option (DualOutputHandler × List HandlerCall × Bool) :=
  match streamType with
  | Horizontal =>
    match d.houtput with
    | none => none
    | some h => some (d, [], h.streamingActive)
  | Vertical =>
    match d.voutput with
    | none => some (d, [], false)
    | some v => some (d, [], v.streamingActive)
  | StreamingTypeMax => some (d, [], false)

/-- The method `DualOutputHandler::replayBufferActive() const`. -/
def replayBufferActive (d : DualOutputHandler) :
    Option (DualOutputHandler × List HandlerCall × Bool) :=
  match d.houtput with
  | none => none
  | some h => some (d, [], h.replayBufferActive)

/-- The method `DualOutputHandler::virtualCamActive() const`. -/
def virtualCamActive (d : DualOutputHandler) :
    Option (DualOutputHandler × List HandlerCall × Bool) :=
  match d.houtput with
  | none => none
  | some h => some (d, [], h.virtualCamActive)

/-- The slot `DualOutputHandler::RecordingStart(handler)`. -/
def RecordingStart (d : DualOutputHandler) (_handler : Ptr) :
    DualOutputHandler × List Notification :=
  (d, [Notification.RecordingStart])

/-- The slot `DualOutputHandler::RecordStopping(handler)`. -/
def RecordStopping (d : DualOutputHandler) (_handler : Ptr) :
    DualOutputHandler × List Notification :=
  (d, [Notification.RecordStopping])

/-- The slot `DualOutputHandler::RecordingStop(handler, code, last_error)`. -/
def RecordingStop (d : DualOutputHandler) (_handler : Ptr) (code : Int)
    (last_error : String) : DualOutputHandler × List Notification :=
  (d, [Notification.RecordingStop code last_error])

/-- The slot `DualOutputHandler::RecordingFileChanged(handler, lastRecordingPath)`. -/
def RecordingFileChanged (d : DualOutputHandler) (_handler : Ptr)
    (lastRecordingPath : String) : DualOutputHandler × List Notification :=
  (d, [Notification.RecordingFileChanged lastRecordingPath])

/-- The slot `DualOutputHandler::ReplayBufferStart(handler)`. -/
def ReplayBufferStart (d : DualOutputHandler) (_handler : Ptr) :
    DualOutputHandler × List Notification :=
  (d, [Notification.ReplayBufferStart])

/-- The slot `DualOutputHandler::ReplayBufferSaved(handler)`. -/
def ReplayBufferSaved (d : DualOutputHandler) (_handler : Ptr) :
    DualOutputHandler × List Notification :=
  (d, [Notification.ReplayBufferSaved])

/-- The slot `DualOutputHandler::ReplayBufferStopping(handler)`. -/
def ReplayBufferStopping (d : DualOutputHandler) (_handler : Ptr) :
    DualOutputHandler × List Notification :=
  (d, [Notification.ReplayBufferStopping])

/-- The slot `DualOutputHandler::ReplayBufferStop(handler, code)`. -/
def ReplayBufferStop (d : DualOutputHandler) (_handler : Ptr) (code : Int) :
    DualOutputHandler × List Notification :=
  (d, [Notification.ReplayBufferStop code])

/-- The slot `DualOutputHandler::OnVirtualCamStart(handler)`. -/
def OnVirtualCamStart (d : DualOutputHandler) (_handler : Ptr) :
    DualOutputHandler × List Notification :=
  (d, [Notification.OnVirtualCamStart])

/-- The slot `DualOutputHandler::OnVirtualCamStop(handler, code)`. -/
def OnVirtualCamStop (d : DualOutputHandler) (_handler : Ptr) (code : Int) :
    DualOutputHandler × List Notification :=
  (d, [Notification.OnVirtualCamStop code])

end DualOutputHandler

/-- The notion of settled in the specification: surface `s` is settled for an event class
when it was never asked to start (`startRequested[s]` is false) or its flag for
that class is true. -/
def settled (startRequested flag : PerType Bool) (s : StreamingType) : Bool :=
  !startRequested.get s || flag.get s

/-- The gating predicate of the specification: both surfaces are settled. -/
def everySurfaceSettled (startRequested flag : PerType Bool) : Bool :=
  settled startRequested flag Horizontal && settled startRequested flag Vertical

/-- The four event classes that are gated by one flag each. -/
inductive EventClass where
  | DelayStarting
  | DelayStopping
  | Stopping
  | Stopped
  deriving DecidableEq, Repr

/-- The gating flag of an event class (the table of section 4.2 of the
specification). -/
def EventClass.flag : EventClass → StateTable → PerType Bool
  | EventClass.DelayStarting, t => t.streamDelayStarting
  | EventClass.DelayStopping, t => t.streamDelayStopping
  | EventClass.Stopping, t => t.streamStopping
  | EventClass.Stopped, t => t.streamingStop

/-- The event class of a per-surface callback; the started callback belongs to
none of the four. -/
def Callback.eventClass : Callback → Option EventClass
  | Callback.StreamDelayStarting _ _ => some EventClass.DelayStarting
  | Callback.StreamDelayStopping _ _ => some EventClass.DelayStopping
  | Callback.StreamingStart _ => none
  | Callback.StreamStopping _ => some EventClass.Stopping
  | Callback.StreamingStop _ _ _ => some EventClass.Stopped

/-- The event class an aggregate notification reports. -/
def Notification.eventClass : Notification → Option EventClass
  | Notification.StreamDelayStarting _ _ => some EventClass.DelayStarting
  | Notification.StreamDelayStopping _ _ => some EventClass.DelayStopping
  | Notification.StreamStopping => some EventClass.Stopping
  | Notification.StreamingStop _ _ _ _ => some EventClass.Stopped
  | _ => none

/-- Both surfaces are settled for class `k` in table `t`. -/
def allSettled (k : EventClass) (t : StateTable) : Bool :=
  everySurfaceSettled t.startStreaming (k.flag t)

/-- How many notifications of class `k` a list holds. -/
def emitted (k : EventClass) (ns : List Notification) : Nat :=
  ns.countP (fun n => decide (n.eventClass = some k))

/-- The handler argument of a per-surface callback. -/
def Callback.handler : Callback → Ptr
  | Callback.StreamDelayStarting handler _ => handler
  | Callback.StreamDelayStopping handler _ => handler
  | Callback.StreamingStart handler => handler
  | Callback.StreamStopping handler => handler
  | Callback.StreamingStop handler _ _ => handler

/-- The flags and delay seconds the state table holds for one surface. -/
structure SurfaceSlots where
  delayStarting : Bool
  delayStopping : Bool
  started : Bool
  stopInProgress : Bool
  stopped : Bool
  delayStartingSec : Int
  delayStoppingSec : Int
  deriving DecidableEq, Repr

/-- The flags and delay seconds of surface `s` in table `t`. -/
def StateTable.slots (t : StateTable) (s : StreamingType) : SurfaceSlots :=
  { delayStarting := t.streamDelayStarting.get s
    delayStopping := t.streamDelayStopping.get s
    started := t.streamingStart.get s
    stopInProgress := t.streamStopping.get s
    stopped := t.streamingStop.get s
    delayStartingSec := t.streamDelayStartingSec.get s
    delayStoppingSec := t.streamDelayStoppingSec.get s }

/-- What a per-surface callback does to the flags and delay seconds of the
surface it is attributed to: it sets the flag of its kind and stores its
seconds. -/
def slotStep (x : SurfaceSlots) : Callback → SurfaceSlots
  | Callback.StreamDelayStarting _ sec => { x with delayStarting := true, delayStartingSec := sec }
  | Callback.StreamDelayStopping _ sec => { x with delayStopping := true, delayStoppingSec := sec }
  | Callback.StreamingStart _ => { x with started := true }
  | Callback.StreamStopping _ => { x with stopInProgress := true }
  | Callback.StreamingStop _ _ _ => { x with stopped := true }

/-- The condition under which the aggregate start has been reported in a
cycle: some surface has its started flag set and each surface is unrequested,
started or stopped. -/
def startSettled (t : StateTable) : Bool :=
  (t.streamingStart.get Horizontal || t.streamingStart.get Vertical) &&
    (!t.startStreaming.get Horizontal || t.streamingStart.get Horizontal ||
      t.streamingStop.get Horizontal) &&
    (!t.startStreaming.get Vertical || t.streamingStart.get Vertical ||
      t.streamingStop.get Vertical)

/-- The state table with the stored stop error codes and messages blanked:
equal results mean equal flags, equal delay seconds and equal
`streamingStartInvoked`. -/
def withoutErrors (t : StateTable) : StateTable :=
  { t with streamingStopErrorCode := ⟨0, 0⟩, streamingStopLastError := ⟨"", ""⟩ }

/-- The object comes back from a method with its state table as it was. -/
def keepsTable {α : Type} (d : DualOutputHandler) (r : Option (DualOutputHandler × α)) : Prop :=
  ∀ out, r = some out → out.1.toStateTable = d.toStateTable

/-- A factory that always returns a handler: advanced handlers at addresses 3
(horizontal) and 4 (vertical), simple handlers at 5 and 6. -/
def sampleFactory : HandlerFactory :=
  { CreateAdvancedOutputHandler := fun _ v => some (sampleHandler (if v then 4 else 3) true)
    CreateSimpleOutputHandler := fun _ v => some (sampleHandler (if v then 6 else 5) false) }

/-- True for the stopped callback kind. -/
def Callback.isStopped : Callback → Bool
  | Callback.StreamingStop _ _ _ => true
  | _ => false

/-- The state tables of a cycle in which only the horizontal surface was
requested and only the horizontal handler has called back: the vertical slots
hold what `resetState` left there, and a set horizontal started flag comes
with a set `streamingStartInvoked`. -/
def primaryOnly (t : StateTable) : Prop :=
  t.startStreaming = ⟨true, false⟩ ∧ t.streamingStart.vertical = false ∧
    t.streamingStop.vertical = false ∧ t.streamDelayStartingSec.vertical = 0 ∧
    t.streamDelayStoppingSec.vertical = 0 ∧ t.streamingStopErrorCode.vertical = 0 ∧
    t.streamingStopLastError.vertical = "" ∧
    (t.streamingStart.horizontal = true → t.streamingStartInvoked = true)

/-- The handler `v` is present and its value `f` is true
(`voutput && voutput->f` in the source). -/
def presentAnd (v : Option BasicOutputHandler) (f : BasicOutputHandler → Bool) : Bool :=
  match v with
  | none => false
  | some x => f x

/-- The lifecycle report a callback carries: `true` for started, `false` for
stopped, nothing for the other kinds. -/
def Callback.report : Callback → Option Bool
  | Callback.StreamingStart _ => some true
  | Callback.StreamingStop _ _ _ => some false
  | _ => none

/-- The started and stopped reports, in order, of the callbacks of `cs` that
the coordinator attributes to surface `s`. -/
def lifecycle (d : DualOutputHandler) (s : StreamingType) (cs : List Callback) : List Bool :=
  cs.filterMap (fun c => if d.typeOf c.handler = s then c.report else none)

/-- A well-formed callback sequence: only requested surfaces call back, and
each surface reports started at most once, stopped at most once, and started
(if at all) before stopped. -/
def wellFormed (d : DualOutputHandler) (cs : List Callback) : Prop :=
  (∀ c ∈ cs, d.startStreaming.get (d.typeOf c.handler) = true) ∧
    ∀ s, lifecycle d s cs = [] ∨ lifecycle d s cs = [true] ∨ lifecycle d s cs = [false] ∨
      lifecycle d s cs = [true, false]

/-! ## General facts about the embedding -/

theorem StartStreaming_eq (d : DualOutputHandler) (service vservice : Ptr)
    (out : DualOutputHandler × List HandlerCall × Bool)
    (hrun : d.StartStreaming service vservice = some out) :
    out.1.toStateTable =
        freshTable (out.1.startStreaming.get Horizontal) (out.1.startStreaming.get Vertical) ∧
      out.1.houtput = d.houtput ∧ out.1.voutput = d.voutput ∧ out.1.main = d.main := by
  unfold DualOutputHandler.StartStreaming at hrun
  simp only [DualOutputHandler.resetState] at hrun
  split_ifs at hrun with h1 h2
  · split at hrun
    · exact absurd hrun (by simp)
    · cases hrun
      simp_all [freshTable, PerType.set, PerType.get]
  · split at hrun
    · exact absurd hrun (by simp)
    · cases hrun
      simp_all [freshTable, PerType.set, PerType.get]
  · split at hrun
    · exact absurd hrun (by simp)
    · split at hrun
      · exact absurd hrun (by simp)
      · cases hrun
        simp_all [freshTable, PerType.set, PerType.get]

theorem deliver_houtput (d : DualOutputHandler) (c : Callback) :
    (deliver d c).1.houtput = d.houtput := by
  cases c <;> simp only [deliver, DualOutputHandler.StreamDelayStarting,
    DualOutputHandler.StreamDelayStopping, DualOutputHandler.StreamingStart,
    DualOutputHandler.StreamStopping, DualOutputHandler.StreamingStop] <;>
    split_ifs <;> rfl

theorem deliver_start_budget (d : DualOutputHandler) (c : Callback) :
    (deliver d c).2.count Notification.StreamingStart + startBudget (deliver d c).1
      ≤ startBudget d := by
  cases c <;> simp only [deliver, DualOutputHandler.StreamDelayStarting,
    DualOutputHandler.StreamDelayStopping, DualOutputHandler.StreamingStart,
    DualOutputHandler.StreamStopping, DualOutputHandler.StreamingStop, startBudget] <;>
    split_ifs <;> simp_all

theorem deliverAll_start_budget (d : DualOutputHandler) (cs : List Callback) :
    (deliverAll d cs).2.count Notification.StreamingStart + startBudget (deliverAll d cs).1
      ≤ startBudget d := by
  induction cs generalizing d with
  | nil => simp [deliverAll]
  | cons c cs ih =>
    have h1 := deliver_start_budget d c
    have h2 := ih (deliver d c).1
    simp only [deliverAll, List.count_append]
    omega

theorem startBudget_le_one (d : DualOutputHandler) : startBudget d ≤ 1 := by
  unfold startBudget
  split_ifs <;> simp

theorem StartStreaming_tableAfter (d : DualOutputHandler) (service vservice : Ptr)
    (out : DualOutputHandler × List HandlerCall × Bool)
    (hrun : d.StartStreaming service vservice = some out) :
    out.1.toStateTable = tableAfter (startReplies out.2.1) := by
  unfold DualOutputHandler.StartStreaming at hrun
  simp only [DualOutputHandler.resetState] at hrun
  split_ifs at hrun with h1 h2
  · split at hrun
    · exact absurd hrun (by simp)
    · cases hrun
      simp [tableAfter, startReplies, freshTable, PerType.set]
  · split at hrun
    · exact absurd hrun (by simp)
    · cases hrun
      simp [tableAfter, startReplies, freshTable, PerType.set]
  · split at hrun
    · exact absurd hrun (by simp)
    · split at hrun
      · exact absurd hrun (by simp)
      · cases hrun
        simp [tableAfter, startReplies, freshTable, PerType.set]

/-- `StartStreaming` returns exactly when the handlers its branch dereferences
are present. -/
theorem StartStreaming_isSome (d : DualOutputHandler) (service vservice : Ptr) :
    (d.StartStreaming service vservice).isSome =
      if service = none then d.voutput.isSome
      else if vservice = none then d.houtput.isSome
      else (d.voutput.isSome && d.houtput.isSome) := by
  unfold DualOutputHandler.StartStreaming
  simp only [DualOutputHandler.resetState]
  split_ifs with h1 h2
  · cases hv : d.voutput <;> simp
  · cases hh : d.houtput <;> simp
  · cases hv : d.voutput <;> cases hh : d.houtput <;> simp

/-- At the beginning of a cycle the object is its handlers and consumer
together with a fresh table holding the two replies. -/
theorem StartStreaming_fresh (d : DualOutputHandler) (service vservice : Ptr)
    (out : DualOutputHandler × List HandlerCall × Bool)
    (hrun : d.StartStreaming service vservice = some out) (h v : Bool)
    (hH : out.1.startStreaming.get Horizontal = h)
    (hV : out.1.startStreaming.get Vertical = v) :
    out.1 = { freshTable h v with houtput := out.1.houtput, voutput := out.1.voutput,
                                  main := out.1.main } := by
  have e := (StartStreaming_eq d service vservice out hrun).1
  rw [hH, hV] at e
  obtain ⟨⟨t, ho, vo, m⟩, calls, r⟩ := out
  simp only at e
  subst e
  rfl

/-- While no started flag is set, a callback other than `started` emits no
`StreamingStart` and changes neither the started flags, nor
`streamingStartInvoked`, nor `startStreaming`. -/
theorem deliver_not_started (d : DualOutputHandler) (c : Callback)
    (hc : c.isStarted = false) (hs : d.streamingStart = ⟨false, false⟩) :
    (deliver d c).2.count Notification.StreamingStart = 0 ∧
      (deliver d c).1.streamingStart = ⟨false, false⟩ ∧
      (deliver d c).1.streamingStartInvoked = d.streamingStartInvoked ∧
      (deliver d c).1.startStreaming = d.startStreaming := by
  cases c <;> first
    | (simp [Callback.isStarted] at hc; done)
    | (simp only [deliver, DualOutputHandler.StreamDelayStarting,
        DualOutputHandler.StreamDelayStopping,
        DualOutputHandler.StreamStopping, DualOutputHandler.StreamingStop]
       split_ifs <;> simp_all [PerType.get])

theorem deliverAll_not_started (d : DualOutputHandler) (cs : List Callback)
    (hc : ∀ c ∈ cs, c.isStarted = false) (hs : d.streamingStart = ⟨false, false⟩) :
    (deliverAll d cs).2.count Notification.StreamingStart = 0 ∧
      (deliverAll d cs).1.streamingStart = ⟨false, false⟩ ∧
      (deliverAll d cs).1.streamingStartInvoked = d.streamingStartInvoked ∧
      (deliverAll d cs).1.startStreaming = d.startStreaming := by
  induction cs generalizing d with
  | nil => simp [deliverAll, hs]
  | cons c cs ih =>
    have h1 := deliver_not_started d c (hc c (List.mem_cons_self c cs)) hs
    have h2 := ih (deliver d c).1 (fun x hx => hc x (List.mem_cons_of_mem c hx)) h1.2.1
    simp only [deliverAll, List.count_append]
    refine ⟨by omega, h2.2.1, h2.2.2.1.trans h1.2.2.1, h2.2.2.2.trans h1.2.2.2⟩

theorem deliverAll_houtputPtr (d : DualOutputHandler) (cs : List Callback) :
    (deliverAll d cs).1.houtputPtr = d.houtputPtr := by
  induction cs generalizing d with
  | nil => rfl
  | cons c cs ih =>
    simp only [deliverAll]
    rw [ih]
    simp only [DualOutputHandler.houtputPtr, deliver_houtput]

/-- With only the horizontal surface requested, a started callback from the
horizontal handler emits `StreamingStart` exactly when `streamingStartInvoked`
is still clear. -/
theorem StreamingStart_primary_emits (d : DualOutputHandler)
    (hH : d.startStreaming.get Horizontal = true)
    (hV : d.startStreaming.get Vertical = false) :
    (Notification.StreamingStart ∈ (d.StreamingStart d.houtputPtr).2 ↔
      d.streamingStartInvoked = false) := by
  simp only [DualOutputHandler.StreamingStart, DualOutputHandler.typeOf, PerType.get,
    PerType.set] at hH hV ⊢
  simp only [if_true, hH, hV]
  cases d.streamingStartInvoked <;> cases d.streamingStop.horizontal <;>
    cases d.streamingStop.vertical <;> simp

theorem StreamDelayStarting_gate (d : DualOutputHandler) (handler : Ptr) (sec : Int) :
    (d.StreamDelayStarting handler sec).1.streamDelayStarting =
        d.streamDelayStarting.set (d.typeOf handler) true ∧
      (d.StreamDelayStarting handler sec).1.streamDelayStartingSec =
        d.streamDelayStartingSec.set (d.typeOf handler) sec ∧
      (d.StreamDelayStarting handler sec).1.startStreaming = d.startStreaming ∧
      (d.StreamDelayStarting handler sec).2 =
        if everySurfaceSettled (d.StreamDelayStarting handler sec).1.startStreaming
            (d.StreamDelayStarting handler sec).1.streamDelayStarting then
          [Notification.StreamDelayStarting
            ((d.StreamDelayStarting handler sec).1.streamDelayStartingSec.get Horizontal)
            ((d.StreamDelayStarting handler sec).1.streamDelayStartingSec.get Vertical)]
        else [] := by
  simp only [DualOutputHandler.StreamDelayStarting, everySurfaceSettled, settled]
  split_ifs <;> simp_all

theorem StreamDelayStopping_gate (d : DualOutputHandler) (handler : Ptr) (sec : Int) :
    (d.StreamDelayStopping handler sec).1.streamDelayStopping =
        d.streamDelayStopping.set (d.typeOf handler) true ∧
      (d.StreamDelayStopping handler sec).1.streamDelayStoppingSec =
        d.streamDelayStoppingSec.set (d.typeOf handler) sec ∧
      (d.StreamDelayStopping handler sec).1.startStreaming = d.startStreaming ∧
      (d.StreamDelayStopping handler sec).2 =
        if everySurfaceSettled (d.StreamDelayStopping handler sec).1.startStreaming
            (d.StreamDelayStopping handler sec).1.streamDelayStopping then
          [Notification.StreamDelayStopping
            ((d.StreamDelayStopping handler sec).1.streamDelayStoppingSec.get Horizontal)
            ((d.StreamDelayStopping handler sec).1.streamDelayStoppingSec.get Vertical)]
        else [] := by
  simp only [DualOutputHandler.StreamDelayStopping, everySurfaceSettled, settled]
  split_ifs <;> simp_all

theorem StreamStopping_gate (d : DualOutputHandler) (handler : Ptr) :
    (d.StreamStopping handler).1.streamStopping =
        d.streamStopping.set (d.typeOf handler) true ∧
      (d.StreamStopping handler).1.startStreaming = d.startStreaming ∧
      (d.StreamStopping handler).2 =
        if everySurfaceSettled (d.StreamStopping handler).1.startStreaming
            (d.StreamStopping handler).1.streamStopping then
          [Notification.StreamStopping]
        else [] := by
  simp only [DualOutputHandler.StreamStopping, everySurfaceSettled, settled]
  split_ifs <;> simp_all

theorem StreamingStop_gate (d : DualOutputHandler) (handler : Ptr) (c : Int) (m : String) :
    (d.StreamingStop handler c m).1.streamingStop =
        d.streamingStop.set (d.typeOf handler) true ∧
      (d.StreamingStop handler c m).1.startStreaming = d.startStreaming ∧
      (Notification.StreamingStart ∉ (d.StreamingStop handler c m).2 →
        (d.StreamingStop handler c m).1.streamingStopErrorCode =
          d.streamingStopErrorCode.set (d.typeOf handler) c ∧
        (d.StreamingStop handler c m).1.streamingStopLastError =
          d.streamingStopLastError.set (d.typeOf handler) m) ∧
      (Notification.StreamingStart ∈ (d.StreamingStop handler c m).2 →
        (d.StreamingStop handler c m).1.streamingStopErrorCode =
          d.streamingStopErrorCode.set (d.typeOf handler) 0 ∧
        (d.StreamingStop handler c m).1.streamingStopLastError =
          d.streamingStopLastError.set (d.typeOf handler) "") ∧
      ∃ pre, (pre = [] ∨ pre = [Notification.SysTrayNotify, Notification.StreamingStart]) ∧
        (d.StreamingStop handler c m).2 = pre ++
          if everySurfaceSettled (d.StreamingStop handler c m).1.startStreaming
              (d.StreamingStop handler c m).1.streamingStop then
            [Notification.StreamingStop
              ((d.StreamingStop handler c m).1.streamingStopErrorCode.get Horizontal)
              ((d.StreamingStop handler c m).1.streamingStopLastError.get Horizontal)
              ((d.StreamingStop handler c m).1.streamingStopErrorCode.get Vertical)
              ((d.StreamingStop handler c m).1.streamingStopLastError.get Vertical)]
          else [] := by
  obtain ⟨⟨⟨rh, rv⟩, ⟨dsh, dsv⟩, ⟨dph, dpv⟩, inv, ⟨sth, stv⟩, ⟨sph, spv⟩, ⟨soh, sov⟩,
    ⟨ssh, ssv⟩, ⟨psh, psv⟩, ⟨ch, cv⟩, ⟨mh, mv⟩⟩, ho, vo, mn⟩ := d
  by_cases hp : Option.map BasicOutputHandler.addr ho = handler
  · simp only [DualOutputHandler.StreamingStop,
      DualOutputHandler.typeOf, DualOutputHandler.houtputPtr, hp, if_true, PerType.get,
      PerType.set, everySurfaceSettled, settled]
    cases rh <;> cases rv <;> cases sov <;> cases inv <;> cases sth <;> cases stv <;> simp
  · simp only [DualOutputHandler.StreamingStop,
      DualOutputHandler.typeOf, DualOutputHandler.houtputPtr, hp, if_false, PerType.get,
      PerType.set, everySurfaceSettled, settled]
    cases rh <;> cases rv <;> cases soh <;> cases inv <;> cases sth <;> cases stv <;> simp

theorem StreamingStart_shape (d : DualOutputHandler) (handler : Ptr) :
    ((d.StreamingStart handler).2 = [] ∨
      (d.StreamingStart handler).2 = [Notification.StreamingStart] ∨
      (d.StreamingStart handler).2 = [Notification.SysTrayNotify, Notification.StreamingStart]) ∧
    (d.StreamingStart handler).1.startStreaming = d.startStreaming ∧
    (d.StreamingStart handler).1.streamDelayStarting = d.streamDelayStarting ∧
    (d.StreamingStart handler).1.streamDelayStopping = d.streamDelayStopping ∧
    (d.StreamingStart handler).1.streamStopping = d.streamStopping ∧
    (d.StreamingStart handler).1.streamingStop = d.streamingStop := by
  simp only [DualOutputHandler.StreamingStart]
  split_ifs <;> simp

theorem deliver_emitted (d : DualOutputHandler) (c : Callback) (k : EventClass) :
    emitted k (deliver d c).2 =
      if c.eventClass = some k ∧ allSettled k (deliver d c).1.toStateTable = true then 1
      else 0 := by
  cases c with
  | StreamDelayStarting handler sec =>
    have h := (StreamDelayStarting_gate d handler sec).2.2.2
    simp only [deliver, allSettled, Callback.eventClass]
    rw [h]
    cases k <;> simp only [EventClass.flag] <;> split_ifs <;>
      simp_all [emitted, Notification.eventClass]
  | StreamDelayStopping handler sec =>
    have h := (StreamDelayStopping_gate d handler sec).2.2.2
    simp only [deliver, allSettled, Callback.eventClass]
    rw [h]
    cases k <;> simp only [EventClass.flag] <;> split_ifs <;>
      simp_all [emitted, Notification.eventClass]
  | StreamingStart handler =>
    have h := (StreamingStart_shape d handler).1
    simp only [deliver, Callback.eventClass]
    rcases h with h | h | h <;> rw [h] <;> simp [emitted, Notification.eventClass]
  | StreamStopping handler =>
    have h := (StreamStopping_gate d handler).2.2
    simp only [deliver, allSettled, Callback.eventClass]
    rw [h]
    cases k <;> simp only [EventClass.flag] <;> split_ifs <;>
      simp_all [emitted, Notification.eventClass]
  | StreamingStop handler c m =>
    obtain ⟨pre, hpre, h⟩ := (StreamingStop_gate d handler c m).2.2.2.2
    simp only [deliver, allSettled, Callback.eventClass]
    rw [h]
    rcases hpre with rfl | rfl <;> cases k <;> simp only [EventClass.flag] <;> split_ifs <;>
      simp_all [emitted, Notification.eventClass]

theorem deliver_flag (d : DualOutputHandler) (c : Callback) (k : EventClass) :
    (deliver d c).1.startStreaming = d.startStreaming ∧
      k.flag (deliver d c).1.toStateTable =
        if c.eventClass = some k then (k.flag d.toStateTable).set (d.typeOf c.handler) true
        else k.flag d.toStateTable := by
  cases c <;> cases k <;>
    simp only [deliver, DualOutputHandler.StreamDelayStarting,
      DualOutputHandler.StreamDelayStopping, DualOutputHandler.StreamingStart,
      DualOutputHandler.StreamStopping, DualOutputHandler.StreamingStop, EventClass.flag,
      Callback.eventClass, Callback.handler] <;>
    split_ifs <;> simp_all

theorem settled_set_true (req flag : PerType Bool) (t : StreamingType)
    (h : everySurfaceSettled req flag = true) :
    everySurfaceSettled req (flag.set t true) = true := by
  obtain ⟨rh, rv⟩ := req
  obtain ⟨fh, fv⟩ := flag
  cases t <;> simp_all [everySurfaceSettled, settled, PerType.get, PerType.set]

theorem deliver_allSettled (d : DualOutputHandler) (c : Callback) (k : EventClass)
    (h : allSettled k d.toStateTable = true) :
    allSettled k (deliver d c).1.toStateTable = true := by
  have hf := deliver_flag d c k
  unfold allSettled at h ⊢
  rw [hf.1, hf.2]
  split_ifs
  · exact settled_set_true _ _ _ h
  · exact h

theorem deliverAll_allSettled (d : DualOutputHandler) (cs : List Callback) (k : EventClass)
    (h : allSettled k d.toStateTable = true) :
    allSettled k (deliverAll d cs).1.toStateTable = true := by
  induction cs generalizing d with
  | nil => exact h
  | cons c cs ih => exact ih (deliver d c).1 (deliver_allSettled d c k h)

theorem deliverAll_append (d : DualOutputHandler) (as bs : List Callback) :
    deliverAll d (as ++ bs) =
      ((deliverAll (deliverAll d as).1 bs).1,
        (deliverAll d as).2 ++ (deliverAll (deliverAll d as).1 bs).2) := by
  induction as generalizing d with
  | nil => simp [deliverAll]
  | cons a as ih => simp [deliverAll, ih, List.append_assoc]

theorem emitted_append (k : EventClass) (xs ys : List Notification) :
    emitted k (xs ++ ys) = emitted k xs + emitted k ys := by
  simp [emitted, List.countP_append]

/-- Nothing of class `k` has been emitted as long as the surfaces are not all settled. -/
theorem deliverAll_emitted_before (d : DualOutputHandler) (cs : List Callback) (k : EventClass)
    (h : allSettled k (deliverAll d cs).1.toStateTable = false) :
    emitted k (deliverAll d cs).2 = 0 := by
  induction cs generalizing d with
  | nil => simp [deliverAll, emitted]
  | cons c cs ih =>
    simp only [deliverAll] at h ⊢
    rw [emitted_append, ih _ h, deliver_emitted]
    have hn : ¬ allSettled k (deliver d c).1.toStateTable = true := by
      intro hs
      rw [deliverAll_allSettled _ cs k hs] at h
      exact absurd h (by simp)
    simp [hn]

theorem deliverAll_emitted_other (d : DualOutputHandler) (cs : List Callback) (k : EventClass)
    (h : ∀ x ∈ cs, x.eventClass ≠ some k) :
    emitted k (deliverAll d cs).2 = 0 := by
  induction cs generalizing d with
  | nil => simp [deliverAll, emitted]
  | cons c cs ih =>
    simp only [deliverAll]
    rw [emitted_append, ih _ (fun x hx => h x (List.mem_cons_of_mem c hx)), deliver_emitted]
    simp [h c (List.mem_cons_self c cs)]

theorem deliver_slots (d : DualOutputHandler) (c : Callback) :
    (d.typeOf c.handler = Horizontal →
      (deliver d c).1.toStateTable.slots Horizontal = slotStep (d.toStateTable.slots Horizontal) c ∧
      (deliver d c).1.toStateTable.slots Vertical = d.toStateTable.slots Vertical) ∧
    (d.typeOf c.handler = Vertical →
      (deliver d c).1.toStateTable.slots Vertical = slotStep (d.toStateTable.slots Vertical) c ∧
      (deliver d c).1.toStateTable.slots Horizontal = d.toStateTable.slots Horizontal) := by
  cases c <;>
    simp only [deliver, DualOutputHandler.StreamDelayStarting,
      DualOutputHandler.StreamDelayStopping, DualOutputHandler.StreamingStart,
      DualOutputHandler.StreamStopping, DualOutputHandler.StreamingStop, Callback.handler] <;>
    constructor <;> intro ht <;> rw [ht] <;> split_ifs <;>
    simp [StateTable.slots, slotStep, PerType.get, PerType.set]

theorem typeOf_cases (d : DualOutputHandler) (handler : Ptr) :
    (d.houtputPtr = handler ∧ d.typeOf handler = Horizontal) ∨
      (d.houtputPtr ≠ handler ∧ d.typeOf handler = Vertical) := by
  unfold DualOutputHandler.typeOf
  by_cases h : d.houtputPtr = handler <;> simp [h]

theorem deliver_houtputPtr (d : DualOutputHandler) (c : Callback) :
    (deliver d c).1.houtputPtr = d.houtputPtr := by
  simp only [DualOutputHandler.houtputPtr, deliver_houtput]

theorem deliverAll_slots (d : DualOutputHandler) (cs : List Callback) :
    (deliverAll d cs).1.toStateTable.slots Horizontal =
        (cs.filter (fun c => decide (d.houtputPtr = c.handler))).foldl slotStep
          (d.toStateTable.slots Horizontal) ∧
      (deliverAll d cs).1.toStateTable.slots Vertical =
        (cs.filter (fun c => !decide (d.houtputPtr = c.handler))).foldl slotStep
          (d.toStateTable.slots Vertical) := by
  induction cs generalizing d with
  | nil => simp [deliverAll]
  | cons c cs ih =>
    have h := ih (deliver d c).1
    rw [deliver_houtputPtr] at h
    simp only [deliverAll]
    rcases typeOf_cases d c.handler with ⟨hp, ht⟩ | ⟨hp, ht⟩
    · have hs := (deliver_slots d c).1 ht
      rw [h.1, h.2, hs.1, hs.2]
      simp [List.filter_cons, hp]
    · have hs := (deliver_slots d c).2 ht
      rw [h.1, h.2, hs.1, hs.2]
      simp [List.filter_cons, hp]

theorem deliver_startStreaming (d : DualOutputHandler) (c : Callback) :
    (deliver d c).1.startStreaming = d.startStreaming :=
  (deliver_flag d c EventClass.Stopped).1

theorem deliverAll_startStreaming (d : DualOutputHandler) (cs : List Callback) :
    (deliverAll d cs).1.startStreaming = d.startStreaming := by
  induction cs generalizing d with
  | nil => rfl
  | cons c cs ih => simp only [deliverAll]; rw [ih, deliver_startStreaming]

theorem deliver_startSettled (d : DualOutputHandler) (c : Callback)
    (h : d.streamingStartInvoked = startSettled d.toStateTable) :
    (deliver d c).1.streamingStartInvoked = startSettled (deliver d c).1.toStateTable := by
  obtain ⟨⟨⟨rh, rv⟩, ⟨dsh, dsv⟩, ⟨dph, dpv⟩, inv, ⟨sth, stv⟩, ⟨sph, spv⟩, ⟨soh, sov⟩,
    ⟨ssh, ssv⟩, ⟨psh, psv⟩, ⟨ch, cv⟩, ⟨mh, mv⟩⟩, ho, vo, mn⟩ := d
  simp only [startSettled, PerType.get] at h
  subst h
  cases c with
  | StreamDelayStarting handler sec =>
    simp only [deliver, DualOutputHandler.StreamDelayStarting, startSettled, PerType.get]
    split_ifs <;> rfl
  | StreamDelayStopping handler sec =>
    simp only [deliver, DualOutputHandler.StreamDelayStopping, startSettled, PerType.get]
    split_ifs <;> rfl
  | StreamStopping handler =>
    simp only [deliver, DualOutputHandler.StreamStopping, startSettled, PerType.get]
    split_ifs <;> rfl
  | StreamingStart handler =>
    by_cases hp : Option.map BasicOutputHandler.addr ho = handler <;>
    simp only [deliver, DualOutputHandler.StreamingStart, DualOutputHandler.typeOf,
      DualOutputHandler.houtputPtr, hp, if_true, if_false, startSettled, PerType.get,
      PerType.set] <;>
    cases rh <;> cases rv <;> cases sth <;> cases stv <;> cases soh <;> cases sov <;> simp
  | StreamingStop handler c m =>
    by_cases hp : Option.map BasicOutputHandler.addr ho = handler <;>
    simp only [deliver, DualOutputHandler.StreamingStop, DualOutputHandler.typeOf,
      DualOutputHandler.houtputPtr, hp, if_true, if_false, startSettled, PerType.get,
      PerType.set] <;>
    cases rh <;> cases rv <;> cases sth <;> cases stv <;> cases soh <;> cases sov <;> simp

theorem deliverAll_startSettled (d : DualOutputHandler) (cs : List Callback)
    (h : d.streamingStartInvoked = startSettled d.toStateTable) :
    (deliverAll d cs).1.streamingStartInvoked =
      startSettled (deliverAll d cs).1.toStateTable := by
  induction cs generalizing d with
  | nil => exact h
  | cons c cs ih => exact ih _ (deliver_startSettled d c h)

theorem withoutErrors_eq (t₁ t₂ : StateTable)
    (hr : t₁.startStreaming = t₂.startStreaming)
    (hh : t₁.slots Horizontal = t₂.slots Horizontal)
    (hv : t₁.slots Vertical = t₂.slots Vertical)
    (h₁ : t₁.streamingStartInvoked = startSettled t₁)
    (h₂ : t₂.streamingStartInvoked = startSettled t₂) :
    withoutErrors t₁ = withoutErrors t₂ := by
  obtain ⟨⟨rh, rv⟩, ⟨dsh, dsv⟩, ⟨dph, dpv⟩, inv, ⟨sth, stv⟩, ⟨sph, spv⟩, ⟨soh, sov⟩,
    ⟨ssh, ssv⟩, ⟨psh, psv⟩, ⟨ch, cv⟩, ⟨mh, mv⟩⟩ := t₁
  obtain ⟨⟨rh', rv'⟩, ⟨dsh', dsv'⟩, ⟨dph', dpv'⟩, inv', ⟨sth', stv'⟩, ⟨sph', spv'⟩,
    ⟨soh', sov'⟩, ⟨ssh', ssv'⟩, ⟨psh', psv'⟩, ⟨ch', cv'⟩, ⟨mh', mv'⟩⟩ := t₂
  simp only [StateTable.slots, PerType.get, SurfaceSlots.mk.injEq, PerType.mk.injEq,
    startSettled] at hr hh hv h₁ h₂
  obtain ⟨rfl, rfl⟩ := hr
  obtain ⟨rfl, rfl, rfl, rfl, rfl, rfl, rfl⟩ := hh
  obtain ⟨rfl, rfl, rfl, rfl, rfl, rfl, rfl⟩ := hv
  subst h₁ h₂
  rfl

theorem deliver_start_count (d : DualOutputHandler) (c : Callback) :
    (deliver d c).2.count Notification.StreamingStart + startBudget (deliver d c).1
      = startBudget d := by
  cases c <;> simp only [deliver, DualOutputHandler.StreamDelayStarting,
    DualOutputHandler.StreamDelayStopping, DualOutputHandler.StreamingStart,
    DualOutputHandler.StreamStopping, DualOutputHandler.StreamingStop, startBudget] <;>
    split_ifs <;> simp_all

theorem deliverAll_start_count (d : DualOutputHandler) (cs : List Callback) :
    (deliverAll d cs).2.count Notification.StreamingStart + startBudget (deliverAll d cs).1
      = startBudget d := by
  induction cs generalizing d with
  | nil => simp [deliverAll]
  | cons c cs ih =>
    have h1 := deliver_start_count d c
    have h2 := ih (deliver d c).1
    simp only [deliverAll, List.count_append]
    omega

theorem deliverAll_flag_other (d : DualOutputHandler) (cs : List Callback) (k : EventClass)
    (h : ∀ x ∈ cs, x.eventClass ≠ some k) :
    allSettled k (deliverAll d cs).1.toStateTable = allSettled k d.toStateTable := by
  induction cs generalizing d with
  | nil => rfl
  | cons c cs ih =>
    simp only [deliverAll]
    rw [ih _ (fun x hx => h x (List.mem_cons_of_mem c hx))]
    have hf := deliver_flag d c k
    unfold allSettled
    rw [hf.1, hf.2, if_neg (h c (List.mem_cons_self c cs))]

/-- Something of class `k` is emitted exactly when a callback of the class was
delivered and both surfaces are settled for the class at the end. -/
theorem deliverAll_emitted_pos (d : DualOutputHandler) (cs : List Callback) (k : EventClass) :
    0 < emitted k (deliverAll d cs).2 ↔
      (allSettled k (deliverAll d cs).1.toStateTable = true ∧
        ∃ c ∈ cs, c.eventClass = some k) := by
  induction cs generalizing d with
  | nil => simp [deliverAll, emitted]
  | cons c cs ih =>
    simp only [deliverAll]
    rw [emitted_append, deliver_emitted]
    have ih' := ih (deliver d c).1
    constructor
    · intro h
      by_cases hr : 0 < emitted k (deliverAll (deliver d c).1 cs).2
      · obtain ⟨hs, x, hx, hk⟩ := ih'.1 hr
        exact ⟨hs, x, List.mem_cons_of_mem c hx, hk⟩
      · have h0 : emitted k (deliverAll (deliver d c).1 cs).2 = 0 := by omega
        rw [h0] at h
        split_ifs at h with hc
        · exact ⟨deliverAll_allSettled _ cs k hc.2, c, List.mem_cons_self c cs, hc.1⟩
        · omega
    · rintro ⟨hs, x, hx, hk⟩
      by_cases hr : ∃ y ∈ cs, y.eventClass = some k
      · have := ih'.2 ⟨hs, hr⟩
        omega
      · have hr' : ∀ y ∈ cs, y.eventClass ≠ some k := fun y hy hyk => hr ⟨y, hy, hyk⟩
        have hxc : x = c := by
          rcases List.mem_cons.1 hx with h | h
          · exact h
          · exact absurd hk (hr' x h)
        subst hxc
        rw [deliverAll_flag_other _ cs k hr'] at hs
        simp [hk, hs]

theorem mem_of_filters (p : Callback → Bool) (cs₁ cs₂ : List Callback)
    (hp : cs₁.filter p = cs₂.filter p)
    (hs : cs₁.filter (fun c => !p c) = cs₂.filter (fun c => !p c))
    (x : Callback) (hx : x ∈ cs₁) : x ∈ cs₂ := by
  cases hpx : p x
  · have : x ∈ cs₁.filter (fun c => !p c) := List.mem_filter.2 ⟨hx, by simp [hpx]⟩
    rw [hs] at this
    exact (List.mem_filter.1 this).1
  · have : x ∈ cs₁.filter p := List.mem_filter.2 ⟨hx, hpx⟩
    rw [hp] at this
    exact (List.mem_filter.1 this).1

theorem allSettled_withoutErrors (k : EventClass) (t : StateTable) :
    allSettled k (withoutErrors t) = allSettled k t := by
  cases k <;> rfl

/-- `StopStreaming` returns exactly when the handlers it dereferences are
present. -/
theorem StopStreaming_isSome (d : DualOutputHandler) (dualOutputOn force : Bool)
    (streamType : StreamingType) :
    (d.StopStreaming dualOutputOn force streamType).isSome =
      (((streamType != Horizontal && streamType != StreamingTypeMax) || d.houtput.isSome) &&
        (!dualOutputOn || (streamType != Vertical && streamType != StreamingTypeMax) ||
          d.voutput.isSome)) := by
  unfold DualOutputHandler.StopStreaming
  cases streamType <;> cases dualOutputOn <;> cases hh : d.houtput <;> cases hv : d.voutput <;>
    simp

theorem deliver_not_delayStarting (d : DualOutputHandler) (c : Callback)
    (hc : c.eventClass ≠ some EventClass.DelayStarting) :
    (deliver d c).1.streamDelayStarting = d.streamDelayStarting ∧
      (deliver d c).1.streamDelayStartingSec = d.streamDelayStartingSec := by
  cases c <;> first
    | (simp [Callback.eventClass] at hc; done)
    | (simp only [deliver, DualOutputHandler.StreamDelayStopping,
        DualOutputHandler.StreamingStart, DualOutputHandler.StreamStopping,
        DualOutputHandler.StreamingStop]
       split_ifs <;> simp)

theorem deliver_not_delayStopping (d : DualOutputHandler) (c : Callback)
    (hc : c.eventClass ≠ some EventClass.DelayStopping) :
    (deliver d c).1.streamDelayStopping = d.streamDelayStopping ∧
      (deliver d c).1.streamDelayStoppingSec = d.streamDelayStoppingSec := by
  cases c <;> first
    | (simp [Callback.eventClass] at hc; done)
    | (simp only [deliver, DualOutputHandler.StreamDelayStarting,
        DualOutputHandler.StreamingStart, DualOutputHandler.StreamStopping,
        DualOutputHandler.StreamingStop]
       split_ifs <;> simp)

theorem deliverAll_not_delayStarting (d : DualOutputHandler) (cs : List Callback)
    (hc : ∀ c ∈ cs, c.eventClass ≠ some EventClass.DelayStarting) :
    (deliverAll d cs).1.streamDelayStarting = d.streamDelayStarting ∧
      (deliverAll d cs).1.streamDelayStartingSec = d.streamDelayStartingSec := by
  induction cs generalizing d with
  | nil => simp [deliverAll]
  | cons c cs ih =>
    have h1 := deliver_not_delayStarting d c (hc c (List.mem_cons_self c cs))
    have h2 := ih (deliver d c).1 (fun x hx => hc x (List.mem_cons_of_mem c hx))
    simp only [deliverAll]
    exact ⟨h2.1.trans h1.1, h2.2.trans h1.2⟩

theorem deliverAll_not_delayStopping (d : DualOutputHandler) (cs : List Callback)
    (hc : ∀ c ∈ cs, c.eventClass ≠ some EventClass.DelayStopping) :
    (deliverAll d cs).1.streamDelayStopping = d.streamDelayStopping ∧
      (deliverAll d cs).1.streamDelayStoppingSec = d.streamDelayStoppingSec := by
  induction cs generalizing d with
  | nil => simp [deliverAll]
  | cons c cs ih =>
    have h1 := deliver_not_delayStopping d c (hc c (List.mem_cons_self c cs))
    have h2 := ih (deliver d c).1 (fun x hx => hc x (List.mem_cons_of_mem c hx))
    simp only [deliverAll]
    exact ⟨h2.1.trans h1.1, h2.2.trans h1.2⟩

theorem StreamDelayStarting_out (d : DualOutputHandler) (handler : Ptr) (sec : Int) :
    (d.StreamDelayStarting handler sec).2 =
      if everySurfaceSettled d.startStreaming
          (d.streamDelayStarting.set (d.typeOf handler) true) then
        [Notification.StreamDelayStarting
          ((d.streamDelayStartingSec.set (d.typeOf handler) sec).get Horizontal)
          ((d.streamDelayStartingSec.set (d.typeOf handler) sec).get Vertical)]
      else [] := by
  have h := StreamDelayStarting_gate d handler sec
  rw [h.2.2.2, h.1, h.2.1, h.2.2.1]

theorem StreamDelayStopping_out (d : DualOutputHandler) (handler : Ptr) (sec : Int) :
    (d.StreamDelayStopping handler sec).2 =
      if everySurfaceSettled d.startStreaming
          (d.streamDelayStopping.set (d.typeOf handler) true) then
        [Notification.StreamDelayStopping
          ((d.streamDelayStoppingSec.set (d.typeOf handler) sec).get Horizontal)
          ((d.streamDelayStoppingSec.set (d.typeOf handler) sec).get Vertical)]
      else [] := by
  have h := StreamDelayStopping_gate d handler sec
  rw [h.2.2.2, h.1, h.2.1, h.2.2.1]

theorem typeOf_eq_of_houtputPtr (d₁ d₂ : DualOutputHandler) (h : d₁.houtputPtr = d₂.houtputPtr)
    (handler : Ptr) : d₁.typeOf handler = d₂.typeOf handler := by
  simp only [DualOutputHandler.typeOf, h]

theorem StreamDelayStarting_houtputPtr (d : DualOutputHandler) (handler : Ptr) (sec : Int) :
    (d.StreamDelayStarting handler sec).1.houtputPtr = d.houtputPtr :=
  deliver_houtputPtr d (Callback.StreamDelayStarting handler sec)

theorem StreamDelayStopping_houtputPtr (d : DualOutputHandler) (handler : Ptr) (sec : Int) :
    (d.StreamDelayStopping handler sec).1.houtputPtr = d.houtputPtr :=
  deliver_houtputPtr d (Callback.StreamDelayStopping handler sec)

theorem deliver_primaryOnly (d : DualOutputHandler) (c : Callback)
    (hc : d.houtputPtr = c.handler) (h : primaryOnly d.toStateTable) :
    primaryOnly (deliver d c).1.toStateTable := by
  obtain ⟨⟨⟨rh, rv⟩, ⟨dsh, dsv⟩, ⟨dph, dpv⟩, inv, ⟨sth, stv⟩, ⟨sph, spv⟩, ⟨soh, sov⟩,
    ⟨ssh, ssv⟩, ⟨psh, psv⟩, ⟨ch, cv⟩, ⟨mh, mv⟩⟩, ho, vo, mn⟩ := d
  simp only [primaryOnly, PerType.mk.injEq] at h
  obtain ⟨⟨rfl, rfl⟩, rfl, rfl, rfl, rfl, rfl, rfl, hinv⟩ := h
  simp only [DualOutputHandler.houtputPtr] at hc
  cases c with
  | StreamDelayStarting handler sec =>
    simp only [Callback.handler] at hc
    simp only [deliver, DualOutputHandler.StreamDelayStarting, DualOutputHandler.typeOf,
      DualOutputHandler.houtputPtr, hc, if_true, PerType.get, PerType.set, primaryOnly]
    split_ifs <;> simp_all
  | StreamDelayStopping handler sec =>
    simp only [Callback.handler] at hc
    simp only [deliver, DualOutputHandler.StreamDelayStopping, DualOutputHandler.typeOf,
      DualOutputHandler.houtputPtr, hc, if_true, PerType.get, PerType.set, primaryOnly]
    split_ifs <;> simp_all
  | StreamStopping handler =>
    simp only [Callback.handler] at hc
    simp only [deliver, DualOutputHandler.StreamStopping, DualOutputHandler.typeOf,
      DualOutputHandler.houtputPtr, hc, if_true, PerType.get, PerType.set, primaryOnly]
    split_ifs <;> simp_all
  | StreamingStart handler =>
    simp only [Callback.handler] at hc
    simp only [deliver, DualOutputHandler.StreamingStart, DualOutputHandler.typeOf,
      DualOutputHandler.houtputPtr, hc, if_true, PerType.get, PerType.set, primaryOnly]
    cases inv <;> cases soh <;> simp
  | StreamingStop handler c m =>
    simp only [Callback.handler] at hc
    simp only [deliver, DualOutputHandler.StreamingStop, DualOutputHandler.typeOf,
      DualOutputHandler.houtputPtr, hc, if_true, PerType.get, PerType.set, primaryOnly]
    cases inv <;> cases sth <;> simp_all

theorem deliverAll_primaryOnly (d : DualOutputHandler) (cs : List Callback)
    (hc : ∀ c ∈ cs, d.houtputPtr = c.handler) (h : primaryOnly d.toStateTable) :
    primaryOnly (deliverAll d cs).1.toStateTable := by
  induction cs generalizing d with
  | nil => exact h
  | cons c cs ih =>
    simp only [deliverAll]
    refine ih _ (fun x hx => ?_) (deliver_primaryOnly d c (hc c (List.mem_cons_self c cs)) h)
    rw [deliver_houtputPtr]
    exact hc x (List.mem_cons_of_mem c hx)

theorem primaryOnly_payloads (s : DualOutputHandler) (h : primaryOnly s.toStateTable)
    (n c : Int) (m : String) :
    (s.StreamDelayStarting s.houtputPtr n).2 = [Notification.StreamDelayStarting n 0] ∧
      (s.StreamDelayStopping s.houtputPtr n).2 = [Notification.StreamDelayStopping n 0] ∧
      (s.StreamingStop s.houtputPtr c m).2 = [Notification.StreamingStop c m 0 ""] := by
  obtain ⟨⟨⟨rh, rv⟩, ⟨dsh, dsv⟩, ⟨dph, dpv⟩, inv, ⟨sth, stv⟩, ⟨sph, spv⟩, ⟨soh, sov⟩,
    ⟨ssh, ssv⟩, ⟨psh, psv⟩, ⟨ch, cv⟩, ⟨mh, mv⟩⟩, ho, vo, mn⟩ := s
  simp only [primaryOnly, PerType.mk.injEq] at h
  obtain ⟨⟨rfl, rfl⟩, rfl, rfl, rfl, rfl, rfl, rfl, hinv⟩ := h
  simp only [DualOutputHandler.StreamDelayStarting, DualOutputHandler.StreamDelayStopping,
    DualOutputHandler.StreamingStop, DualOutputHandler.typeOf,
    DualOutputHandler.houtputPtr, if_true, PerType.get, PerType.set]
  refine ⟨by simp, by simp, ?_⟩
  cases inv <;> cases sth <;> simp_all

theorem startSettled_started (t : StateTable) (h : startSettled t = true) :
    t.streamingStart.get Horizontal = true ∨ t.streamingStart.get Vertical = true := by
  simp only [startSettled, Bool.and_eq_true, Bool.or_eq_true] at h
  exact h.1.1

theorem deliver_start_started (d : DualOutputHandler) (c : Callback)
    (h : Notification.StreamingStart ∈ (deliver d c).2) :
    (deliver d c).1.streamingStart.get Horizontal = true ∨
      (deliver d c).1.streamingStart.get Vertical = true := by
  obtain ⟨⟨⟨rh, rv⟩, ⟨dsh, dsv⟩, ⟨dph, dpv⟩, inv, ⟨sth, stv⟩, ⟨sph, spv⟩, ⟨soh, sov⟩,
    ⟨ssh, ssv⟩, ⟨psh, psv⟩, ⟨ch, cv⟩, ⟨mh, mv⟩⟩, ho, vo, mn⟩ := d
  cases c with
  | StreamDelayStarting handler sec =>
    simp only [deliver, DualOutputHandler.StreamDelayStarting] at h
    split_ifs at h <;> simp at h
  | StreamDelayStopping handler sec =>
    simp only [deliver, DualOutputHandler.StreamDelayStopping] at h
    split_ifs at h <;> simp at h
  | StreamStopping handler =>
    simp only [deliver, DualOutputHandler.StreamStopping] at h
    split_ifs at h <;> simp at h
  | StreamingStart handler =>
    by_cases hp : Option.map BasicOutputHandler.addr ho = handler <;>
    simp only [deliver, DualOutputHandler.StreamingStart, DualOutputHandler.typeOf,
      DualOutputHandler.houtputPtr, hp, if_true, if_false, PerType.get, PerType.set] <;>
    split_ifs <;> simp
  | StreamingStop handler c m =>
    have hf : (DualOutputHandler.StreamingStop
        { toStateTable := ⟨⟨rh, rv⟩, ⟨dsh, dsv⟩, ⟨dph, dpv⟩, inv, ⟨sth, stv⟩, ⟨sph, spv⟩,
            ⟨soh, sov⟩, ⟨ssh, ssv⟩, ⟨psh, psv⟩, ⟨ch, cv⟩, ⟨mh, mv⟩⟩,
          houtput := ho, voutput := vo, main := mn } handler c m).1.streamingStart =
        ⟨sth, stv⟩ := by
      simp only [DualOutputHandler.StreamingStop]
      split_ifs <;> rfl
    simp only [deliver, hf, PerType.get]
    cases sth
    · cases stv
      · exfalso
        simp only [deliver, DualOutputHandler.StreamingStop, PerType.get] at h
        simp at h
        split_ifs at h <;> simp at h
      · exact Or.inr rfl
    · exact Or.inl rfl

theorem StreamingStop_after_start (x : DualOutputHandler) (handler : Ptr) (c : Int)
    (m : String) (hinv : x.streamingStartInvoked = true) :
    Notification.SysTrayNotify ∉ (x.StreamingStop handler c m).2 ∧
      Notification.StreamingStart ∉ (x.StreamingStop handler c m).2 ∧
      (x.StreamingStop handler c m).1.streamingStopErrorCode =
        x.streamingStopErrorCode.set (x.typeOf handler) c ∧
      (x.StreamingStop handler c m).1.streamingStopLastError =
        x.streamingStopLastError.set (x.typeOf handler) m := by
  simp only [DualOutputHandler.StreamingStop, hinv]
  split_ifs <;> simp_all

theorem deliver_warning (d : DualOutputHandler) (c : Callback) :
    (Notification.SysTrayNotify ∈ (deliver d c).2 ↔
      (Notification.StreamingStart ∈ (deliver d c).2 ∧
        ((deliver d c).1.streamingStop.get Horizontal = true ∨
          (deliver d c).1.streamingStop.get Vertical = true))) ∧
    (deliver d c).2.count Notification.SysTrayNotify ≤
      (deliver d c).2.count Notification.StreamingStart ∧
    (Notification.SysTrayNotify ∉ (deliver d c).2 →
      (deliver d c).1.streamingStopErrorCode = d.streamingStopErrorCode ∧
      (deliver d c).1.streamingStopLastError = d.streamingStopLastError ∨
      ∃ handler e m, c = Callback.StreamingStop handler e m) := by
  cases c with
  | StreamDelayStarting handler sec =>
    simp only [deliver, DualOutputHandler.StreamDelayStarting]
    split_ifs <;> simp
  | StreamDelayStopping handler sec =>
    simp only [deliver, DualOutputHandler.StreamDelayStopping]
    split_ifs <;> simp
  | StreamStopping handler =>
    simp only [deliver, DualOutputHandler.StreamStopping]
    split_ifs <;> simp
  | StreamingStart handler =>
    simp only [deliver, DualOutputHandler.StreamingStart]
    split_ifs <;> simp_all
  | StreamingStop handler e m =>
    rcases typeOf_cases d handler with ⟨_, ht⟩ | ⟨_, ht⟩ <;>
    simp only [deliver, DualOutputHandler.StreamingStop, ht] <;>
    split_ifs <;> simp_all [PerType.get, PerType.set]

theorem deliverAll_warning_count (d : DualOutputHandler) (cs : List Callback) :
    (deliverAll d cs).2.count Notification.SysTrayNotify ≤
      (deliverAll d cs).2.count Notification.StreamingStart := by
  induction cs generalizing d with
  | nil => simp [deliverAll]
  | cons c cs ih =>
    have h1 := (deliver_warning d c).2.1
    have h2 := ih (deliver d c).1
    simp only [deliverAll, List.count_append]
    omega

theorem deliver_slots_any (d : DualOutputHandler) (c : Callback) (s : StreamingType) :
    (deliver d c).1.toStateTable.slots s = slotStep (d.toStateTable.slots s) c ∨
      (deliver d c).1.toStateTable.slots s = d.toStateTable.slots s := by
  have h := deliver_slots d c
  rcases typeOf_cases d c.handler with ⟨_, ht⟩ | ⟨_, ht⟩
  · have h' := h.1 ht
    cases s
    · exact Or.inl h'.1
    · exact Or.inr h'.2
    · exact Or.inr h'.2
  · have h' := h.2 ht
    cases s
    · exact Or.inr h'.2
    · exact Or.inl h'.1
    · exact Or.inl h'.1

theorem slotStep_monotone (x : SurfaceSlots) (c : Callback) :
    (x.delayStarting = true → (slotStep x c).delayStarting = true) ∧
      (x.delayStopping = true → (slotStep x c).delayStopping = true) ∧
      (x.started = true → (slotStep x c).started = true) ∧
      (x.stopInProgress = true → (slotStep x c).stopInProgress = true) ∧
      (x.stopped = true → (slotStep x c).stopped = true) := by
  cases c <;> simp [slotStep]

theorem deliver_invoked_monotone (d : DualOutputHandler) (c : Callback)
    (h : d.streamingStartInvoked = true) : (deliver d c).1.streamingStartInvoked = true := by
  cases c <;>
    simp only [deliver, DualOutputHandler.StreamDelayStarting,
      DualOutputHandler.StreamDelayStopping, DualOutputHandler.StreamingStart,
      DualOutputHandler.StreamStopping, DualOutputHandler.StreamingStop] <;>
    split_ifs <;> simp_all

theorem gated_errors_frame (d : DualOutputHandler) (handler : Ptr) (sec : Int) :
    ((d.StreamDelayStarting handler sec).1.streamingStopErrorCode = d.streamingStopErrorCode ∧
      (d.StreamDelayStarting handler sec).1.streamingStopLastError =
        d.streamingStopLastError) ∧
    ((d.StreamDelayStopping handler sec).1.streamingStopErrorCode = d.streamingStopErrorCode ∧
      (d.StreamDelayStopping handler sec).1.streamingStopLastError =
        d.streamingStopLastError) ∧
    ((d.StreamStopping handler).1.streamingStopErrorCode = d.streamingStopErrorCode ∧
      (d.StreamStopping handler).1.streamingStopLastError = d.streamingStopLastError) := by
  simp only [DualOutputHandler.StreamDelayStarting, DualOutputHandler.StreamDelayStopping,
    DualOutputHandler.StreamStopping]
  refine ⟨?_, ?_, ?_⟩ <;> split_ifs <;> simp

theorem StreamingStop_other_errors (d : DualOutputHandler) (handler : Ptr) (e : Int)
    (m : String) :
    (d.StreamingStop handler e m).1.streamingStopErrorCode.get (otherType (d.typeOf handler)) =
        d.streamingStopErrorCode.get (otherType (d.typeOf handler)) ∧
      (d.StreamingStop handler e m).1.streamingStopLastError.get
          (otherType (d.typeOf handler)) =
        d.streamingStopLastError.get (otherType (d.typeOf handler)) := by
  rcases typeOf_cases d handler with ⟨_, ht⟩ | ⟨_, ht⟩ <;>
    simp only [DualOutputHandler.StreamingStop, ht, otherType] <;>
    split_ifs <;> simp [PerType.get, PerType.set]

theorem StreamingStop_stored (d : DualOutputHandler) (handler : Ptr) (e : Int) (m : String) :
    (d.StreamingStop handler e m).1.streamingStopErrorCode.get (d.typeOf handler) =
        (if Notification.StreamingStart ∈ (d.StreamingStop handler e m).2 then 0 else e) ∧
      (d.StreamingStop handler e m).1.streamingStopLastError.get (d.typeOf handler) =
        (if Notification.StreamingStart ∈ (d.StreamingStop handler e m).2 then "" else m) := by
  have g := StreamingStop_gate d handler e m
  by_cases hs : Notification.StreamingStart ∈ (d.StreamingStop handler e m).2
  · rw [if_pos hs, if_pos hs, (g.2.2.2.1 hs).1, (g.2.2.2.1 hs).2]
    rcases typeOf_cases d handler with ⟨_, ht⟩ | ⟨_, ht⟩ <;> rw [ht] <;> exact ⟨rfl, rfl⟩
  · rw [if_neg hs, if_neg hs, (g.2.2.1 hs).1, (g.2.2.1 hs).2]
    rcases typeOf_cases d handler with ⟨_, ht⟩ | ⟨_, ht⟩ <;> rw [ht] <;> exact ⟨rfl, rfl⟩

theorem StreamingStart_stored (d : DualOutputHandler) (handler : Ptr) :
    ((d.StreamingStart handler).1.streamingStopErrorCode.get Horizontal =
        (if Notification.StreamingStart ∈ (d.StreamingStart handler).2 ∧
            d.streamingStop.get Horizontal = true then 0
          else d.streamingStopErrorCode.get Horizontal) ∧
      (d.StreamingStart handler).1.streamingStopLastError.get Horizontal =
        (if Notification.StreamingStart ∈ (d.StreamingStart handler).2 ∧
            d.streamingStop.get Horizontal = true then ""
          else d.streamingStopLastError.get Horizontal)) ∧
    ((d.StreamingStart handler).1.streamingStopErrorCode.get Vertical =
        (if Notification.StreamingStart ∈ (d.StreamingStart handler).2 ∧
            d.streamingStop.get Horizontal = false ∧
            d.streamingStop.get Vertical = true then 0
          else d.streamingStopErrorCode.get Vertical) ∧
      (d.StreamingStart handler).1.streamingStopLastError.get Vertical =
        (if Notification.StreamingStart ∈ (d.StreamingStart handler).2 ∧
            d.streamingStop.get Horizontal = false ∧
            d.streamingStop.get Vertical = true then ""
          else d.streamingStopLastError.get Vertical)) := by
  simp only [DualOutputHandler.StreamingStart]
  split_ifs with g h1 h2 <;> simp_all [PerType.get, PerType.set]


theorem slots_other (d : DualOutputHandler) (c : Callback) :
    (deliver d c).1.toStateTable.slots (d.typeOf c.handler) =
        slotStep (d.toStateTable.slots (d.typeOf c.handler)) c ∧
      (deliver d c).1.toStateTable.slots (otherType (d.typeOf c.handler)) =
        d.toStateTable.slots (otherType (d.typeOf c.handler)) := by
  have h := deliver_slots d c
  rcases typeOf_cases d c.handler with ⟨_, ht⟩ | ⟨_, ht⟩
  · rw [ht]; exact h.1 ht
  · rw [ht]; exact h.2 ht

theorem typeOf_deliver (d : DualOutputHandler) (c : Callback) (handler : Ptr) :
    (deliver d c).1.typeOf handler = d.typeOf handler := by
  simp only [DualOutputHandler.typeOf, deliver_houtputPtr]

theorem typeOf_deliverAll (d : DualOutputHandler) (cs : List Callback) (handler : Ptr) :
    (deliverAll d cs).1.typeOf handler = d.typeOf handler := by
  simp only [DualOutputHandler.typeOf, deliverAll_houtputPtr]

theorem typeOf_ne_max (d : DualOutputHandler) (handler : Ptr) :
    d.typeOf handler ≠ StreamingTypeMax := by
  rcases typeOf_cases d handler with ⟨_, ht⟩ | ⟨_, ht⟩ <;> rw [ht] <;> decide

theorem deliver_started_stopped (d : DualOutputHandler) (c : Callback) (t : StreamingType)
    (ht : t ≠ StreamingTypeMax) :
    (deliver d c).1.streamingStart.get t =
        (d.streamingStart.get t || (c.isStarted && decide (d.typeOf c.handler = t))) ∧
      (deliver d c).1.streamingStop.get t =
        (d.streamingStop.get t || (c.isStopped && decide (d.typeOf c.handler = t))) := by
  have h := deliver_slots d c
  have e1 : ∀ x : DualOutputHandler, x.streamingStart.get t = (x.toStateTable.slots t).started :=
    fun _ => rfl
  have e2 : ∀ x : DualOutputHandler, x.streamingStop.get t = (x.toStateTable.slots t).stopped :=
    fun _ => rfl
  rw [e1, e2, e1, e2]
  rcases typeOf_cases d c.handler with ⟨_, hty⟩ | ⟨_, hty⟩
  · have h' := h.1 hty
    rw [hty]
    cases t
    · rw [h'.1]; cases c <;> simp [slotStep, Callback.isStarted, Callback.isStopped]
    · rw [h'.2]; simp
    · exact absurd rfl ht
  · have h' := h.2 hty
    rw [hty]
    cases t
    · rw [h'.2]; simp
    · rw [h'.1]; cases c <;> simp [slotStep, Callback.isStarted, Callback.isStopped]
    · exact absurd rfl ht

theorem deliverAll_started_stopped (d : DualOutputHandler) (cs : List Callback)
    (t : StreamingType) (ht : t ≠ StreamingTypeMax) :
    (deliverAll d cs).1.streamingStart.get t =
        (d.streamingStart.get t ||
          cs.any (fun c => c.isStarted && decide (d.typeOf c.handler = t))) ∧
      (deliverAll d cs).1.streamingStop.get t =
        (d.streamingStop.get t ||
          cs.any (fun c => c.isStopped && decide (d.typeOf c.handler = t))) := by
  induction cs generalizing d with
  | nil => simp [deliverAll]
  | cons c cs ih =>
    have h1 := deliver_started_stopped d c t ht
    have h2 := ih (deliver d c).1
    simp only [deliverAll, List.any_cons]
    rw [h2.1, h2.2, h1.1, h1.2]
    simp only [typeOf_deliver, Bool.or_assoc]
    exact ⟨trivial, trivial⟩

theorem lifecycle_append (d : DualOutputHandler) (s : StreamingType) (as bs : List Callback) :
    lifecycle d s (as ++ bs) = lifecycle d s as ++ lifecycle d s bs := by
  simp [lifecycle, List.filterMap_append]

theorem lifecycle_mem_true (d : DualOutputHandler) (cs : List Callback) (x : Callback)
    (hx : x ∈ cs) (hs : x.isStarted = true) : true ∈ lifecycle d (d.typeOf x.handler) cs := by
  simp only [lifecycle, List.mem_filterMap]
  refine ⟨x, hx, ?_⟩
  cases x <;> simp [Callback.isStarted] at hs
  simp [Callback.report]

theorem lifecycle_mem_false (d : DualOutputHandler) (cs : List Callback) (t : StreamingType)
    (h : cs.any (fun c => c.isStopped && decide (d.typeOf c.handler = t)) = true) :
    false ∈ lifecycle d t cs := by
  simp only [List.any_eq_true, Bool.and_eq_true, decide_eq_true_eq] at h
  obtain ⟨y, hy, hs, hty⟩ := h
  simp only [lifecycle, List.mem_filterMap]
  refine ⟨y, hy, ?_⟩
  cases y <;> simp [Callback.isStopped] at hs
  simp [Callback.report, hty]

theorem lifecycle_order (l₁ l₂ : List Bool) (h₁ : false ∈ l₁) (h₂ : true ∈ l₂)
    (h : l₁ ++ l₂ = [] ∨ l₁ ++ l₂ = [true] ∨ l₁ ++ l₂ = [false] ∨ l₁ ++ l₂ = [true, false]) :
    False := by
  rcases l₁ with _ | ⟨a, _ | ⟨b, _ | ⟨c, l⟩⟩⟩ <;> rcases l₂ with _ | ⟨a', _ | ⟨b', l'⟩⟩ <;>
    simp_all


theorem stop_emitted_settled (d : DualOutputHandler) (c : Callback) (a : Int) (b : String)
    (e : Int) (f : String)
    (h : Notification.StreamingStop a b e f ∈ (deliver d c).2) :
    c.isStopped = true ∧ allSettled EventClass.Stopped (deliver d c).1.toStateTable = true := by
  have hpos : 0 < emitted EventClass.Stopped (deliver d c).2 := by
    unfold emitted
    exact List.countP_pos_iff.2 ⟨_, h, by simp [Notification.eventClass]⟩
  rw [deliver_emitted] at hpos
  split_ifs at hpos with hc
  · refine ⟨?_, hc.2⟩
    cases c <;> simp [Callback.eventClass] at hc
    rfl
  · omega

theorem stop_after_start_shape (d : DualOutputHandler) (handler : Ptr) (e : Int) (m : String)
    (hs : Notification.StreamingStart ∈ (d.StreamingStop handler e m).2)
    (hst : allSettled EventClass.Stopped (d.StreamingStop handler e m).1.toStateTable = true) :
    ∃ a b e' f, (d.StreamingStop handler e m).2 =
      [Notification.SysTrayNotify, Notification.StreamingStart,
        Notification.StreamingStop a b e' f] := by
  obtain ⟨pre, hpre, hout⟩ := (StreamingStop_gate d handler e m).2.2.2.2
  simp only [allSettled, EventClass.flag] at hst
  rw [hst] at hout
  rcases hpre with rfl | rfl
  · rw [hout] at hs
    simp at hs
  · exact ⟨_, _, _, _, hout⟩

/-! ## The claims -/

/-- C1: whatever sequence of the five per-surface streaming callbacks is
processed after a `StartStreaming` call (any handler argument, any seconds,
codes and messages, any order, any repetition), the notifications sent to the
consumer contain `StreamingStart` at most once. -/
theorem C1_streamingStart_at_most_once (d : DualOutputHandler) (service vservice : Ptr)
    (out : DualOutputHandler × List HandlerCall × Bool)
    (_hrun : d.StartStreaming service vservice = some out) (cs : List Callback) :
    (deliverAll out.1 cs).2.count Notification.StreamingStart ≤ 1 := by
  have h1 := deliverAll_start_budget out.1 cs
  have h2 := startBudget_le_one out.1
  omega

/-- Witness for C1: a cycle with both surfaces accepted in which each surface
reports started twice and stopped once. -/
theorem C1_streamingStart_at_most_once_witness :
    (sampleObject staleTable true true).StartStreaming (some 10) (some 20) =
        some (sampleObject (freshTable true true) true true,
          [HandlerCall.StartStreaming Vertical (some 20) true,
           HandlerCall.StartStreaming Horizontal (some 10) true], true) ∧
      (deliverAll (sampleObject (freshTable true true) true true)
        [Callback.StreamingStart (some 1), Callback.StreamingStart (some 2),
         Callback.StreamingStop (some 2) 4 "net-err", Callback.StreamingStart (some 2),
         Callback.StreamingStart (some 1), Callback.StreamingStop (some 1) 0 ""]).2.count
        Notification.StreamingStart ≤ 1 :=
  ⟨rfl, C1_streamingStart_at_most_once (sampleObject staleTable true true) (some 10) (some 20)
    _ rfl _⟩

/-- C2: when `StartStreaming` returns, the returned boolean is true exactly
when one of the handler start calls it made returned true; for each surface,
`startStreaming` holds the reply of the call made to that surface, and false
when no call was made to it; the replies are those of the owned handlers. In
particular, with both handlers and both configurations present, the horizontal
handler rejecting and the vertical one accepting, the result is true with
`startStreaming[Horizontal]` false and `startStreaming[Vertical]` true. -/
theorem C2_startStreaming_result (d : DualOutputHandler) (service vservice : Ptr)
    (out : DualOutputHandler × List HandlerCall × Bool)
    (hrun : d.StartStreaming service vservice = some out) :
    (out.2.2 = true ↔ ∃ t s, HandlerCall.StartStreaming t s true ∈ out.2.1) ∧
    (∀ t, t ≠ StreamingTypeMax →
      (∀ s r, HandlerCall.StartStreaming t s r ∈ out.2.1 → out.1.startStreaming.get t = r) ∧
      ((∀ s r, HandlerCall.StartStreaming t s r ∉ out.2.1) →
        out.1.startStreaming.get t = false)) ∧
    (∀ s r, HandlerCall.StartStreaming Horizontal s r ∈ out.2.1 →
      ∃ h, d.houtput = some h ∧ r = h.StartStreaming s) ∧
    (∀ s r, HandlerCall.StartStreaming Vertical s r ∈ out.2.1 →
      ∃ v, d.voutput = some v ∧ r = v.StartStreaming s) ∧
    (∀ h v, d.houtput = some h → d.voutput = some v → service ≠ none → vservice ≠ none →
      h.StartStreaming service = false → v.StartStreaming vservice = true →
      out.2.2 = true ∧ out.1.startStreaming.get Horizontal = false ∧
        out.1.startStreaming.get Vertical = true) := by
  unfold DualOutputHandler.StartStreaming at hrun
  simp only [DualOutputHandler.resetState] at hrun
  split_ifs at hrun with h1 h2
  · split at hrun
    · exact absurd hrun (by simp)
    · rename_i v hv
      cases hrun
      refine ⟨?_, ?_, ?_, ?_, ?_⟩
      · simp [PerType.set, PerType.get]
      · intro t ht
        cases t <;> simp_all [PerType.set, PerType.get]
      · simp
      · simp_all
      · intro h v _ _ hs
        exact absurd h1 hs
  · split at hrun
    · exact absurd hrun (by simp)
    · rename_i h hh
      cases hrun
      refine ⟨?_, ?_, ?_, ?_, ?_⟩
      · simp [PerType.set, PerType.get]
      · intro t ht
        cases t <;> simp_all [PerType.set, PerType.get]
      · simp_all
      · simp
      · intro h v _ _ _ hs
        exact absurd h2 hs
  · split at hrun
    · exact absurd hrun (by simp)
    · split at hrun
      · exact absurd hrun (by simp)
      · rename_i v hv h hh
        cases hrun
        refine ⟨?_, ?_, ?_, ?_, ?_⟩
        · simp only [PerType.set, PerType.get, Bool.or_eq_true, List.mem_cons,
            HandlerCall.StartStreaming.injEq, List.mem_singleton, List.not_mem_nil, or_false]
          constructor
          · rintro (h | h)
            · exact ⟨Horizontal, service, Or.inr ⟨rfl, rfl, h.symm⟩⟩
            · exact ⟨Vertical, vservice, Or.inl ⟨rfl, rfl, h.symm⟩⟩
          · rintro ⟨t, s, ⟨-, -, h⟩ | ⟨-, -, h⟩⟩
            · exact Or.inr h.symm
            · exact Or.inl h.symm
        · intro t ht
          cases t <;> simp_all [PerType.set, PerType.get]
        · simp_all
        · simp_all
        · intro h' v' e1 e2 _ _ r1 r2
          simp_all [PerType.set, PerType.get]

/-- Witness for C2: both configurations present, the horizontal handler rejects
and the vertical handler accepts. -/
theorem C2_startStreaming_result_witness :
    (sampleObject staleTable false true).StartStreaming (some 10) (some 20) =
        some (sampleObject (freshTable false true) false true,
          [HandlerCall.StartStreaming Vertical (some 20) true,
           HandlerCall.StartStreaming Horizontal (some 10) false], true) ∧
      (true = true ∧
        (sampleObject (freshTable false true) false true).startStreaming.get Horizontal = false ∧
        (sampleObject (freshTable false true) false true).startStreaming.get Vertical = true) :=
  ⟨rfl, (C2_startStreaming_result (sampleObject staleTable false true) (some 10) (some 20)
    (sampleObject (freshTable false true) false true,
      [HandlerCall.StartStreaming Vertical (some 20) true,
       HandlerCall.StartStreaming Horizontal (some 10) false], true) rfl).2.2.2.2
    (sampleHandler 1 false) (sampleHandler 2 true) rfl rfl (by simp) (by simp) rfl rfl⟩

/-- C3: `StartStreaming` fans out by configuration presence. With `service`
null it makes one call, to the vertical handler (also when `vservice` is null
too); otherwise with `vservice` null it makes one call, to the horizontal
handler; with both present it makes two calls, the vertical handler first and
the horizontal handler second. Each call carries the configuration of its
surface. -/
theorem C3_startStreaming_fanout (d : DualOutputHandler) (service vservice : Ptr)
    (out : DualOutputHandler × List HandlerCall × Bool)
    (hrun : d.StartStreaming service vservice = some out) :
    (service = none →
      ∃ rv, out.2.1 = [HandlerCall.StartStreaming Vertical vservice rv]) ∧
    (service ≠ none → vservice = none →
      ∃ rh, out.2.1 = [HandlerCall.StartStreaming Horizontal service rh]) ∧
    (service ≠ none → vservice ≠ none →
      ∃ rv rh, out.2.1 = [HandlerCall.StartStreaming Vertical vservice rv,
        HandlerCall.StartStreaming Horizontal service rh]) := by
  unfold DualOutputHandler.StartStreaming at hrun
  simp only [DualOutputHandler.resetState] at hrun
  split_ifs at hrun with h1 h2
  · split at hrun
    · exact absurd hrun (by simp)
    · cases hrun
      simp [h1]
  · split at hrun
    · exact absurd hrun (by simp)
    · cases hrun
      simp [h1, h2]
  · split at hrun
    · exact absurd hrun (by simp)
    · split at hrun
      · exact absurd hrun (by simp)
      · cases hrun
        simp [h1, h2]

/-- Witness for C3: single-output mode (no vertical handler), horizontal
configuration present and vertical configuration absent. -/
theorem C3_startStreaming_fanout_witness :
    (sampleSingle staleTable true).StartStreaming (some 10) none =
        some (sampleSingle (freshTable true false) true,
          [HandlerCall.StartStreaming Horizontal (some 10) true], true) ∧
      ∃ rh, [HandlerCall.StartStreaming Horizontal (some 10) true] =
        [HandlerCall.StartStreaming Horizontal (some 10) rh] :=
  ⟨rfl, (C3_startStreaming_fanout (sampleSingle staleTable true) (some 10) none
    (sampleSingle (freshTable true false) true,
      [HandlerCall.StartStreaming Horizontal (some 10) true], true) rfl).2.1
    (by simp) rfl⟩

/-- C4: whatever the state table held before, when `StartStreaming` returns the
delay-starting, delay-stopping, started, stop-in-progress and stopped flags of
both surfaces are false, both delay-second counters and both stop error codes
are 0, both stop error messages are empty and `streamingStartInvoked` is false;
and two runs whose handler calls gave the same replies end in the same state
table, whatever their earlier tables were. -/
theorem C4_startStreaming_resets (d₁ d₂ : DualOutputHandler) (s₁ v₁ s₂ v₂ : Ptr)
    (out₁ out₂ : DualOutputHandler × List HandlerCall × Bool)
    (hrun₁ : d₁.StartStreaming s₁ v₁ = some out₁)
    (hrun₂ : d₂.StartStreaming s₂ v₂ = some out₂) :
    (out₁.1.streamDelayStarting = ⟨false, false⟩ ∧
      out₁.1.streamDelayStopping = ⟨false, false⟩ ∧
      out₁.1.streamingStart = ⟨false, false⟩ ∧
      out₁.1.streamStopping = ⟨false, false⟩ ∧
      out₁.1.streamingStop = ⟨false, false⟩ ∧
      out₁.1.streamDelayStartingSec = ⟨0, 0⟩ ∧
      out₁.1.streamDelayStoppingSec = ⟨0, 0⟩ ∧
      out₁.1.streamingStopErrorCode = ⟨0, 0⟩ ∧
      out₁.1.streamingStopLastError = ⟨"", ""⟩ ∧
      out₁.1.streamingStartInvoked = false) ∧
    (startReplies out₁.2.1 = startReplies out₂.2.1 →
      out₁.1.toStateTable = out₂.1.toStateTable) := by
  constructor
  · have h := (StartStreaming_eq d₁ s₁ v₁ out₁ hrun₁).1
    refine ⟨?_, ?_, ?_, ?_, ?_, ?_, ?_, ?_, ?_, ?_⟩
    · exact congrArg StateTable.streamDelayStarting h
    · exact congrArg StateTable.streamDelayStopping h
    · exact congrArg StateTable.streamingStart h
    · exact congrArg StateTable.streamStopping h
    · exact congrArg StateTable.streamingStop h
    · exact congrArg StateTable.streamDelayStartingSec h
    · exact congrArg StateTable.streamDelayStoppingSec h
    · exact congrArg StateTable.streamingStopErrorCode h
    · exact congrArg StateTable.streamingStopLastError h
    · exact congrArg StateTable.streamingStartInvoked h
  · intro hr
    rw [StartStreaming_tableAfter d₁ s₁ v₁ out₁ hrun₁,
      StartStreaming_tableAfter d₂ s₂ v₂ out₂ hrun₂, hr]

/-- Witness for C4: one run starts from a table with every flag set, the
other from a clean table; the handlers give the same replies and the two
runs finish with the same table. -/
theorem C4_startStreaming_resets_witness :
    (sampleObject staleTable true false).StartStreaming (some 10) (some 20) =
        some (sampleObject (freshTable true false) true false,
          [HandlerCall.StartStreaming Vertical (some 20) false,
           HandlerCall.StartStreaming Horizontal (some 10) true], true) ∧
      (sampleObject (freshTable false false) true false).StartStreaming (some 30) (some 40) =
        some (sampleObject (freshTable true false) true false,
          [HandlerCall.StartStreaming Vertical (some 40) false,
           HandlerCall.StartStreaming Horizontal (some 30) true], true) ∧
      (sampleObject (freshTable true false) true false).toStateTable =
        (sampleObject (freshTable true false) true false).toStateTable :=
  ⟨rfl, rfl, (C4_startStreaming_resets (sampleObject staleTable true false)
    (sampleObject (freshTable false false) true false) (some 10) (some 20) (some 30) (some 40)
    (sampleObject (freshTable true false) true false,
      [HandlerCall.StartStreaming Vertical (some 20) false,
       HandlerCall.StartStreaming Horizontal (some 10) true], true)
    (sampleObject (freshTable true false) true false,
      [HandlerCall.StartStreaming Vertical (some 40) false,
       HandlerCall.StartStreaming Horizontal (some 30) true], true) rfl rfl).2 rfl⟩

/-- C5: at the beginning of a cycle in which both start requests were
accepted, when the horizontal handler reports started and then another handler
(the vertical one) reports started, the first callback sends nothing to the
consumer and the second sends exactly `StreamingStart`; the two callbacks
together emit `StreamingStart` exactly once. -/
theorem C5_both_started (d : DualOutputHandler) (service vservice : Ptr)
    (out : DualOutputHandler × List HandlerCall × Bool)
    (hrun : d.StartStreaming service vservice = some out)
    (hH : out.1.startStreaming.get Horizontal = true)
    (hV : out.1.startStreaming.get Vertical = true)
    (q : Ptr) (hq : q ≠ out.1.houtputPtr) :
    (out.1.StreamingStart out.1.houtputPtr).2 = [] ∧
    ((out.1.StreamingStart out.1.houtputPtr).1.StreamingStart q).2 =
      [Notification.StreamingStart] ∧
    (deliverAll out.1 [Callback.StreamingStart out.1.houtputPtr,
      Callback.StreamingStart q]).2.count Notification.StreamingStart = 1 := by
  have e := StartStreaming_fresh d service vservice out hrun true true hH hV
  have hq' : ¬ out.1.houtputPtr = q := fun h => hq h.symm
  rw [e] at hq' ⊢
  simp [deliverAll, deliver, DualOutputHandler.StreamingStart, DualOutputHandler.typeOf,
    DualOutputHandler.houtputPtr, freshTable, PerType.get, PerType.set] at hq' ⊢
  simp [hq']

/-- Witness for C5: handlers at addresses 1 and 2, both accepting. -/
theorem C5_both_started_witness :
    (sampleObject staleTable true true).StartStreaming (some 10) (some 20) = some sampleBoth ∧
      (sampleBoth.1.StreamingStart (some 1)).2 = [] ∧
      ((sampleBoth.1.StreamingStart (some 1)).1.StreamingStart (some 2)).2 =
        [Notification.StreamingStart] ∧
      (deliverAll sampleBoth.1 [Callback.StreamingStart (some 1),
        Callback.StreamingStart (some 2)]).2.count Notification.StreamingStart = 1 :=
  ⟨rfl, C5_both_started (sampleObject staleTable true true) (some 10) (some 20) sampleBoth
    rfl rfl rfl (some 2) (by decide)⟩

/-- C6: at the beginning of a cycle in which both start requests were
accepted, for every code `c` and message `m`: when the horizontal handler
reports stopped with `(c, m)` before any started report, that callback sends
nothing to the consumer (neither `StreamingStart` nor `StreamingStop`); when
the vertical handler then reports started, that callback raises the tray
warning, emits `StreamingStart` once, and leaves the horizontal stop error code
0 and the horizontal stop error message empty. -/
theorem C6_stopped_then_started (d : DualOutputHandler) (service vservice : Ptr)
    (out : DualOutputHandler × List HandlerCall × Bool)
    (hrun : d.StartStreaming service vservice = some out)
    (hH : out.1.startStreaming.get Horizontal = true)
    (hV : out.1.startStreaming.get Vertical = true)
    (q : Ptr) (hq : q ≠ out.1.houtputPtr) (c : Int) (m : String) :
    (out.1.StreamingStop out.1.houtputPtr c m).2 = [] ∧
    ((out.1.StreamingStop out.1.houtputPtr c m).1.StreamingStart q).2 =
      [Notification.SysTrayNotify, Notification.StreamingStart] ∧
    ((out.1.StreamingStop out.1.houtputPtr c m).1.StreamingStart q).1.streamingStopErrorCode.get
      Horizontal = 0 ∧
    ((out.1.StreamingStop out.1.houtputPtr c m).1.StreamingStart q).1.streamingStopLastError.get
      Horizontal = "" := by
  have e := StartStreaming_fresh d service vservice out hrun true true hH hV
  have hq' : ¬ out.1.houtputPtr = q := fun h => hq h.symm
  rw [e] at hq' ⊢
  simp [DualOutputHandler.StreamingStart, DualOutputHandler.StreamingStop,
    DualOutputHandler.typeOf, DualOutputHandler.houtputPtr, freshTable, PerType.get,
    PerType.set] at hq' ⊢
  simp [hq']

/-- Witness for C6: code 4 and message "net-err". -/
theorem C6_stopped_then_started_witness :
    (sampleObject staleTable true true).StartStreaming (some 10) (some 20) = some sampleBoth ∧
      (sampleBoth.1.StreamingStop (some 1) 4 "net-err").2 = [] ∧
      ((sampleBoth.1.StreamingStop (some 1) 4 "net-err").1.StreamingStart (some 2)).2 =
        [Notification.SysTrayNotify, Notification.StreamingStart] ∧
      ((sampleBoth.1.StreamingStop (some 1) 4 "net-err").1.StreamingStart
        (some 2)).1.streamingStopErrorCode.get Horizontal = 0 ∧
      ((sampleBoth.1.StreamingStop (some 1) 4 "net-err").1.StreamingStart
        (some 2)).1.streamingStopLastError.get Horizontal = "" :=
  ⟨rfl, C6_stopped_then_started (sampleObject staleTable true true) (some 10) (some 20)
    sampleBoth rfl rfl rfl (some 2) (by decide) 4 "net-err"⟩

/-- C7: a failure that arrives second. At the beginning of a cycle with both
surfaces requested, when surface A reports started and then the other surface
B reports stopped with `(c, m)`, the stopped callback raises the tray warning
and emits `StreamingStart` once and nothing else (no `StreamingStop`), and
resets the stored error of B to code 0 and the empty message; when A then
reports stopped with `(c₂, m₂)`, the `StreamingStop` it emits carries 0 and the
empty message in the slot of B and `(c₂, m₂)` in the slot of A. Stated for A
horizontal and B vertical, and for A vertical and B horizontal. -/
theorem C7_failure_arrives_second (d : DualOutputHandler) (service vservice : Ptr)
    (out : DualOutputHandler × List HandlerCall × Bool)
    (hrun : d.StartStreaming service vservice = some out)
    (hH : out.1.startStreaming.get Horizontal = true)
    (hV : out.1.startStreaming.get Vertical = true)
    (q : Ptr) (hq : q ≠ out.1.houtputPtr) (c c₂ : Int) (m m₂ : String) :
    ((out.1.StreamingStart out.1.houtputPtr).2 = [] ∧
      ((out.1.StreamingStart out.1.houtputPtr).1.StreamingStop q c m).2 =
        [Notification.SysTrayNotify, Notification.StreamingStart] ∧
      ((out.1.StreamingStart out.1.houtputPtr).1.StreamingStop q c m).1.streamingStopErrorCode.get
        Vertical = 0 ∧
      ((out.1.StreamingStart out.1.houtputPtr).1.StreamingStop q c m).1.streamingStopLastError.get
        Vertical = "" ∧
      (((out.1.StreamingStart out.1.houtputPtr).1.StreamingStop q c m).1.StreamingStop
        out.1.houtputPtr c₂ m₂).2 = [Notification.StreamingStop c₂ m₂ 0 ""]) ∧
    ((out.1.StreamingStart q).2 = [] ∧
      ((out.1.StreamingStart q).1.StreamingStop out.1.houtputPtr c m).2 =
        [Notification.SysTrayNotify, Notification.StreamingStart] ∧
      ((out.1.StreamingStart q).1.StreamingStop out.1.houtputPtr c m).1.streamingStopErrorCode.get
        Horizontal = 0 ∧
      ((out.1.StreamingStart q).1.StreamingStop out.1.houtputPtr c m).1.streamingStopLastError.get
        Horizontal = "" ∧
      (((out.1.StreamingStart q).1.StreamingStop out.1.houtputPtr c m).1.StreamingStop
        q c₂ m₂).2 = [Notification.StreamingStop 0 "" c₂ m₂]) := by
  have e := StartStreaming_fresh d service vservice out hrun true true hH hV
  have hq' : ¬ out.1.houtputPtr = q := fun h => hq h.symm
  rw [e] at hq' ⊢
  simp [DualOutputHandler.StreamingStart, DualOutputHandler.StreamingStop,
    DualOutputHandler.typeOf, DualOutputHandler.houtputPtr, freshTable, PerType.get,
    PerType.set] at hq' ⊢
  simp [hq']

/-- Witness for C7: the horizontal surface starts, the vertical surface fails
with `(4, "net-err")`, the horizontal surface later stops with `(7, "bye")`. -/
theorem C7_failure_arrives_second_witness :
    (sampleObject staleTable true true).StartStreaming (some 10) (some 20) = some sampleBoth ∧
      ((sampleBoth.1.StreamingStart (some 1)).1.StreamingStop (some 2) 4 "net-err").2 =
        [Notification.SysTrayNotify, Notification.StreamingStart] ∧
      (((sampleBoth.1.StreamingStart (some 1)).1.StreamingStop (some 2) 4
        "net-err").1.StreamingStop (some 1) 7 "bye").2 =
        [Notification.StreamingStop 7 "bye" 0 ""] :=
  have h := (C7_failure_arrives_second (sampleObject staleTable true true) (some 10) (some 20)
    sampleBoth rfl rfl rfl (some 2) (by decide) 4 7 "net-err" "bye").1
  ⟨rfl, h.2.1, h.2.2.2.2⟩

/-- C8, as stated, fails: in a cycle with both surfaces requested, after both
surfaces reported stopped before any started report, a started callback that
follows still emits `StreamingStart` (with the tray warning). -/
theorem C8_counterexample :
    (sampleObject staleTable true true).StartStreaming (some 10) (some 20) = some sampleBoth ∧
      (deliverAll sampleBoth.1 [Callback.StreamingStop (some 1) 4 "net-err",
        Callback.StreamingStop (some 2) 5 "auth-err", Callback.StreamingStart (some 1)]).2 =
      [Notification.StreamingStop 4 "net-err" 5 "auth-err", Notification.SysTrayNotify,
        Notification.StreamingStart] :=
  ⟨rfl, by decide⟩

/-- C8, amended: in a cycle where both surfaces were requested and both report
stopped before either reports started (in either order), the first stopped
callback sends nothing, the second emits exactly `StreamingStop` carrying both
reported codes and messages unchanged, and no `StreamingStart` is emitted by
any callbacks that follow as long as none of them is a started callback. -/
theorem C8_both_fail_no_start (d : DualOutputHandler) (service vservice : Ptr)
    (out : DualOutputHandler × List HandlerCall × Bool)
    (hrun : d.StartStreaming service vservice = some out)
    (hH : out.1.startStreaming.get Horizontal = true)
    (hV : out.1.startStreaming.get Vertical = true)
    (q : Ptr) (hq : q ≠ out.1.houtputPtr) (c₁ c₂ : Int) (m₁ m₂ : String)
    (cs : List Callback) (hcs : ∀ x ∈ cs, x.isStarted = false) :
    ((out.1.StreamingStop out.1.houtputPtr c₁ m₁).2 = [] ∧
      ((out.1.StreamingStop out.1.houtputPtr c₁ m₁).1.StreamingStop q c₂ m₂).2 =
        [Notification.StreamingStop c₁ m₁ c₂ m₂] ∧
      (deliverAll ((out.1.StreamingStop out.1.houtputPtr c₁ m₁).1.StreamingStop q c₂ m₂).1
        cs).2.count Notification.StreamingStart = 0) ∧
    ((out.1.StreamingStop q c₂ m₂).2 = [] ∧
      ((out.1.StreamingStop q c₂ m₂).1.StreamingStop out.1.houtputPtr c₁ m₁).2 =
        [Notification.StreamingStop c₁ m₁ c₂ m₂] ∧
      (deliverAll ((out.1.StreamingStop q c₂ m₂).1.StreamingStop out.1.houtputPtr c₁ m₁).1
        cs).2.count Notification.StreamingStart = 0) := by
  have e := StartStreaming_fresh d service vservice out hrun true true hH hV
  have hq' : ¬ out.1.houtputPtr = q := fun h => hq h.symm
  have hs : out.1.streamingStart = ⟨false, false⟩ := by rw [e]; rfl
  have k : ∀ (a b : Callback), a.isStarted = false → b.isStarted = false →
      (deliverAll (deliver (deliver out.1 a).1 b).1 cs).2.count Notification.StreamingStart
        = 0 := by
    intro a b ha hb
    have h1 := deliver_not_started out.1 a ha hs
    have h2 := deliver_not_started (deliver out.1 a).1 b hb h1.2.1
    exact (deliverAll_not_started _ cs hcs h2.2.1).1
  refine ⟨⟨?_, ?_, k (Callback.StreamingStop out.1.houtputPtr c₁ m₁)
      (Callback.StreamingStop q c₂ m₂) rfl rfl⟩,
    ⟨?_, ?_, k (Callback.StreamingStop q c₂ m₂)
      (Callback.StreamingStop out.1.houtputPtr c₁ m₁) rfl rfl⟩⟩ <;>
  · rw [e] at hq' ⊢
    simp [DualOutputHandler.StreamingStop, DualOutputHandler.typeOf,
      DualOutputHandler.houtputPtr, freshTable, PerType.get, PerType.set] at hq' ⊢
    try simp [hq']

/-- Witness for the amended C8: both surfaces fail, then a stop-in-progress and
a delay-stopping callback follow. -/
theorem C8_both_fail_no_start_witness :
    (sampleObject staleTable true true).StartStreaming (some 10) (some 20) = some sampleBoth ∧
      ((sampleBoth.1.StreamingStop (some 1) 4 "net-err").1.StreamingStop (some 2) 5
        "auth-err").2 = [Notification.StreamingStop 4 "net-err" 5 "auth-err"] ∧
      (deliverAll ((sampleBoth.1.StreamingStop (some 1) 4 "net-err").1.StreamingStop (some 2) 5
        "auth-err").1 [Callback.StreamStopping (some 1),
          Callback.StreamDelayStopping (some 2) 3]).2.count Notification.StreamingStart = 0 :=
  have h := (C8_both_fail_no_start (sampleObject staleTable true true) (some 10) (some 20)
    sampleBoth rfl rfl rfl (some 2) (by decide) 4 5 "net-err" "auth-err"
    [Callback.StreamStopping (some 1), Callback.StreamDelayStopping (some 2) 3]
    (by decide)).1
  ⟨rfl, h.2.1, h.2.2⟩

/-- C9, as stated, fails: in a cycle where only the horizontal surface was
requested, once the started flag of the vertical surface is set, a stopped
callback from the horizontal handler already emits `StreamingStart`, and the
first started callback of the horizontal handler then emits nothing. -/
theorem C9_counterexample :
    (sampleObject staleTable true true).StartStreaming (some 10) none = some sampleOnlyH ∧
      (deliverAll sampleOnlyH.1 [Callback.StreamingStart (some 2),
        Callback.StreamingStop (some 1) 4 "net-err"]).2 =
        [Notification.SysTrayNotify, Notification.StreamingStart,
          Notification.StreamingStop 0 "" 0 ""] ∧
      (deliverAll sampleOnlyH.1 [Callback.StreamingStart (some 2),
        Callback.StreamingStop (some 1) 4 "net-err"]).1.startStreaming = ⟨true, false⟩ ∧
      (deliverAll sampleOnlyH.1 [Callback.StreamingStart (some 2),
        Callback.StreamingStop (some 1) 4 "net-err"]).1.streamingStart.get Horizontal = false ∧
      ((deliverAll sampleOnlyH.1 [Callback.StreamingStart (some 2),
        Callback.StreamingStop (some 1) 4 "net-err"]).1.StreamingStart (some 1)).2 = [] :=
  ⟨rfl, by decide, by decide, by decide, by decide⟩

/-- C9, amended: when only the horizontal surface was requested, then for every
value of the other fields of the state table, each delay-starting,
delay-stopping, stop-in-progress and stopped callback of the horizontal handler
emits its aggregate notification in that same callback (the vertical slots of
the payload are the stored vertical values; a stopped callback that also
reports the aggregate start carries 0 and the empty message in the horizontal
slot), and a started callback of the horizontal handler emits `StreamingStart`
exactly when `streamingStartInvoked` is still false. That is the case at the
first started callback of the cycle: when no started flag is set and
`streamingStartInvoked` is false, after any callbacks other than started ones
the started callback of the horizontal handler emits `StreamingStart`. -/
theorem C9_only_primary_requested (d : DualOutputHandler)
    (hH : d.startStreaming.get Horizontal = true)
    (hV : d.startStreaming.get Vertical = false) :
    (∀ sec, (d.StreamDelayStarting d.houtputPtr sec).2 =
      [Notification.StreamDelayStarting sec (d.streamDelayStartingSec.get Vertical)]) ∧
    (∀ sec, (d.StreamDelayStopping d.houtputPtr sec).2 =
      [Notification.StreamDelayStopping sec (d.streamDelayStoppingSec.get Vertical)]) ∧
    (d.StreamStopping d.houtputPtr).2 = [Notification.StreamStopping] ∧
    (∀ c m, (d.StreamingStop d.houtputPtr c m).2 =
      if d.streamingStartInvoked = false ∧
          (d.streamingStart.get Horizontal = true ∨ d.streamingStart.get Vertical = true) then
        [Notification.SysTrayNotify, Notification.StreamingStart,
          Notification.StreamingStop 0 "" (d.streamingStopErrorCode.get Vertical)
            (d.streamingStopLastError.get Vertical)]
      else
        [Notification.StreamingStop c m (d.streamingStopErrorCode.get Vertical)
          (d.streamingStopLastError.get Vertical)]) ∧
    (Notification.StreamingStart ∈ (d.StreamingStart d.houtputPtr).2 ↔
      d.streamingStartInvoked = false) ∧
    (∀ cs : List Callback, (∀ x ∈ cs, x.isStarted = false) →
      d.streamingStart = ⟨false, false⟩ → d.streamingStartInvoked = false →
      Notification.StreamingStart ∈ ((deliverAll d cs).1.StreamingStart d.houtputPtr).2) := by
  refine ⟨?_, ?_, ?_, ?_, StreamingStart_primary_emits d hH hV, ?_⟩
  · intro sec
    simp only [DualOutputHandler.StreamDelayStarting, DualOutputHandler.typeOf, PerType.get,
      PerType.set] at hH hV ⊢
    simp [hH, hV]
  · intro sec
    simp only [DualOutputHandler.StreamDelayStopping, DualOutputHandler.typeOf, PerType.get,
      PerType.set] at hH hV ⊢
    simp [hH, hV]
  · simp only [DualOutputHandler.StreamStopping, DualOutputHandler.typeOf, PerType.get,
      PerType.set] at hH hV ⊢
    simp [hH, hV]
  · intro c m
    simp only [DualOutputHandler.StreamingStop, DualOutputHandler.typeOf, PerType.get,
      PerType.set] at hH hV ⊢
    simp only [if_true, hH, hV]
    cases d.streamingStartInvoked <;> cases d.streamingStart.horizontal <;>
      cases d.streamingStart.vertical <;> simp [hV]
  · intro cs hcs hs hi
    have h := deliverAll_not_started d cs hcs hs
    have e := StreamingStart_primary_emits (deliverAll d cs).1
      (by rw [h.2.2.2]; exact hH) (by rw [h.2.2.2]; exact hV)
    rw [deliverAll_houtputPtr] at e
    exact e.2 (h.2.2.1.trans hi)

/-- Witness for the amended C9: the beginning of a cycle in which only the
horizontal surface was requested. -/
theorem C9_only_primary_requested_witness :
    sampleOnlyH.1.startStreaming.get Horizontal = true ∧
      sampleOnlyH.1.startStreaming.get Vertical = false ∧
      (sampleOnlyH.1.StreamDelayStarting (some 1) 5).2 =
        [Notification.StreamDelayStarting 5 0] ∧
      (sampleOnlyH.1.StreamingStop (some 1) 4 "net-err").2 =
        [Notification.StreamingStop 4 "net-err" 0 ""] ∧
      Notification.StreamingStart ∈ (sampleOnlyH.1.StreamingStart (some 1)).2 :=
  have h := C9_only_primary_requested sampleOnlyH.1 rfl rfl
  ⟨rfl, rfl, h.1 5, h.2.2.2.1 4 "net-err", h.2.2.2.2.1.2 rfl⟩

/-- C10, as stated, fails: in a cycle where only the horizontal surface was
requested and the horizontal handler has reported delay-starting, a
delay-starting callback from the vertical handler, which was never asked to
start, emits `StreamDelayStarting`. -/
theorem C10_counterexample :
    (sampleObject staleTable true true).StartStreaming (some 10) none = some sampleOnlyH ∧
      (sampleOnlyH.1.StreamDelayStarting (some 1) 5).1.startStreaming.get
        ((sampleOnlyH.1.StreamDelayStarting (some 1) 5).1.typeOf (some 2)) = false ∧
      ((sampleOnlyH.1.StreamDelayStarting (some 1) 5).1.StreamDelayStarting (some 2) 7).2 =
        [Notification.StreamDelayStarting 5 7] :=
  ⟨rfl, by decide, by decide⟩

/-- C10, amended: a callback from a surface that was never asked to start
(`startStreaming` false for the surface the handler argument is attributed to)
sends something to the consumer exactly when the other surface `o` is settled
for the event class: for delay-starting, delay-stopping and stop-in-progress,
when `o` was not requested or has its flag of that class set; for started,
when `streamingStartInvoked` is false and `o` was not requested or has its
started or stopped flag set; for stopped, when `o` was not requested or has
its stopped flag set (the aggregate stop), or `streamingStartInvoked` is false
and `o` has its started flag set (the late aggregate start). When `o` was
requested and has none of these flags set the callback sends nothing. -/
theorem C10_unrequested_surface (d : DualOutputHandler) (handler : Ptr)
    (hreq : d.startStreaming.get (d.typeOf handler) = false)
    (o : StreamingType) (ho : o = otherType (d.typeOf handler)) :
    (∀ sec, (d.StreamDelayStarting handler sec).2 ≠ [] ↔
      (d.startStreaming.get o = false ∨ d.streamDelayStarting.get o = true)) ∧
    (∀ sec, (d.StreamDelayStopping handler sec).2 ≠ [] ↔
      (d.startStreaming.get o = false ∨ d.streamDelayStopping.get o = true)) ∧
    ((d.StreamStopping handler).2 ≠ [] ↔
      (d.startStreaming.get o = false ∨ d.streamStopping.get o = true)) ∧
    ((d.StreamingStart handler).2 ≠ [] ↔
      (d.streamingStartInvoked = false ∧
        (d.startStreaming.get o = false ∨ d.streamingStart.get o = true ∨
          d.streamingStop.get o = true))) ∧
    (∀ c m, (d.StreamingStop handler c m).2 ≠ [] ↔
      (d.startStreaming.get o = false ∨ d.streamingStop.get o = true ∨
        (d.streamingStartInvoked = false ∧ d.streamingStart.get o = true))) := by
  subst ho
  obtain ⟨⟨⟨rh, rv⟩, ⟨dsh, dsv⟩, ⟨dph, dpv⟩, inv, ⟨sth, stv⟩, ⟨sph, spv⟩, ⟨soh, sov⟩,
    ss, ps, ⟨ch, cv⟩, ⟨mh, mv⟩⟩, ho, vo, mn⟩ := d
  by_cases hp : Option.map BasicOutputHandler.addr ho = handler
  · simp only [DualOutputHandler.typeOf, DualOutputHandler.houtputPtr, hp, if_true,
      PerType.get, otherType] at hreq ⊢
    subst hreq
    simp only [DualOutputHandler.StreamDelayStarting, DualOutputHandler.StreamDelayStopping,
      DualOutputHandler.StreamStopping, DualOutputHandler.StreamingStart,
      DualOutputHandler.StreamingStop, DualOutputHandler.typeOf,
      DualOutputHandler.houtputPtr, hp, if_true, PerType.get, PerType.set]
    refine ⟨?_, ?_, ?_, ?_, ?_⟩
    · cases rv <;> cases dsv <;> simp
    · cases rv <;> cases dpv <;> simp
    · cases rv <;> cases spv <;> simp
    · cases rv <;> cases stv <;> cases sov <;> cases inv <;> cases soh <;> simp
    · cases rv <;> cases stv <;> cases sov <;> cases inv <;> cases sth <;> simp
  · simp only [DualOutputHandler.typeOf, DualOutputHandler.houtputPtr, hp, if_false,
      PerType.get, otherType] at hreq ⊢
    subst hreq
    simp only [DualOutputHandler.StreamDelayStarting, DualOutputHandler.StreamDelayStopping,
      DualOutputHandler.StreamStopping, DualOutputHandler.StreamingStart,
      DualOutputHandler.StreamingStop, DualOutputHandler.typeOf,
      DualOutputHandler.houtputPtr, hp, if_false, PerType.get, PerType.set]
    refine ⟨?_, ?_, ?_, ?_, ?_⟩
    · cases rh <;> cases dsh <;> simp
    · cases rh <;> cases dph <;> simp
    · cases rh <;> cases sph <;> simp
    · cases rh <;> cases sth <;> cases soh <;> cases inv <;> cases sov <;> simp
    · cases rh <;> cases sth <;> cases soh <;> cases inv <;> cases stv <;> simp

/-- Witness for the amended C10: only the horizontal surface was requested and
it has reported nothing yet; a delay-starting callback from the vertical
handler is attributed to the unrequested vertical surface and sends nothing. -/
theorem C10_unrequested_surface_witness :
    sampleOnlyH.1.startStreaming.get (sampleOnlyH.1.typeOf (some 2)) = false ∧
      ((sampleOnlyH.1.StreamDelayStarting (some 2) 7).2 ≠ [] ↔
        (sampleOnlyH.1.startStreaming.get Horizontal = false ∨
          sampleOnlyH.1.streamDelayStarting.get Horizontal = true)) ∧
      (sampleOnlyH.1.StreamDelayStarting (some 2) 7).2 = [] :=
  ⟨rfl, (C10_unrequested_surface sampleOnlyH.1 (some 2) rfl Horizontal rfl).1 7, rfl⟩

/-- C11: for each of the event classes delay-starting, delay-stopping,
stop-in-progress and stopped, the callback sets the flag of the reporting
surface (and stores its seconds, or its code and message), leaves
`startStreaming` as it is, and then emits the aggregate notification of the
class, carrying the stored values of both surfaces, if and only if every
surface is settled for the class, a surface being settled when its
`startStreaming` is false or its flag for the class is true. For stopped, the
aggregate stop may be preceded, in the same callback, by the tray warning and
the late `StreamingStart`, in which case the code and message just stored for
the reporting surface have been reset to 0 and the empty message. -/
theorem C11_gating_predicate (d : DualOutputHandler) (handler : Ptr) :
    (∀ sec,
      (d.StreamDelayStarting handler sec).1.streamDelayStarting =
        d.streamDelayStarting.set (d.typeOf handler) true ∧
      (d.StreamDelayStarting handler sec).1.streamDelayStartingSec =
        d.streamDelayStartingSec.set (d.typeOf handler) sec ∧
      (d.StreamDelayStarting handler sec).1.startStreaming = d.startStreaming ∧
      (d.StreamDelayStarting handler sec).2 =
        if everySurfaceSettled (d.StreamDelayStarting handler sec).1.startStreaming
            (d.StreamDelayStarting handler sec).1.streamDelayStarting then
          [Notification.StreamDelayStarting
            ((d.StreamDelayStarting handler sec).1.streamDelayStartingSec.get Horizontal)
            ((d.StreamDelayStarting handler sec).1.streamDelayStartingSec.get Vertical)]
        else []) ∧
    (∀ sec,
      (d.StreamDelayStopping handler sec).1.streamDelayStopping =
        d.streamDelayStopping.set (d.typeOf handler) true ∧
      (d.StreamDelayStopping handler sec).1.streamDelayStoppingSec =
        d.streamDelayStoppingSec.set (d.typeOf handler) sec ∧
      (d.StreamDelayStopping handler sec).1.startStreaming = d.startStreaming ∧
      (d.StreamDelayStopping handler sec).2 =
        if everySurfaceSettled (d.StreamDelayStopping handler sec).1.startStreaming
            (d.StreamDelayStopping handler sec).1.streamDelayStopping then
          [Notification.StreamDelayStopping
            ((d.StreamDelayStopping handler sec).1.streamDelayStoppingSec.get Horizontal)
            ((d.StreamDelayStopping handler sec).1.streamDelayStoppingSec.get Vertical)]
        else []) ∧
    ((d.StreamStopping handler).1.streamStopping =
        d.streamStopping.set (d.typeOf handler) true ∧
      (d.StreamStopping handler).1.startStreaming = d.startStreaming ∧
      (d.StreamStopping handler).2 =
        if everySurfaceSettled (d.StreamStopping handler).1.startStreaming
            (d.StreamStopping handler).1.streamStopping then
          [Notification.StreamStopping]
        else []) ∧
    (∀ c m,
      (d.StreamingStop handler c m).1.streamingStop =
        d.streamingStop.set (d.typeOf handler) true ∧
      (d.StreamingStop handler c m).1.startStreaming = d.startStreaming ∧
      (Notification.StreamingStart ∉ (d.StreamingStop handler c m).2 →
        (d.StreamingStop handler c m).1.streamingStopErrorCode =
          d.streamingStopErrorCode.set (d.typeOf handler) c ∧
        (d.StreamingStop handler c m).1.streamingStopLastError =
          d.streamingStopLastError.set (d.typeOf handler) m) ∧
      (Notification.StreamingStart ∈ (d.StreamingStop handler c m).2 →
        (d.StreamingStop handler c m).1.streamingStopErrorCode =
          d.streamingStopErrorCode.set (d.typeOf handler) 0 ∧
        (d.StreamingStop handler c m).1.streamingStopLastError =
          d.streamingStopLastError.set (d.typeOf handler) "") ∧
      ∃ pre, (pre = [] ∨ pre = [Notification.SysTrayNotify, Notification.StreamingStart]) ∧
        (d.StreamingStop handler c m).2 = pre ++
          if everySurfaceSettled (d.StreamingStop handler c m).1.startStreaming
              (d.StreamingStop handler c m).1.streamingStop then
            [Notification.StreamingStop
              ((d.StreamingStop handler c m).1.streamingStopErrorCode.get Horizontal)
              ((d.StreamingStop handler c m).1.streamingStopLastError.get Horizontal)
              ((d.StreamingStop handler c m).1.streamingStopErrorCode.get Vertical)
              ((d.StreamingStop handler c m).1.streamingStopLastError.get Vertical)]
          else []) :=
  ⟨fun sec => StreamDelayStarting_gate d handler sec,
    fun sec => StreamDelayStopping_gate d handler sec,
    StreamStopping_gate d handler,
    fun c m => StreamingStop_gate d handler c m⟩

/-- An instance of C11: with both surfaces requested, the first delay-starting
callback emits nothing and the second emits the aggregate with both seconds. -/
theorem C11_gating_predicate_witness :
    (sampleBoth.1.StreamDelayStarting (some 1) 5).2 = [] ∧
      ((sampleBoth.1.StreamDelayStarting (some 1) 5).1.StreamDelayStarting (some 2) 7).2 =
        [Notification.StreamDelayStarting 5 7] :=
  ⟨((C11_gating_predicate sampleBoth.1 (some 1)).1 5).2.2.2,
    ((C11_gating_predicate (sampleBoth.1.StreamDelayStarting (some 1) 5).1 (some 2)).1
      7).2.2.2⟩

/-- C12, as stated, fails: in a cycle with both surfaces requested, after both
handlers reported delay-starting the aggregate `StreamDelayStarting` has been
emitted once, and a further delay-starting callback emits it again; the three
callbacks together emit it twice. -/
theorem C12_counterexample :
    (sampleObject staleTable true true).StartStreaming (some 10) (some 20) = some sampleBoth ∧
      (deliverAll sampleBoth.1 [Callback.StreamDelayStarting (some 1) 5,
        Callback.StreamDelayStarting (some 2) 7]).2 = [Notification.StreamDelayStarting 5 7] ∧
      (deliver (deliverAll sampleBoth.1 [Callback.StreamDelayStarting (some 1) 5,
        Callback.StreamDelayStarting (some 2) 7]).1 (Callback.StreamDelayStarting (some 1) 6)).2 =
        [Notification.StreamDelayStarting 6 7] ∧
      emitted EventClass.DelayStarting
        (deliverAll sampleBoth.1 [Callback.StreamDelayStarting (some 1) 5,
          Callback.StreamDelayStarting (some 2) 7,
          Callback.StreamDelayStarting (some 1) 6]).2 = 2 :=
  ⟨rfl, by decide, by decide, by decide⟩

/-- C12, amended: within one cycle, for every sequence of per-surface callbacks
and each of the four event classes, a callback emits the aggregate
notification of the class exactly when it is a callback of that class and both
surfaces are settled for the class after it, and then emits it once; nothing
of the class is emitted while the surfaces are not both settled; once both are
settled every later callback of the class emits the notification again (the
four classes have no once-only guard); so the notification is emitted exactly
once, by the first callback after which both surfaces are settled, when no
callback of that class follows it. -/
theorem C12_aggregate_emission (d : DualOutputHandler) (service vservice : Ptr)
    (out : DualOutputHandler × List HandlerCall × Bool)
    (_hrun : d.StartStreaming service vservice = some out)
    (k : EventClass) (pre post : List Callback) (c : Callback) :
    (emitted k (deliver (deliverAll out.1 pre).1 c).2 =
      if c.eventClass = some k ∧
          allSettled k (deliver (deliverAll out.1 pre).1 c).1.toStateTable = true then 1
      else 0) ∧
    (allSettled k (deliverAll out.1 pre).1.toStateTable = false →
      emitted k (deliverAll out.1 pre).2 = 0) ∧
    (allSettled k (deliverAll out.1 pre).1.toStateTable = true → c.eventClass = some k →
      emitted k (deliver (deliverAll out.1 pre).1 c).2 = 1) ∧
    (c.eventClass = some k →
      allSettled k (deliverAll out.1 pre).1.toStateTable = false →
      allSettled k (deliver (deliverAll out.1 pre).1 c).1.toStateTable = true →
      (∀ x ∈ post, x.eventClass ≠ some k) →
      emitted k (deliverAll out.1 (pre ++ c :: post)).2 = 1) := by
  refine ⟨deliver_emitted _ c k, deliverAll_emitted_before _ pre k, ?_, ?_⟩
  · intro hs hc
    rw [deliver_emitted]
    simp [hc, deliver_allSettled _ c k hs]
  · intro hc hb ha hp
    rw [deliverAll_append]
    simp only [deliverAll]
    rw [emitted_append, emitted_append, deliverAll_emitted_before _ pre k hb,
      deliverAll_emitted_other _ post k hp, deliver_emitted]
    simp [hc, ha]

/-- Witness for the amended C12: the vertical delay-starting callback settles
both surfaces and no delay-starting callback follows it. -/
theorem C12_aggregate_emission_witness :
    (sampleObject staleTable true true).StartStreaming (some 10) (some 20) = some sampleBoth ∧
      emitted EventClass.DelayStarting
        (deliverAll sampleBoth.1 ([Callback.StreamDelayStarting (some 1) 5] ++
          Callback.StreamDelayStarting (some 2) 7 ::
            [Callback.StreamingStart (some 1), Callback.StreamStopping (some 2)])).2 = 1 :=
  ⟨rfl, (C12_aggregate_emission (sampleObject staleTable true true) (some 10) (some 20)
    sampleBoth rfl EventClass.DelayStarting [Callback.StreamDelayStarting (some 1) 5]
    [Callback.StreamingStart (some 1), Callback.StreamStopping (some 2)]
    (Callback.StreamDelayStarting (some 2) 7)).2.2.2 rfl (by decide) (by decide)
    (by decide)⟩

/-- C13, as stated, fails: from the beginning of a cycle with both surfaces
accepted, two interleavings of the same horizontal sequence (started, then
stopped with `(1, "a")`) and the same vertical sequence (started, then stopped
with `(2, "b")`) emit different notifications: one emits `StreamingStart` and
`StreamingStop 1 "a" 2 "b"`, the other the tray warning, `StreamingStart` and
`StreamingStop 0 "" 2 "b"`; the stored error codes differ as well. -/
theorem C13_counterexample :
    (sampleObject staleTable true true).StartStreaming (some 10) (some 20) = some sampleBoth ∧
      [Callback.StreamingStart (some 1), Callback.StreamingStart (some 2),
        Callback.StreamingStop (some 1) 1 "a", Callback.StreamingStop (some 2) 2 "b"].filter
          (fun c => decide (sampleBoth.1.houtputPtr = c.handler)) =
        [Callback.StreamingStart (some 1), Callback.StreamingStop (some 1) 1 "a",
          Callback.StreamingStart (some 2), Callback.StreamingStop (some 2) 2 "b"].filter
          (fun c => decide (sampleBoth.1.houtputPtr = c.handler)) ∧
      [Callback.StreamingStart (some 1), Callback.StreamingStart (some 2),
        Callback.StreamingStop (some 1) 1 "a", Callback.StreamingStop (some 2) 2 "b"].filter
          (fun c => !decide (sampleBoth.1.houtputPtr = c.handler)) =
        [Callback.StreamingStart (some 1), Callback.StreamingStop (some 1) 1 "a",
          Callback.StreamingStart (some 2), Callback.StreamingStop (some 2) 2 "b"].filter
          (fun c => !decide (sampleBoth.1.houtputPtr = c.handler)) ∧
      (deliverAll sampleBoth.1 [Callback.StreamingStart (some 1),
        Callback.StreamingStart (some 2), Callback.StreamingStop (some 1) 1 "a",
        Callback.StreamingStop (some 2) 2 "b"]).2 =
        [Notification.StreamingStart, Notification.StreamingStop 1 "a" 2 "b"] ∧
      (deliverAll sampleBoth.1 [Callback.StreamingStart (some 1),
        Callback.StreamingStop (some 1) 1 "a", Callback.StreamingStart (some 2),
        Callback.StreamingStop (some 2) 2 "b"]).2 =
        [Notification.SysTrayNotify, Notification.StreamingStart,
          Notification.StreamingStop 0 "" 2 "b"] ∧
      (deliverAll sampleBoth.1 [Callback.StreamingStart (some 1),
        Callback.StreamingStart (some 2), Callback.StreamingStop (some 1) 1 "a",
        Callback.StreamingStop (some 2) 2 "b"]).1.streamingStopErrorCode = ⟨1, 2⟩ ∧
      (deliverAll sampleBoth.1 [Callback.StreamingStart (some 1),
        Callback.StreamingStop (some 1) 1 "a", Callback.StreamingStart (some 2),
        Callback.StreamingStop (some 2) 2 "b"]).1.streamingStopErrorCode = ⟨0, 2⟩ :=
  ⟨rfl, by decide, by decide, by decide, by decide, by decide, by decide⟩

/-- C13, amended: from the state just after a `StartStreaming`, any two
interleavings of the same sequence of callbacks attributed to the horizontal
surface and the same sequence attributed to the vertical surface end with the
same state table up to the stored stop error codes and messages (same flags,
same delay seconds, same `streamingStartInvoked`), emit `StreamingStart` the
same number of times, and for each of the four gated classes emit the
aggregate notification under one interleaving exactly when they emit it under
the other. -/
theorem C13_interleavings (d : DualOutputHandler) (service vservice : Ptr)
    (out : DualOutputHandler × List HandlerCall × Bool)
    (hrun : d.StartStreaming service vservice = some out)
    (cs₁ cs₂ : List Callback)
    (hp : cs₁.filter (fun c => decide (out.1.houtputPtr = c.handler)) =
      cs₂.filter (fun c => decide (out.1.houtputPtr = c.handler)))
    (hs : cs₁.filter (fun c => !decide (out.1.houtputPtr = c.handler)) =
      cs₂.filter (fun c => !decide (out.1.houtputPtr = c.handler))) :
    withoutErrors (deliverAll out.1 cs₁).1.toStateTable =
        withoutErrors (deliverAll out.1 cs₂).1.toStateTable ∧
      (deliverAll out.1 cs₁).2.count Notification.StreamingStart =
        (deliverAll out.1 cs₂).2.count Notification.StreamingStart ∧
      ∀ k : EventClass, (0 < emitted k (deliverAll out.1 cs₁).2 ↔
        0 < emitted k (deliverAll out.1 cs₂).2) := by
  have hi : out.1.streamingStartInvoked = startSettled out.1.toStateTable := by
    rw [(StartStreaming_eq d service vservice out hrun).1]
    simp [freshTable, startSettled, PerType.get]
  have e₁ := deliverAll_slots out.1 cs₁
  have e₂ := deliverAll_slots out.1 cs₂
  have i₁ := deliverAll_startSettled out.1 cs₁ hi
  have i₂ := deliverAll_startSettled out.1 cs₂ hi
  have hw := withoutErrors_eq (deliverAll out.1 cs₁).1.toStateTable
    (deliverAll out.1 cs₂).1.toStateTable
    ((deliverAll_startStreaming out.1 cs₁).trans (deliverAll_startStreaming out.1 cs₂).symm)
    (by rw [e₁.1, e₂.1, hp]) (by rw [e₁.2, e₂.2, hs]) i₁ i₂
  refine ⟨hw, ?_, ?_⟩
  · have c₁ := deliverAll_start_count out.1 cs₁
    have c₂ := deliverAll_start_count out.1 cs₂
    have hb : startBudget (deliverAll out.1 cs₁).1 = startBudget (deliverAll out.1 cs₂).1 := by
      have := congrArg StateTable.streamingStartInvoked hw
      simp only [withoutErrors] at this
      simp only [startBudget, this]
    omega
  · intro k
    have hk : allSettled k (deliverAll out.1 cs₁).1.toStateTable =
        allSettled k (deliverAll out.1 cs₂).1.toStateTable := by
      rw [← allSettled_withoutErrors k (deliverAll out.1 cs₁).1.toStateTable, hw,
        allSettled_withoutErrors]
    rw [deliverAll_emitted_pos, deliverAll_emitted_pos, hk]
    constructor
    · rintro ⟨h, x, hx, hxk⟩
      exact ⟨h, x, mem_of_filters _ cs₁ cs₂ hp hs x hx, hxk⟩
    · rintro ⟨h, x, hx, hxk⟩
      exact ⟨h, x, mem_of_filters _ cs₂ cs₁ hp.symm hs.symm x hx, hxk⟩

/-- Witness for the amended C13: the two interleavings of the counterexample. -/
theorem C13_interleavings_witness :
    (sampleObject staleTable true true).StartStreaming (some 10) (some 20) = some sampleBoth ∧
      withoutErrors (deliverAll sampleBoth.1 [Callback.StreamingStart (some 1),
        Callback.StreamingStart (some 2), Callback.StreamingStop (some 1) 1 "a",
        Callback.StreamingStop (some 2) 2 "b"]).1.toStateTable =
      withoutErrors (deliverAll sampleBoth.1 [Callback.StreamingStart (some 1),
        Callback.StreamingStop (some 1) 1 "a", Callback.StreamingStart (some 2),
        Callback.StreamingStop (some 2) 2 "b"]).1.toStateTable :=
  ⟨rfl, (C13_interleavings (sampleObject staleTable true true) (some 10) (some 20) sampleBoth
    rfl [Callback.StreamingStart (some 1), Callback.StreamingStart (some 2),
      Callback.StreamingStop (some 1) 1 "a", Callback.StreamingStop (some 2) 2 "b"]
    [Callback.StreamingStart (some 1), Callback.StreamingStop (some 1) 1 "a",
      Callback.StreamingStart (some 2), Callback.StreamingStop (some 2) 2 "b"]
    (by decide) (by decide)).1⟩

/-- C14: when `StopStreaming(force, streamType)` returns, it has called
`StopStreaming(force)` on the horizontal handler exactly when `streamType` is
`Horizontal` or `StreamingTypeMax`, and on the vertical handler exactly when
`streamType` is `Vertical` or `StreamingTypeMax` and dual output is on, with
`force` unchanged, the horizontal call first, and no other call. In
particular `StopStreaming(false, Vertical)` with dual output off returns
having made no call, whatever handlers exist. -/
theorem C14_stopStreaming (d : DualOutputHandler) (dualOutputOn force : Bool)
    (streamType : StreamingType) (out : DualOutputHandler × List HandlerCall)
    (hrun : d.StopStreaming dualOutputOn force streamType = some out) :
    (∀ f, HandlerCall.StopStreaming Horizontal f ∈ out.2 ↔
      (f = force ∧ (streamType = Horizontal ∨ streamType = StreamingTypeMax))) ∧
    (∀ f, HandlerCall.StopStreaming Vertical f ∈ out.2 ↔
      (f = force ∧ (streamType = Vertical ∨ streamType = StreamingTypeMax) ∧
        dualOutputOn = true)) ∧
    out.2 =
      (if streamType = Horizontal ∨ streamType = StreamingTypeMax then
        [HandlerCall.StopStreaming Horizontal force] else []) ++
      (if (streamType = Vertical ∨ streamType = StreamingTypeMax) ∧ dualOutputOn = true then
        [HandlerCall.StopStreaming Vertical force] else []) ∧
    d.StopStreaming false false Vertical = some (d, []) := by
  unfold DualOutputHandler.StopStreaming at hrun ⊢
  cases streamType <;> cases dualOutputOn <;> cases hh : d.houtput <;> cases hv : d.voutput <;>
    simp [hh, hv] at hrun ⊢ <;> subst hrun <;> simp

/-- Witness for C14: single-output mode, dual output off, target
`StreamingTypeMax`, forced stop. -/
theorem C14_stopStreaming_witness :
    (sampleSingle staleTable true).StopStreaming false true StreamingTypeMax =
        some (sampleSingle staleTable true, [HandlerCall.StopStreaming Horizontal true]) ∧
      (sampleSingle staleTable true).StopStreaming false false Vertical =
        some (sampleSingle staleTable true, []) :=
  ⟨rfl, (C14_stopStreaming (sampleSingle staleTable true) false true StreamingTypeMax
    (sampleSingle staleTable true, [HandlerCall.StopStreaming Horizontal true]) rfl).2.2.2⟩

/-- C15: `operator bool` is true exactly when the horizontal handler exists
and dual output is off or the vertical handler exists; `operator==(nullptr)`
is its negation in every state. -/
theorem C15_validity (d : DualOutputHandler) (dualOutputOn : Bool) :
    (d.operatorBool dualOutputOn = true ↔
      (d.houtput.isSome = true ∧ (dualOutputOn = false ∨ d.voutput.isSome = true))) ∧
    d.eqNullptr dualOutputOn = !d.operatorBool dualOutputOn := by
  unfold DualOutputHandler.eqNullptr DualOutputHandler.operatorBool
  cases dualOutputOn <;> cases d.houtput <;> cases d.voutput <;> simp

/-- C16: when the factories always return a handler, after
`reset(advOut, main)` the horizontal handler is present, the vertical handler
is present exactly when dual output is on at the call, `operator bool` is true
and `main` is recorded; the factory of the profile chosen by `advOut` is called
with the vertical flag false for the horizontal handler and, when dual output
is on, true for the vertical one, and the handlers are the ones it returned.
In particular `reset(main)` followed by `reset(advOut, main)` with dual output
on yields both handlers and a true `operator bool`. -/
theorem C16_reset_advOut (d : DualOutputHandler) (dualOutputOn : Bool)
    (factory : HandlerFactory) (advOut : Bool) (main : Ptr)
    (hf : ∀ m v, (factory.CreateAdvancedOutputHandler m v).isSome = true ∧
      (factory.CreateSimpleOutputHandler m v).isSome = true) :
    (d.resetAdvOut dualOutputOn factory advOut main).1.houtput.isSome = true ∧
    ((d.resetAdvOut dualOutputOn factory advOut main).1.voutput.isSome = true ↔
      dualOutputOn = true) ∧
    (d.resetAdvOut dualOutputOn factory advOut main).1.operatorBool dualOutputOn = true ∧
    (d.resetAdvOut dualOutputOn factory advOut main).1.main = main ∧
    (d.resetAdvOut dualOutputOn factory advOut main).2 =
      (if advOut then FactoryCall.CreateAdvancedOutputHandler main false
        else FactoryCall.CreateSimpleOutputHandler main false) ::
      (if dualOutputOn then
        [if advOut then FactoryCall.CreateAdvancedOutputHandler main true
          else FactoryCall.CreateSimpleOutputHandler main true]
        else []) ∧
    (d.resetAdvOut dualOutputOn factory advOut main).1.houtput =
      (if advOut then factory.CreateAdvancedOutputHandler main false
        else factory.CreateSimpleOutputHandler main false) ∧
    (dualOutputOn = true →
      (d.resetAdvOut dualOutputOn factory advOut main).1.voutput =
        (if advOut then factory.CreateAdvancedOutputHandler main true
          else factory.CreateSimpleOutputHandler main true)) ∧
    (((d.reset main).resetAdvOut true factory advOut main).1.houtput.isSome = true ∧
      ((d.reset main).resetAdvOut true factory advOut main).1.voutput.isSome = true ∧
      ((d.reset main).resetAdvOut true factory advOut main).1.operatorBool true = true) := by
  have a := fun v => (hf main v).1
  have s := fun v => (hf main v).2
  unfold DualOutputHandler.resetAdvOut DualOutputHandler.operatorBool DualOutputHandler.reset
  cases dualOutputOn <;> cases advOut <;> simp [a, s]

/-- Witness for C16: the advanced profile with dual output on. -/
theorem C16_reset_advOut_witness :
    ((sampleObject staleTable true true).resetAdvOut true sampleFactory true (some 9)).1.houtputPtr
        = some 3 ∧
      ((sampleObject staleTable true true).resetAdvOut true sampleFactory true
        (some 9)).1.voutputPtr = some 4 ∧
      ((sampleObject staleTable true true).resetAdvOut true sampleFactory true
        (some 9)).1.operatorBool true = true :=
  ⟨rfl, rfl, (C16_reset_advOut (sampleObject staleTable true true) true sampleFactory true
    (some 9) (fun _ _ => ⟨rfl, rfl⟩)).2.2.1⟩

/-- C17: after `reset(main_)` both handlers are absent and `main` is the given
pointer, so `operator bool` is false and `operator==(nullptr)` is true, with
dual output on or off. -/
theorem C17_reset (d : DualOutputHandler) (main_ : Ptr) (dualOutputOn : Bool) :
    (d.reset main_).houtput.isNone = true ∧ (d.reset main_).voutput.isNone = true ∧
      (d.reset main_).main = main_ ∧
      (d.reset main_).operatorBool dualOutputOn = false ∧
      (d.reset main_).eqNullptr dualOutputOn = true := by
  simp [DualOutputHandler.reset, DualOutputHandler.operatorBool, DualOutputHandler.eqNullptr]

/-- C18: when the horizontal handler exists, each of `StartRecording`,
`StartReplayBuffer`, `StartVirtualCam`, `StopRecording`, `StopReplayBuffer`,
`StopVirtualCam`, `RecordingActive`, `ReplayBufferActive`, `VirtualCamActive`,
`Update` and `UpdateVirtualCamOutputSource` makes exactly one handler call: the
operation of the same name on the horizontal handler, with the same `force`
where there is one; it returns the reply of that handler and never calls the
vertical handler. None of them reads the dual-output mode. -/
theorem C18_passthrough (d : DualOutputHandler) (h : BasicOutputHandler)
    (hh : d.houtput = some h) (force : Bool) :
    d.StartRecording =
      some (d, [HandlerCall.StartRecording Horizontal h.StartRecording], h.StartRecording) ∧
    d.StartReplayBuffer =
      some (d, [HandlerCall.StartReplayBuffer Horizontal h.StartReplayBuffer],
        h.StartReplayBuffer) ∧
    d.StartVirtualCam =
      some (d, [HandlerCall.StartVirtualCam Horizontal h.StartVirtualCam],
        h.StartVirtualCam) ∧
    d.StopRecording force = some (d, [HandlerCall.StopRecording Horizontal force]) ∧
    d.StopReplayBuffer force = some (d, [HandlerCall.StopReplayBuffer Horizontal force]) ∧
    d.StopVirtualCam = some (d, [HandlerCall.StopVirtualCam Horizontal]) ∧
    d.RecordingActive =
      some (d, [HandlerCall.RecordingActive Horizontal h.RecordingActive],
        h.RecordingActive) ∧
    d.ReplayBufferActive =
      some (d, [HandlerCall.ReplayBufferActive Horizontal h.ReplayBufferActive],
        h.ReplayBufferActive) ∧
    d.VirtualCamActive =
      some (d, [HandlerCall.VirtualCamActive Horizontal h.VirtualCamActive],
        h.VirtualCamActive) ∧
    d.Update = some (d, [HandlerCall.Update Horizontal]) ∧
    d.UpdateVirtualCamOutputSource =
      some (d, [HandlerCall.UpdateVirtualCamOutputSource Horizontal]) := by
  simp [DualOutputHandler.StartRecording, DualOutputHandler.StartReplayBuffer,
    DualOutputHandler.StartVirtualCam, DualOutputHandler.StopRecording,
    DualOutputHandler.StopReplayBuffer, DualOutputHandler.StopVirtualCam,
    DualOutputHandler.RecordingActive, DualOutputHandler.ReplayBufferActive,
    DualOutputHandler.VirtualCamActive, DualOutputHandler.Update,
    DualOutputHandler.UpdateVirtualCamOutputSource, hh]

/-- Witness for C18: a coordinator with both handlers. -/
theorem C18_passthrough_witness :
    (sampleObject staleTable true true).houtput = some (sampleHandler 1 true) ∧
      (sampleObject staleTable true true).StartRecording =
        some (sampleObject staleTable true true,
          [HandlerCall.StartRecording Horizontal true], true) ∧
      (sampleObject staleTable true true).StopRecording true =
        some (sampleObject staleTable true true, [HandlerCall.StopRecording Horizontal true]) :=
  have h := C18_passthrough (sampleObject staleTable true true) (sampleHandler 1 true) rfl true
  ⟨rfl, h.1, h.2.2.2.1⟩

/-- C19: each recording, replay-buffer and virtual-camera completion callback
sends the consumer exactly one notification, of the same name, carrying the
code, message or path it was given; the notification depends neither on the
handler argument nor on the state table. -/
theorem C19_completion_callbacks (d : DualOutputHandler) (handler : Ptr) (code : Int)
    (last_error lastRecordingPath : String) :
    (d.RecordingStart handler).2 = [Notification.RecordingStart] ∧
    (d.RecordStopping handler).2 = [Notification.RecordStopping] ∧
    (d.RecordingStop handler code last_error).2 = [Notification.RecordingStop code last_error] ∧
    (d.RecordingFileChanged handler lastRecordingPath).2 =
      [Notification.RecordingFileChanged lastRecordingPath] ∧
    (d.ReplayBufferStart handler).2 = [Notification.ReplayBufferStart] ∧
    (d.ReplayBufferSaved handler).2 = [Notification.ReplayBufferSaved] ∧
    (d.ReplayBufferStopping handler).2 = [Notification.ReplayBufferStopping] ∧
    (d.ReplayBufferStop handler code).2 = [Notification.ReplayBufferStop code] ∧
    (d.OnVirtualCamStart handler).2 = [Notification.OnVirtualCamStart] ∧
    (d.OnVirtualCamStop handler code).2 = [Notification.OnVirtualCamStop code] :=
  ⟨rfl, rfl, rfl, rfl, rfl, rfl, rfl, rfl, rfl, rfl⟩

/-- C20: the state table is left as it was by `StopStreaming`, by both
`reset` overloads, by every recording, replay-buffer and virtual-camera
command and completion callback, by `Update` and
`UpdateVirtualCamOutputSource`, and by every active query. -/
theorem C20_state_table_frame (d : DualOutputHandler) (dualOutputOn force advOut : Bool)
    (streamType : StreamingType) (factory : HandlerFactory) (main handler : Ptr) (code : Int)
    (last_error lastRecordingPath : String) :
    keepsTable d (d.StopStreaming dualOutputOn force streamType) ∧
    (d.reset main).toStateTable = d.toStateTable ∧
    (d.resetAdvOut dualOutputOn factory advOut main).1.toStateTable = d.toStateTable ∧
    (keepsTable d d.StartRecording ∧ keepsTable d d.StartReplayBuffer ∧
      keepsTable d d.StartVirtualCam ∧ keepsTable d (d.StopRecording force) ∧
      keepsTable d (d.StopReplayBuffer force) ∧ keepsTable d d.StopVirtualCam ∧
      keepsTable d d.Update ∧ keepsTable d d.UpdateVirtualCamOutputSource) ∧
    ((d.RecordingStart handler).1.toStateTable = d.toStateTable ∧
      (d.RecordStopping handler).1.toStateTable = d.toStateTable ∧
      (d.RecordingStop handler code last_error).1.toStateTable = d.toStateTable ∧
      (d.RecordingFileChanged handler lastRecordingPath).1.toStateTable = d.toStateTable ∧
      (d.ReplayBufferStart handler).1.toStateTable = d.toStateTable ∧
      (d.ReplayBufferSaved handler).1.toStateTable = d.toStateTable ∧
      (d.ReplayBufferStopping handler).1.toStateTable = d.toStateTable ∧
      (d.ReplayBufferStop handler code).1.toStateTable = d.toStateTable ∧
      (d.OnVirtualCamStart handler).1.toStateTable = d.toStateTable ∧
      (d.OnVirtualCamStop handler code).1.toStateTable = d.toStateTable) ∧
    (keepsTable d d.StreamingActive ∧ keepsTable d d.RecordingActive ∧
      keepsTable d d.ReplayBufferActive ∧ keepsTable d d.VirtualCamActive ∧
      keepsTable d d.Active ∧ keepsTable d d.streamingActive ∧
      keepsTable d (d.streamingActiveOf streamType) ∧ keepsTable d d.replayBufferActive ∧
      keepsTable d d.virtualCamActive) := by
  refine ⟨?_, rfl, ?_, ⟨?_, ?_, ?_, ?_, ?_, ?_, ?_, ?_⟩,
    ⟨rfl, rfl, rfl, rfl, rfl, rfl, rfl, rfl, rfl, rfl⟩, ⟨?_, ?_, ?_, ?_, ?_, ?_, ?_, ?_, ?_⟩⟩
  · intro out h
    unfold DualOutputHandler.StopStreaming at h
    cases streamType <;> cases dualOutputOn <;> cases hh : d.houtput <;>
      cases hv : d.voutput <;> simp [hh, hv] at h <;> subst h <;> rfl
  · unfold DualOutputHandler.resetAdvOut
    split_ifs <;> rfl
  all_goals
    intro out h
    simp only [DualOutputHandler.StartRecording, DualOutputHandler.StartReplayBuffer,
      DualOutputHandler.StartVirtualCam, DualOutputHandler.StopRecording,
      DualOutputHandler.StopReplayBuffer, DualOutputHandler.StopVirtualCam,
      DualOutputHandler.Update, DualOutputHandler.UpdateVirtualCamOutputSource,
      DualOutputHandler.StreamingActive, DualOutputHandler.RecordingActive,
      DualOutputHandler.ReplayBufferActive, DualOutputHandler.VirtualCamActive,
      DualOutputHandler.Active, DualOutputHandler.streamingActive,
      DualOutputHandler.streamingActiveOf, DualOutputHandler.replayBufferActive,
      DualOutputHandler.virtualCamActive] at h
    first
      | (cases hh : d.houtput <;> cases hv : d.voutput <;> simp [hh, hv] at h <;>
          first
            | (subst h; rfl)
            | (split_ifs at h <;> simp at h <;> subst h <;> rfl))
      | (cases streamType <;> cases hh : d.houtput <;> cases hv : d.voutput <;>
          simp [hh, hv] at h <;> subst h <;> rfl)

/-- An instance of C20: stopping both handlers leaves a table with every flag
set untouched. -/
theorem C20_state_table_frame_witness :
    (sampleObject staleTable true true).StopStreaming true true StreamingTypeMax =
        some (sampleObject staleTable true true,
          [HandlerCall.StopStreaming Horizontal true,
           HandlerCall.StopStreaming Vertical true]) ∧
      (sampleObject staleTable true true).toStateTable = staleTable :=
  ⟨rfl, (C20_state_table_frame (sampleObject staleTable true true) true true true
    StreamingTypeMax sampleFactory none none 0 "" "").1 _ rfl⟩

/-- C21: at the beginning of a cycle with both surfaces requested, when the
horizontal handler reports delay-starting with `a` seconds and the vertical
handler with `b` seconds, in either order, with any callbacks before and
between the two except another delay-starting callback (delay-stopping
callbacks included), the first of the two emits nothing and the second emits
exactly `StreamDelayStarting a b`, horizontal seconds first; the same holds
for delay-stopping and `StreamDelayStopping a b`, with any callbacks before
and between the two except another delay-stopping callback. -/
theorem C21_delay_payload (d : DualOutputHandler) (service vservice : Ptr)
    (out : DualOutputHandler × List HandlerCall × Bool)
    (hrun : d.StartStreaming service vservice = some out)
    (hH : out.1.startStreaming.get Horizontal = true)
    (hV : out.1.startStreaming.get Vertical = true)
    (q : Ptr) (hq : q ≠ out.1.houtputPtr) (a b : Int) (pre mid pre' mid' : List Callback)
    (hpre : ∀ x ∈ pre, x.eventClass ≠ some EventClass.DelayStarting)
    (hmid : ∀ x ∈ mid, x.eventClass ≠ some EventClass.DelayStarting)
    (hpre' : ∀ x ∈ pre', x.eventClass ≠ some EventClass.DelayStopping)
    (hmid' : ∀ x ∈ mid', x.eventClass ≠ some EventClass.DelayStopping) :
    (((deliverAll out.1 pre).1.StreamDelayStarting out.1.houtputPtr a).2 = [] ∧
      ((deliverAll ((deliverAll out.1 pre).1.StreamDelayStarting out.1.houtputPtr a).1
        mid).1.StreamDelayStarting q b).2 = [Notification.StreamDelayStarting a b]) ∧
    (((deliverAll out.1 pre).1.StreamDelayStarting q b).2 = [] ∧
      ((deliverAll ((deliverAll out.1 pre).1.StreamDelayStarting q b).1
        mid).1.StreamDelayStarting out.1.houtputPtr a).2 =
          [Notification.StreamDelayStarting a b]) ∧
    (((deliverAll out.1 pre').1.StreamDelayStopping out.1.houtputPtr a).2 = [] ∧
      ((deliverAll ((deliverAll out.1 pre').1.StreamDelayStopping out.1.houtputPtr a).1
        mid').1.StreamDelayStopping q b).2 = [Notification.StreamDelayStopping a b]) ∧
    (((deliverAll out.1 pre').1.StreamDelayStopping q b).2 = [] ∧
      ((deliverAll ((deliverAll out.1 pre').1.StreamDelayStopping q b).1
        mid').1.StreamDelayStopping out.1.houtputPtr a).2 =
          [Notification.StreamDelayStopping a b]) := by
  have e := (StartStreaming_eq d service vservice out hrun).1
  rw [hH, hV] at e
  have f1 : out.1.streamDelayStarting = ⟨false, false⟩ :=
    congrArg StateTable.streamDelayStarting e
  have f2 : out.1.streamDelayStartingSec = ⟨0, 0⟩ :=
    congrArg StateTable.streamDelayStartingSec e
  have f3 : out.1.streamDelayStopping = ⟨false, false⟩ :=
    congrArg StateTable.streamDelayStopping e
  have f4 : out.1.streamDelayStoppingSec = ⟨0, 0⟩ :=
    congrArg StateTable.streamDelayStoppingSec e
  have f0 : out.1.startStreaming = ⟨true, true⟩ := congrArg StateTable.startStreaming e
  have tp : ∀ x : DualOutputHandler, x.houtputPtr = out.1.houtputPtr →
      x.typeOf out.1.houtputPtr = Horizontal := by
    intro x hx; simp [DualOutputHandler.typeOf, hx]
  have tq : ∀ x : DualOutputHandler, x.houtputPtr = out.1.houtputPtr →
      x.typeOf q = Vertical := by
    intro x hx; simp [DualOutputHandler.typeOf, hx, Ne.symm hq]
  have p0 := deliverAll_houtputPtr out.1 pre
  have n0 := deliverAll_not_delayStarting out.1 pre hpre
  have r0 := deliverAll_startStreaming out.1 pre
  have p0' := deliverAll_houtputPtr out.1 pre'
  have n0' := deliverAll_not_delayStopping out.1 pre' hpre'
  have r0' := deliverAll_startStreaming out.1 pre'
  refine ⟨⟨?_, ?_⟩, ⟨?_, ?_⟩, ⟨?_, ?_⟩, ⟨?_, ?_⟩⟩
  · rw [StreamDelayStarting_out, tp _ p0, r0, n0.1, f0, f1]; rfl
  · have p1 := (deliverAll_houtputPtr ((deliverAll out.1 pre).1.StreamDelayStarting
      out.1.houtputPtr a).1 mid).trans ((StreamDelayStarting_houtputPtr _ _ _).trans p0)
    have n1 := deliverAll_not_delayStarting ((deliverAll out.1 pre).1.StreamDelayStarting
      out.1.houtputPtr a).1 mid hmid
    have r1 := deliverAll_startStreaming ((deliverAll out.1 pre).1.StreamDelayStarting
      out.1.houtputPtr a).1 mid
    have g := StreamDelayStarting_gate (deliverAll out.1 pre).1 out.1.houtputPtr a
    rw [StreamDelayStarting_out, tq _ p1, r1, n1.1, n1.2, g.1, g.2.1, g.2.2.1, tp _ p0, r0,
      n0.1, n0.2, f0, f1, f2]
    rfl
  · rw [StreamDelayStarting_out, tq _ p0, r0, n0.1, f0, f1]; rfl
  · have p1 := (deliverAll_houtputPtr ((deliverAll out.1 pre).1.StreamDelayStarting
      q b).1 mid).trans ((StreamDelayStarting_houtputPtr _ _ _).trans p0)
    have n1 := deliverAll_not_delayStarting ((deliverAll out.1 pre).1.StreamDelayStarting
      q b).1 mid hmid
    have r1 := deliverAll_startStreaming ((deliverAll out.1 pre).1.StreamDelayStarting
      q b).1 mid
    have g := StreamDelayStarting_gate (deliverAll out.1 pre).1 q b
    rw [StreamDelayStarting_out, tp _ p1, r1, n1.1, n1.2, g.1, g.2.1, g.2.2.1, tq _ p0, r0,
      n0.1, n0.2, f0, f1, f2]
    rfl
  · rw [StreamDelayStopping_out, tp _ p0', r0', n0'.1, f0, f3]; rfl
  · have p1 := (deliverAll_houtputPtr ((deliverAll out.1 pre').1.StreamDelayStopping
      out.1.houtputPtr a).1 mid').trans ((StreamDelayStopping_houtputPtr _ _ _).trans p0')
    have n1 := deliverAll_not_delayStopping ((deliverAll out.1 pre').1.StreamDelayStopping
      out.1.houtputPtr a).1 mid' hmid'
    have r1 := deliverAll_startStreaming ((deliverAll out.1 pre').1.StreamDelayStopping
      out.1.houtputPtr a).1 mid'
    have g := StreamDelayStopping_gate (deliverAll out.1 pre').1 out.1.houtputPtr a
    rw [StreamDelayStopping_out, tq _ p1, r1, n1.1, n1.2, g.1, g.2.1, g.2.2.1,
      tp _ p0', r0', n0'.1, n0'.2, f0, f3, f4]
    rfl
  · rw [StreamDelayStopping_out, tq _ p0', r0', n0'.1, f0, f3]; rfl
  · have p1 := (deliverAll_houtputPtr ((deliverAll out.1 pre').1.StreamDelayStopping
      q b).1 mid').trans ((StreamDelayStopping_houtputPtr _ _ _).trans p0')
    have n1 := deliverAll_not_delayStopping ((deliverAll out.1 pre').1.StreamDelayStopping
      q b).1 mid' hmid'
    have r1 := deliverAll_startStreaming ((deliverAll out.1 pre').1.StreamDelayStopping
      q b).1 mid'
    have g := StreamDelayStopping_gate (deliverAll out.1 pre').1 q b
    rw [StreamDelayStopping_out, tp _ p1, r1, n1.1, n1.2, g.1, g.2.1, g.2.2.1,
      tq _ p0', r0', n0'.1, n0'.2, f0, f3, f4]
    rfl

/-- Witness for C21: 5 and 7 seconds; a started and a delay-stopping callback
come before the two delay-starting callbacks, and a delay-stopping and a
stop-in-progress callback come between them. -/
theorem C21_delay_payload_witness :
    (sampleObject staleTable true true).StartStreaming (some 10) (some 20) = some sampleBoth ∧
      ((deliverAll sampleBoth.1 [Callback.StreamingStart (some 1),
        Callback.StreamDelayStopping (some 1) 3]).1.StreamDelayStarting (some 1) 5).2 = [] ∧
      ((deliverAll ((deliverAll sampleBoth.1 [Callback.StreamingStart (some 1),
        Callback.StreamDelayStopping (some 1) 3]).1.StreamDelayStarting (some 1) 5).1
          [Callback.StreamDelayStopping (some 2) 9,
            Callback.StreamStopping (some 2)]).1.StreamDelayStarting (some 2) 7).2 =
        [Notification.StreamDelayStarting 5 7] :=
  ⟨rfl, (C21_delay_payload (sampleObject staleTable true true) (some 10) (some 20) sampleBoth
    rfl rfl rfl (some 2) (by decide) 5 7
    [Callback.StreamingStart (some 1), Callback.StreamDelayStopping (some 1) 3]
    [Callback.StreamDelayStopping (some 2) 9, Callback.StreamStopping (some 2)]
    [Callback.StreamDelayStarting (some 2) 1] [Callback.StreamingStop (some 1) 0 ""]
    (by decide) (by decide) (by decide) (by decide)).1⟩

/-- C22: in a cycle where only the horizontal surface was requested and every
callback so far came from the horizontal handler, a delay-starting callback of
the horizontal handler with `n` seconds emits exactly `StreamDelayStarting n 0`,
a delay-stopping one exactly `StreamDelayStopping n 0`, and a stopped one with
`(c, m)` exactly `StreamingStop c m 0 ""`, whatever the horizontal handler
reported before (started or not). -/
theorem C22_primary_only_payloads (d : DualOutputHandler) (service vservice : Ptr)
    (out : DualOutputHandler × List HandlerCall × Bool)
    (hrun : d.StartStreaming service vservice = some out)
    (hH : out.1.startStreaming.get Horizontal = true)
    (hV : out.1.startStreaming.get Vertical = false)
    (cs : List Callback) (hcs : ∀ x ∈ cs, x.handler = out.1.houtputPtr)
    (n c : Int) (m : String) :
    ((deliverAll out.1 cs).1.StreamDelayStarting out.1.houtputPtr n).2 =
      [Notification.StreamDelayStarting n 0] ∧
    ((deliverAll out.1 cs).1.StreamDelayStopping out.1.houtputPtr n).2 =
      [Notification.StreamDelayStopping n 0] ∧
    ((deliverAll out.1 cs).1.StreamingStop out.1.houtputPtr c m).2 =
      [Notification.StreamingStop c m 0 ""] := by
  have e := (StartStreaming_eq d service vservice out hrun).1
  rw [hH, hV] at e
  have h0 : primaryOnly out.1.toStateTable := by
    rw [e]; simp [primaryOnly, freshTable]
  have h1 := deliverAll_primaryOnly out.1 cs (fun x hx => (hcs x hx).symm) h0
  have h2 := primaryOnly_payloads (deliverAll out.1 cs).1 h1 n c m
  rw [deliverAll_houtputPtr] at h2
  exact h2

/-- Witness for C22: the horizontal handler has reported started before. -/
theorem C22_primary_only_payloads_witness :
    (sampleObject staleTable true true).StartStreaming (some 10) none = some sampleOnlyH ∧
      ((deliverAll sampleOnlyH.1 [Callback.StreamingStart (some 1)]).1.StreamDelayStarting
        (some 1) 5).2 = [Notification.StreamDelayStarting 5 0] ∧
      ((deliverAll sampleOnlyH.1 [Callback.StreamingStart (some 1)]).1.StreamDelayStopping
        (some 1) 5).2 = [Notification.StreamDelayStopping 5 0] ∧
      ((deliverAll sampleOnlyH.1 [Callback.StreamingStart (some 1)]).1.StreamingStop
        (some 1) 4 "net-err").2 = [Notification.StreamingStop 4 "net-err" 0 ""] :=
  ⟨rfl, C22_primary_only_payloads (sampleObject staleTable true true) (some 10) none
    sampleOnlyH rfl rfl rfl [Callback.StreamingStart (some 1)] (by decide) 5 4 "net-err"⟩

/-- C23: in every state reached from `StartStreaming` through per-surface
callbacks, a set `streamingStartInvoked` comes with a set started flag of the
horizontal or of the vertical surface; and a callback that emits
`StreamingStart` leaves at least one started flag set. -/
theorem C23_start_needs_started (d : DualOutputHandler) (service vservice : Ptr)
    (out : DualOutputHandler × List HandlerCall × Bool)
    (hrun : d.StartStreaming service vservice = some out)
    (cs : List Callback) (c : Callback) :
    ((deliverAll out.1 cs).1.streamingStartInvoked = true →
      ((deliverAll out.1 cs).1.streamingStart.get Horizontal = true ∨
        (deliverAll out.1 cs).1.streamingStart.get Vertical = true)) ∧
    (Notification.StreamingStart ∈ (deliver (deliverAll out.1 cs).1 c).2 →
      ((deliver (deliverAll out.1 cs).1 c).1.streamingStart.get Horizontal = true ∨
        (deliver (deliverAll out.1 cs).1 c).1.streamingStart.get Vertical = true)) := by
  have hi : out.1.streamingStartInvoked = startSettled out.1.toStateTable := by
    rw [(StartStreaming_eq d service vservice out hrun).1]
    simp [freshTable, startSettled, PerType.get]
  refine ⟨fun h => ?_, deliver_start_started _ c⟩
  rw [deliverAll_startSettled out.1 cs hi] at h
  exact startSettled_started _ h

/-- Witness for C23: both surfaces have reported started. -/
theorem C23_start_needs_started_witness :
    (sampleObject staleTable true true).StartStreaming (some 10) (some 20) = some sampleBoth ∧
      (deliverAll sampleBoth.1 [Callback.StreamingStart (some 1),
        Callback.StreamingStart (some 2)]).1.streamingStartInvoked = true ∧
      ((deliverAll sampleBoth.1 [Callback.StreamingStart (some 1),
          Callback.StreamingStart (some 2)]).1.streamingStart.get Horizontal = true ∨
        (deliverAll sampleBoth.1 [Callback.StreamingStart (some 1),
          Callback.StreamingStart (some 2)]).1.streamingStart.get Vertical = true) :=
  ⟨rfl, by decide, (C23_start_needs_started (sampleObject staleTable true true) (some 10)
    (some 20) sampleBoth rfl [Callback.StreamingStart (some 1),
      Callback.StreamingStart (some 2)] (Callback.StreamStopping (some 1))).1 (by decide)⟩

/-- C24: when `streamingStartInvoked` is already true, a stopped callback with
`(c, m)` raises no tray warning and leaves `c` and `m` stored for the reporting
surface; and in a cycle where both surfaces reported started (in either order)
and then the horizontal handler reports stopped with `(c₁, m₁)` and the
vertical one with `(c₂, m₂)` (in either order), the second stopped callback
emits `StreamingStop c₁ m₁ c₂ m₂`, the horizontal pair first, and the four
callbacks send nothing but `StreamingStart` and that `StreamingStop`. -/
theorem C24_failure_after_start (d : DualOutputHandler) (service vservice : Ptr)
    (out : DualOutputHandler × List HandlerCall × Bool)
    (hrun : d.StartStreaming service vservice = some out)
    (hH : out.1.startStreaming.get Horizontal = true)
    (hV : out.1.startStreaming.get Vertical = true)
    (q : Ptr) (hq : q ≠ out.1.houtputPtr) (c₁ c₂ : Int) (m₁ m₂ : String) :
    (∀ (x : DualOutputHandler) (handler : Ptr) (c : Int) (m : String),
      x.streamingStartInvoked = true →
        Notification.SysTrayNotify ∉ (x.StreamingStop handler c m).2 ∧
        (x.StreamingStop handler c m).1.streamingStopErrorCode.get (x.typeOf handler) = c ∧
        (x.StreamingStop handler c m).1.streamingStopLastError.get (x.typeOf handler) = m) ∧
    (deliverAll out.1 [Callback.StreamingStart out.1.houtputPtr, Callback.StreamingStart q,
      Callback.StreamingStop out.1.houtputPtr c₁ m₁, Callback.StreamingStop q c₂ m₂]).2 =
      [Notification.StreamingStart, Notification.StreamingStop c₁ m₁ c₂ m₂] ∧
    (deliverAll out.1 [Callback.StreamingStart out.1.houtputPtr, Callback.StreamingStart q,
      Callback.StreamingStop q c₂ m₂, Callback.StreamingStop out.1.houtputPtr c₁ m₁]).2 =
      [Notification.StreamingStart, Notification.StreamingStop c₁ m₁ c₂ m₂] ∧
    (deliverAll out.1 [Callback.StreamingStart q, Callback.StreamingStart out.1.houtputPtr,
      Callback.StreamingStop out.1.houtputPtr c₁ m₁, Callback.StreamingStop q c₂ m₂]).2 =
      [Notification.StreamingStart, Notification.StreamingStop c₁ m₁ c₂ m₂] ∧
    (deliverAll out.1 [Callback.StreamingStart q, Callback.StreamingStart out.1.houtputPtr,
      Callback.StreamingStop q c₂ m₂, Callback.StreamingStop out.1.houtputPtr c₁ m₁]).2 =
      [Notification.StreamingStart, Notification.StreamingStop c₁ m₁ c₂ m₂] := by
  refine ⟨?_, ?_⟩
  · intro x handler c m hinv
    have h := StreamingStop_after_start x handler c m hinv
    refine ⟨h.1, ?_, ?_⟩
    · rw [h.2.2.1]
      rcases typeOf_cases x handler with ⟨_, ht⟩ | ⟨_, ht⟩ <;> rw [ht] <;> rfl
    · rw [h.2.2.2]
      rcases typeOf_cases x handler with ⟨_, ht⟩ | ⟨_, ht⟩ <;> rw [ht] <;> rfl
  · have e := StartStreaming_fresh d service vservice out hrun true true hH hV
    have hq' : ¬ out.1.houtputPtr = q := fun h => hq h.symm
    rw [e] at hq' ⊢
    simp [deliverAll, deliver, DualOutputHandler.StreamingStart,
      DualOutputHandler.StreamingStop, DualOutputHandler.typeOf,
      DualOutputHandler.houtputPtr, freshTable, PerType.get, PerType.set] at hq' ⊢
    simp [hq']

/-- Witness for C24: the horizontal surface fails with `(1, "a")`, the vertical
one with `(2, "b")`. -/
theorem C24_failure_after_start_witness :
    (sampleObject staleTable true true).StartStreaming (some 10) (some 20) = some sampleBoth ∧
      (deliverAll sampleBoth.1 [Callback.StreamingStart (some 1),
        Callback.StreamingStart (some 2), Callback.StreamingStop (some 1) 1 "a",
        Callback.StreamingStop (some 2) 2 "b"]).2 =
      [Notification.StreamingStart, Notification.StreamingStop 1 "a" 2 "b"] :=
  ⟨rfl, (C24_failure_after_start (sampleObject staleTable true true) (some 10) (some 20)
    sampleBoth rfl rfl rfl (some 2) (by decide) 1 2 "a" "b").2.1⟩

/-- C25: in every state, a per-surface callback raises the tray warning exactly
when that same callback emits `StreamingStart` while the stopped flag of the
horizontal or of the vertical surface is set; a cycle raises at most one
warning; and a callback that emits `StreamingStart` with no stopped flag set
raises no warning and leaves every stored error code and message as it was. -/
theorem C25_warning (d : DualOutputHandler) (service vservice : Ptr)
    (out : DualOutputHandler × List HandlerCall × Bool)
    (_hrun : d.StartStreaming service vservice = some out) (cs : List Callback)
    (x : DualOutputHandler) (c : Callback) :
    (Notification.SysTrayNotify ∈ (deliver x c).2 ↔
      (Notification.StreamingStart ∈ (deliver x c).2 ∧
        ((deliver x c).1.streamingStop.get Horizontal = true ∨
          (deliver x c).1.streamingStop.get Vertical = true))) ∧
    (deliverAll out.1 cs).2.count Notification.SysTrayNotify ≤ 1 ∧
    (Notification.StreamingStart ∈ (deliver x c).2 →
      (deliver x c).1.streamingStop.get Horizontal = false →
      (deliver x c).1.streamingStop.get Vertical = false →
        Notification.SysTrayNotify ∉ (deliver x c).2 ∧
        (deliver x c).1.streamingStopErrorCode = x.streamingStopErrorCode ∧
        (deliver x c).1.streamingStopLastError = x.streamingStopLastError) := by
  have hw := deliver_warning x c
  refine ⟨hw.1, ?_, ?_⟩
  · have h1 := deliverAll_warning_count out.1 cs
    have h2 := deliverAll_start_budget out.1 cs
    have h3 := startBudget_le_one out.1
    omega
  · intro hs hh hv
    have hn : Notification.SysTrayNotify ∉ (deliver x c).2 := by
      intro hmem
      rcases (hw.1.1 hmem).2 with h | h
      · rw [hh] at h; exact absurd h (by simp)
      · rw [hv] at h; exact absurd h (by simp)
    refine ⟨hn, ?_⟩
    rcases hw.2.2 hn with h | ⟨handler, e, m, rfl⟩
    · exact h
    · exfalso
      have hg := (StreamingStop_gate x handler e m).1
      simp only [deliver] at hh hv
      rw [hg] at hh hv
      rcases typeOf_cases x handler with ⟨_, ht⟩ | ⟨_, ht⟩
      · rw [ht] at hh; simp [PerType.get, PerType.set] at hh
      · rw [ht] at hv; simp [PerType.get, PerType.set] at hv

/-- Witness for C25: a cycle in which the vertical surface fails before the
horizontal one starts. -/
theorem C25_warning_witness :
    (sampleObject staleTable true true).StartStreaming (some 10) (some 20) = some sampleBoth ∧
      (deliverAll sampleBoth.1 [Callback.StreamingStop (some 2) 4 "net-err",
        Callback.StreamingStart (some 1), Callback.StreamingStart (some 2),
        Callback.StreamingStop (some 1) 0 ""]).2.count Notification.SysTrayNotify ≤ 1 :=
  ⟨rfl, (C25_warning (sampleObject staleTable true true) (some 10) (some 20) sampleBoth rfl
    [Callback.StreamingStop (some 2) 4 "net-err", Callback.StreamingStart (some 1),
      Callback.StreamingStart (some 2), Callback.StreamingStop (some 1) 0 ""]
    sampleBoth.1 (Callback.StreamingStart (some 1))).2.1⟩

/-- C26: in a well-formed cycle (only requested surfaces call back; each
surface reports started at most once, stopped at most once, and started before
stopped), when a callback emits `StreamingStop` and some surface reports
started in the cycle, then `StreamingStart` was emitted by an earlier callback
of the cycle, or that callback sends the tray warning, `StreamingStart` and
then `StreamingStop`; and no later callback of the cycle emits
`StreamingStart`. -/
theorem C26_start_before_stop (d : DualOutputHandler) (service vservice : Ptr)
    (out : DualOutputHandler × List HandlerCall × Bool)
    (hrun : d.StartStreaming service vservice = some out)
    (pre post : List Callback) (c : Callback)
    (hwf : wellFormed out.1 (pre ++ c :: post))
    (hstop : ∃ a b e f, Notification.StreamingStop a b e f ∈
      (deliver (deliverAll out.1 pre).1 c).2)
    (hstarted : ∃ x ∈ pre ++ c :: post, x.isStarted = true) :
    (Notification.StreamingStart ∈ (deliverAll out.1 pre).2 ∨
      ∃ a b e f, (deliver (deliverAll out.1 pre).1 c).2 =
        [Notification.SysTrayNotify, Notification.StreamingStart,
          Notification.StreamingStop a b e f]) ∧
    Notification.StreamingStart ∉ (deliverAll (deliver (deliverAll out.1 pre).1 c).1 post).2 := by
  obtain ⟨a, b, e, f, hmem⟩ := hstop
  obtain ⟨x, hx, hxs⟩ := hstarted
  obtain ⟨hcstop, hset⟩ := stop_emitted_settled _ c a b e f hmem
  have efresh := (StartStreaming_eq d service vservice out hrun).1
  have hi : out.1.streamingStartInvoked = startSettled out.1.toStateTable := by
    rw [efresh]; simp [freshTable, startSettled, PerType.get]
  have hstart0 : ∀ t, out.1.streamingStart.get t = false := by
    intro t
    have := congrArg StateTable.streamingStart efresh
    simp only [freshTable] at this
    rw [this]; cases t <;> rfl
  have hstop0 : ∀ t, out.1.streamingStop.get t = false := by
    intro t
    have := congrArg StateTable.streamingStop efresh
    simp only [freshTable] at this
    rw [this]; cases t <;> rfl
  -- the surface of the started report
  have htne := typeOf_ne_max out.1 x.handler
  have hreq : out.1.startStreaming.get (out.1.typeOf x.handler) = true := hwf.1 x hx
  -- the state after `pre ++ [c]`
  have hsc : (deliver (deliverAll out.1 pre).1 c).1 = (deliverAll out.1 (pre ++ [c])).1 := by
    rw [deliverAll_append]; simp [deliverAll]
  have hreq' : (deliverAll out.1 (pre ++ [c])).1.startStreaming = out.1.startStreaming :=
    deliverAll_startStreaming _ _
  -- that surface is stopped after `c`
  have hstopped : (deliverAll out.1 (pre ++ [c])).1.streamingStop.get
      (out.1.typeOf x.handler) = true := by
    rw [hsc] at hset
    simp only [allSettled, everySurfaceSettled, settled, EventClass.flag, hreq',
      Bool.and_eq_true, Bool.or_eq_true, Bool.not_eq_true'] at hset
    rcases typeOf_cases out.1 x.handler with ⟨_, ht⟩ | ⟨_, ht⟩
    · rw [ht] at hreq ⊢
      rcases hset.1 with h | h
      · rw [hreq] at h; exact absurd h (by simp)
      · exact h
    · rw [ht] at hreq ⊢
      rcases hset.2 with h | h
      · rw [hreq] at h; exact absurd h (by simp)
      · exact h
  have hany := (deliverAll_started_stopped out.1 (pre ++ [c]) _ htne).2
  rw [hstopped, hstop0] at hany
  have hfalse : false ∈ lifecycle out.1 (out.1.typeOf x.handler) (pre ++ [c]) :=
    lifecycle_mem_false out.1 _ _ (by simpa using hany.symm)
  -- the started report is in `pre`
  have hxpre : x ∈ pre := by
    rcases List.mem_append.1 hx with h | h
    · exact h
    · exfalso
      rcases List.mem_cons.1 h with h | h
      · subst h
        cases x <;> simp [Callback.isStarted, Callback.isStopped] at hxs hcstop
      · have htrue := lifecycle_mem_true out.1 post x h hxs
        have hl := hwf.2 (out.1.typeOf x.handler)
        have happ : pre ++ c :: post = (pre ++ [c]) ++ post := by simp
        rw [happ, lifecycle_append] at hl
        exact lifecycle_order _ _ hfalse htrue hl
  -- so its started flag is set before `c`
  have hflag : (deliverAll out.1 pre).1.streamingStart.get (out.1.typeOf x.handler) = true := by
    rw [(deliverAll_started_stopped out.1 pre _ htne).1]
    simp only [Bool.or_eq_true, List.any_eq_true, Bool.and_eq_true, decide_eq_true_eq]
    exact Or.inr ⟨x, hxpre, hxs, rfl⟩
  have hflag' : (deliver (deliverAll out.1 pre).1 c).1.streamingStart.get
      (out.1.typeOf x.handler) = true := by
    rw [(deliver_started_stopped _ c _ htne).1, hflag]; rfl
  -- the aggregate start has been reported once `c` is processed
  have hinv_p := deliverAll_startSettled out.1 pre hi
  have hinv_c := deliver_startSettled _ c hinv_p
  have hreq_c : (deliver (deliverAll out.1 pre).1 c).1.startStreaming =
      out.1.startStreaming := by rw [hsc]; exact hreq'
  have hdone : (deliver (deliverAll out.1 pre).1 c).1.streamingStartInvoked = true := by
    rw [hinv_c]
    simp only [allSettled, everySurfaceSettled, settled, EventClass.flag, Bool.and_eq_true,
      Bool.or_eq_true, Bool.not_eq_true'] at hset
    simp only [startSettled, Bool.and_eq_true, Bool.or_eq_true, Bool.not_eq_true']
    refine ⟨⟨?_, ?_⟩, ?_⟩
    · rcases typeOf_cases out.1 x.handler with ⟨_, ht⟩ | ⟨_, ht⟩
      · rw [ht] at hflag'; exact Or.inl hflag'
      · rw [ht] at hflag'; exact Or.inr hflag'
    · rcases hset.1 with h | h
      · exact Or.inl (Or.inl h)
      · exact Or.inr h
    · rcases hset.2 with h | h
      · exact Or.inl (Or.inl h)
      · exact Or.inr h
  have hb_c : startBudget (deliver (deliverAll out.1 pre).1 c).1 = 0 := by
    simp [startBudget, hdone]
  constructor
  · cases hp : (deliverAll out.1 pre).1.streamingStartInvoked
    · right
      have hcount := deliver_start_count (deliverAll out.1 pre).1 c
      have hb_p : startBudget (deliverAll out.1 pre).1 = 1 := by simp [startBudget, hp]
      rw [hb_c, hb_p] at hcount
      have hs : Notification.StreamingStart ∈ (deliver (deliverAll out.1 pre).1 c).2 :=
        List.count_pos_iff.1 (by omega)
      cases c <;> simp [Callback.isStopped] at hcstop
      exact stop_after_start_shape _ _ _ _ hs hset
    · left
      have hcount := deliverAll_start_count out.1 pre
      have hb_p : startBudget (deliverAll out.1 pre).1 = 0 := by simp [startBudget, hp]
      have hb_0 : startBudget out.1 = 1 := by
        have := congrArg StateTable.streamingStartInvoked efresh
        simp only [freshTable] at this
        simp [startBudget, this]
      rw [hb_p, hb_0] at hcount
      exact List.count_pos_iff.1 (by omega)
  · have hcount := deliverAll_start_budget (deliver (deliverAll out.1 pre).1 c).1 post
    rw [hb_c] at hcount
    intro hmem'
    have := List.count_pos_iff.2 hmem'
    omega

/-- Witness for C26: the horizontal surface starts and stops, then the vertical
surface stops without having started; a stop-in-progress callback follows. -/
theorem C26_start_before_stop_witness :
    (sampleObject staleTable true true).StartStreaming (some 10) (some 20) = some sampleBoth ∧
      wellFormed sampleBoth.1 ([Callback.StreamingStart (some 1),
        Callback.StreamingStop (some 1) 1 "a"] ++ Callback.StreamingStop (some 2) 2 "b" ::
          [Callback.StreamStopping (some 1)]) ∧
      (deliver (deliverAll sampleBoth.1 [Callback.StreamingStart (some 1),
        Callback.StreamingStop (some 1) 1 "a"]).1 (Callback.StreamingStop (some 2) 2 "b")).2 =
        [Notification.SysTrayNotify, Notification.StreamingStart,
          Notification.StreamingStop 1 "a" 0 ""] ∧
      Notification.StreamingStart ∉
        (deliverAll (deliver (deliverAll sampleBoth.1 [Callback.StreamingStart (some 1),
          Callback.StreamingStop (some 1) 1 "a"]).1
            (Callback.StreamingStop (some 2) 2 "b")).1 [Callback.StreamStopping (some 1)]).2 :=
  have hwf : wellFormed sampleBoth.1 ([Callback.StreamingStart (some 1),
      Callback.StreamingStop (some 1) 1 "a"] ++ Callback.StreamingStop (some 2) 2 "b" ::
        [Callback.StreamStopping (some 1)]) :=
    ⟨by decide, fun s => by cases s <;> decide⟩
  ⟨rfl, hwf, by decide,
    (C26_start_before_stop (sampleObject staleTable true true) (some 10) (some 20) sampleBoth
      rfl [Callback.StreamingStart (some 1), Callback.StreamingStop (some 1) 1 "a"]
      [Callback.StreamStopping (some 1)] (Callback.StreamingStop (some 2) 2 "b") hwf
      ⟨1, "a", 0, "", by decide⟩ ⟨Callback.StreamingStart (some 1), by decide, rfl⟩).2⟩

/-- C27: a streaming callback never changes `startStreaming`, never clears a
delay-starting, delay-stopping, started, stop-in-progress or stopped flag of
either surface, and never clears `streamingStartInvoked`; `resetState`, which
only `StartStreaming` calls, clears them all. -/
theorem C27_flags_monotone (d : DualOutputHandler) (c : Callback) (s : StreamingType) :
    (deliver d c).1.startStreaming = d.startStreaming ∧
    (d.streamDelayStarting.get s = true → (deliver d c).1.streamDelayStarting.get s = true) ∧
    (d.streamDelayStopping.get s = true → (deliver d c).1.streamDelayStopping.get s = true) ∧
    (d.streamingStart.get s = true → (deliver d c).1.streamingStart.get s = true) ∧
    (d.streamStopping.get s = true → (deliver d c).1.streamStopping.get s = true) ∧
    (d.streamingStop.get s = true → (deliver d c).1.streamingStop.get s = true) ∧
    (d.streamingStartInvoked = true → (deliver d c).1.streamingStartInvoked = true) ∧
    (d.resetState.startStreaming = ⟨false, false⟩ ∧
      d.resetState.streamDelayStarting = ⟨false, false⟩ ∧
      d.resetState.streamDelayStopping = ⟨false, false⟩ ∧
      d.resetState.streamingStart = ⟨false, false⟩ ∧
      d.resetState.streamStopping = ⟨false, false⟩ ∧
      d.resetState.streamingStop = ⟨false, false⟩ ∧
      d.resetState.streamingStartInvoked = false) := by
  have hm := slotStep_monotone (d.toStateTable.slots s) c
  have f1 : (deliver d c).1.streamDelayStarting.get s =
      ((deliver d c).1.toStateTable.slots s).delayStarting := rfl
  have f2 : (deliver d c).1.streamDelayStopping.get s =
      ((deliver d c).1.toStateTable.slots s).delayStopping := rfl
  have f3 : (deliver d c).1.streamingStart.get s =
      ((deliver d c).1.toStateTable.slots s).started := rfl
  have f4 : (deliver d c).1.streamStopping.get s =
      ((deliver d c).1.toStateTable.slots s).stopInProgress := rfl
  have f5 : (deliver d c).1.streamingStop.get s =
      ((deliver d c).1.toStateTable.slots s).stopped := rfl
  refine ⟨deliver_startStreaming d c, ?_, ?_, ?_, ?_, ?_, deliver_invoked_monotone d c,
    ⟨rfl, rfl, rfl, rfl, rfl, rfl, rfl⟩⟩
  · intro h
    rw [f1]
    rcases deliver_slots_any d c s with e | e <;> rw [e]
    · exact hm.1 h
    · exact h
  · intro h
    rw [f2]
    rcases deliver_slots_any d c s with e | e <;> rw [e]
    · exact hm.2.1 h
    · exact h
  · intro h
    rw [f3]
    rcases deliver_slots_any d c s with e | e <;> rw [e]
    · exact hm.2.2.1 h
    · exact h
  · intro h
    rw [f4]
    rcases deliver_slots_any d c s with e | e <;> rw [e]
    · exact hm.2.2.2.1 h
    · exact h
  · intro h
    rw [f5]
    rcases deliver_slots_any d c s with e | e <;> rw [e]
    · exact hm.2.2.2.2 h
    · exact h

/-- C28: when `operator bool` is true, `StopStreaming` dereferences only
handlers that are present, for every `force` and every target; and so does
`StartStreaming`, for every combination of present and absent configurations
when dual output is on, and for a present horizontal and absent vertical
configuration when dual output is off. -/
theorem C28_only_present_handlers (d : DualOutputHandler) (dualOutputOn : Bool)
    (hvalid : d.operatorBool dualOutputOn = true) :
    (∀ force streamType, (d.StopStreaming dualOutputOn force streamType).isSome = true) ∧
    (dualOutputOn = true → ∀ service vservice,
      (d.StartStreaming service vservice).isSome = true) ∧
    (dualOutputOn = false → ∀ s, (d.StartStreaming (some s) none).isSome = true) := by
  unfold DualOutputHandler.operatorBool at hvalid
  refine ⟨?_, ?_, ?_⟩
  · intro force streamType
    rw [StopStreaming_isSome]
    cases dualOutputOn <;> cases hh : d.houtput <;> cases hv : d.voutput <;>
      cases streamType <;> simp_all
  · intro hon service vservice
    rw [StartStreaming_isSome]
    cases hh : d.houtput <;> cases hv : d.voutput <;> split_ifs <;> simp_all
  · intro hoff s
    rw [StartStreaming_isSome]
    cases hh : d.houtput <;> simp_all

/-- Witness for C28: single-output mode with dual output off. -/
theorem C28_only_present_handlers_witness :
    (sampleSingle staleTable true).operatorBool false = true ∧
      ((sampleSingle staleTable true).StopStreaming false true StreamingTypeMax).isSome = true ∧
      ((sampleSingle staleTable true).StartStreaming (some 10) none).isSome = true :=
  have h := C28_only_present_handlers (sampleSingle staleTable true) false rfl
  ⟨rfl, h.1 true StreamingTypeMax, h.2.2 rfl 10⟩

/-- C29, as stated, fails: after the horizontal handler reported stopped with
`(4, "net-err")`, a started callback whose handler argument is not the
horizontal handler resets the stored horizontal error code and message, which
are fields of the horizontal surface. -/
theorem C29_counterexample :
    (sampleObject staleTable true true).StartStreaming (some 10) (some 20) = some sampleBoth ∧
      (sampleBoth.1.StreamingStop (some 1) 4 "net-err").1.houtputPtr = some 1 ∧
      (sampleBoth.1.StreamingStop (some 1) 4 "net-err").1.streamingStopErrorCode.get
        Horizontal = 4 ∧
      (sampleBoth.1.StreamingStop (some 1) 4 "net-err").1.streamingStopLastError.get
        Horizontal = "net-err" ∧
      ((sampleBoth.1.StreamingStop (some 1) 4 "net-err").1.StreamingStart
        (some 2)).1.streamingStopErrorCode.get Horizontal = 0 ∧
      ((sampleBoth.1.StreamingStop (some 1) 4 "net-err").1.StreamingStart
        (some 2)).1.streamingStopLastError.get Horizontal = "" :=
  ⟨rfl, by decide, by decide, by decide, by decide, by decide⟩

/-- C29, amended: for every handler argument (also one that is neither current
handler, also when no vertical handler exists) a streaming callback is
attributed to the horizontal surface exactly when the argument is identical to
`houtput.get()`, and to the vertical surface otherwise; it sets the flag of its
kind and stores its seconds in the slots of that surface only, and leaves the
flags and delay seconds of the other surface as they are. The delay and
stop-in-progress callbacks leave all stored error codes and messages as they
are. A stopped callback stores its code and message in the slot of the surface
it is attributed to, or 0 and the empty message when it emits the late
`StreamingStart` itself, and leaves the stored error of the other surface as
it is. A started callback, whichever handler delivered it, resets the stored
horizontal error to 0 and the empty message exactly when it emits
`StreamingStart` and the horizontal stopped flag is set, resets the stored
vertical error exactly when it emits `StreamingStart`, the horizontal stopped
flag is not set and the vertical one is, and otherwise leaves the stored
errors as they are; so it resets at most one surface, the horizontal one
first. -/
theorem C29_attribution (d : DualOutputHandler) (handler : Ptr) :
    ((d.typeOf handler = Horizontal ↔ d.houtputPtr = handler) ∧
      (d.typeOf handler = Vertical ↔ d.houtputPtr ≠ handler)) ∧
    (∀ c : Callback, c.handler = handler →
      (deliver d c).1.toStateTable.slots (d.typeOf handler) =
        slotStep (d.toStateTable.slots (d.typeOf handler)) c ∧
      (deliver d c).1.toStateTable.slots (otherType (d.typeOf handler)) =
        d.toStateTable.slots (otherType (d.typeOf handler))) ∧
    (∀ sec,
      ((d.StreamDelayStarting handler sec).1.streamingStopErrorCode =
          d.streamingStopErrorCode ∧
        (d.StreamDelayStarting handler sec).1.streamingStopLastError =
          d.streamingStopLastError) ∧
      ((d.StreamDelayStopping handler sec).1.streamingStopErrorCode =
          d.streamingStopErrorCode ∧
        (d.StreamDelayStopping handler sec).1.streamingStopLastError =
          d.streamingStopLastError) ∧
      ((d.StreamStopping handler).1.streamingStopErrorCode = d.streamingStopErrorCode ∧
        (d.StreamStopping handler).1.streamingStopLastError = d.streamingStopLastError)) ∧
    (∀ e m,
      ((d.StreamingStop handler e m).1.streamingStopErrorCode.get (d.typeOf handler) =
          (if Notification.StreamingStart ∈ (d.StreamingStop handler e m).2 then 0 else e) ∧
        (d.StreamingStop handler e m).1.streamingStopLastError.get (d.typeOf handler) =
          (if Notification.StreamingStart ∈ (d.StreamingStop handler e m).2 then ""
            else m)) ∧
      ((d.StreamingStop handler e m).1.streamingStopErrorCode.get
            (otherType (d.typeOf handler)) =
          d.streamingStopErrorCode.get (otherType (d.typeOf handler)) ∧
        (d.StreamingStop handler e m).1.streamingStopLastError.get
            (otherType (d.typeOf handler)) =
          d.streamingStopLastError.get (otherType (d.typeOf handler)))) ∧
    ((d.StreamingStart handler).1.streamingStopErrorCode.get Horizontal =
        (if Notification.StreamingStart ∈ (d.StreamingStart handler).2 ∧
            d.streamingStop.get Horizontal = true then 0
          else d.streamingStopErrorCode.get Horizontal) ∧
      (d.StreamingStart handler).1.streamingStopLastError.get Horizontal =
        (if Notification.StreamingStart ∈ (d.StreamingStart handler).2 ∧
            d.streamingStop.get Horizontal = true then ""
          else d.streamingStopLastError.get Horizontal)) ∧
    ((d.StreamingStart handler).1.streamingStopErrorCode.get Vertical =
        (if Notification.StreamingStart ∈ (d.StreamingStart handler).2 ∧
            d.streamingStop.get Horizontal = false ∧
            d.streamingStop.get Vertical = true then 0
          else d.streamingStopErrorCode.get Vertical) ∧
      (d.StreamingStart handler).1.streamingStopLastError.get Vertical =
        (if Notification.StreamingStart ∈ (d.StreamingStart handler).2 ∧
            d.streamingStop.get Horizontal = false ∧
            d.streamingStop.get Vertical = true then ""
          else d.streamingStopLastError.get Vertical)) := by
  refine ⟨?_, ?_, gated_errors_frame d handler,
    fun e m => ⟨StreamingStop_stored d handler e m, StreamingStop_other_errors d handler e m⟩,
    StreamingStart_stored d handler⟩
  · unfold DualOutputHandler.typeOf
    by_cases h : d.houtputPtr = handler <;> simp [h]
  · intro c hc
    subst hc
    exact slots_other d c

/-- An instance of the amended C29: after the horizontal handler reported
stopped with `(4, "net-err")` and the vertical handler with `(5, "v-err")`, both
stored in their own slots, a started callback of the horizontal handler emits
`StreamingStart` and resets the stored horizontal error only; the stored
vertical error stays `(5, "v-err")`. -/
theorem C29_attribution_witness :
    ((sampleBoth.1.StreamingStop (some 1) 4 "net-err").1.StreamingStop (some 2) 5
        "v-err").1.streamingStopErrorCode = ⟨4, 5⟩ ∧
      (((sampleBoth.1.StreamingStop (some 1) 4 "net-err").1.StreamingStop (some 2) 5
        "v-err").1.StreamingStart (some 1)).2 =
          [Notification.SysTrayNotify, Notification.StreamingStart] ∧
      (((sampleBoth.1.StreamingStop (some 1) 4 "net-err").1.StreamingStop (some 2) 5
        "v-err").1.StreamingStart (some 1)).1.streamingStopErrorCode.get Horizontal = 0 ∧
      (((sampleBoth.1.StreamingStop (some 1) 4 "net-err").1.StreamingStop (some 2) 5
        "v-err").1.StreamingStart (some 1)).1.streamingStopErrorCode.get Vertical = 5 ∧
      (((sampleBoth.1.StreamingStop (some 1) 4 "net-err").1.StreamingStop (some 2) 5
        "v-err").1.StreamingStart (some 1)).1.streamingStopLastError.get Vertical = "v-err" :=
  have h := C29_attribution ((sampleBoth.1.StreamingStop (some 1) 4 "net-err").1.StreamingStop
    (some 2) 5 "v-err").1 (some 1)
  ⟨by decide, by decide, h.2.2.2.2.1.1.trans (by decide), h.2.2.2.2.2.1.trans (by decide),
    h.2.2.2.2.2.2.trans (by decide)⟩

/-- C30: when the horizontal handler exists, `StreamingActive()`, `Active()`
and `streamingActive()` each return the value of the horizontal handler or-ed
with (vertical handler present and its value); `streamingActive()` is
`streamingActive(Horizontal)` or-ed with `streamingActive(Vertical)`; and
`streamingActive(StreamingTypeMax)` returns false in every state. -/
theorem C30_combined_queries (d : DualOutputHandler) (h : BasicOutputHandler)
    (hh : d.houtput = some h) :
    d.StreamingActive.map (fun r => r.2.2) =
      some (h.StreamingActive || presentAnd d.voutput BasicOutputHandler.StreamingActive) ∧
    d.Active.map (fun r => r.2.2) =
      some (h.Active || presentAnd d.voutput BasicOutputHandler.Active) ∧
    d.streamingActive.map (fun r => r.2.2) =
      some (h.streamingActive || presentAnd d.voutput BasicOutputHandler.streamingActive) ∧
    (d.streamingActiveOf Horizontal).map (fun r => r.2.2) = some h.streamingActive ∧
    (d.streamingActiveOf Vertical).map (fun r => r.2.2) =
      some (presentAnd d.voutput BasicOutputHandler.streamingActive) ∧
    (∃ a b, (d.streamingActiveOf Horizontal).map (fun r => r.2.2) = some a ∧
      (d.streamingActiveOf Vertical).map (fun r => r.2.2) = some b ∧
      d.streamingActive.map (fun r => r.2.2) = some (a || b)) ∧
    d.streamingActiveOf StreamingTypeMax = some (d, [], false) := by
  cases hv : d.voutput <;>
    simp [DualOutputHandler.StreamingActive, DualOutputHandler.Active,
      DualOutputHandler.streamingActive, DualOutputHandler.streamingActiveOf, presentAnd, hh, hv]
    <;> (refine ⟨?_, ?_, ?_⟩ <;> split_ifs <;> simp_all)

/-- Witness for C30: single-output mode, no vertical handler. -/
theorem C30_combined_queries_witness :
    (sampleSingle staleTable true).houtput = some (sampleHandler 1 true) ∧
      (sampleSingle staleTable true).StreamingActive.map (fun r => r.2.2) = some false ∧
      (sampleSingle staleTable true).streamingActiveOf StreamingTypeMax =
        some (sampleSingle staleTable true, [], false) :=
  have h := C30_combined_queries (sampleSingle staleTable true) (sampleHandler 1 true) rfl
  ⟨rfl, h.1, h.2.2.2.2.2.2⟩

end DualOutput
